import Mathlib

/-! vdr-plugin-vnsiserver: the connection dispatcher of `vnsiclient.c`

A shallow embedding of `cVNSIClient` (src/vnsiclient.c): the command loop
`Action`, the dispatcher `processRequest` and the handlers of the login,
live-stream and recording-stream opcodes.

Conventions of the embedding.

* A byte is a `Nat` below 256; a buffer is a `List Nat`.
* `m_socket` is split in two: the bytes the peer has sent and the loop has not
  yet read are the list `pending` threaded through `Action`; the buffers handed
  to `m_socket.write` are recorded, oldest first, in `cVNSIClient.m_socket`.
* `m_req` and `m_resp` live only for the duration of one `processRequest`; the
  handlers receive them as arguments.
* Collaborators that are not part of `vnsiclient.c` (channel list, streamer,
  recording player, clock, allocator) answer through the record `Env`; the
  command loop is given one `Env` per pass, so their answers may change
  between two requests.
* The constants of `vnsicommand.h` are kept symbolic in the record
  `vnsicommand`.
-/

namespace VNSI

set_option autoImplicit false

/-! ## Wire encoding -/

/-- Four bytes, most significant first, of a value reduced modulo 2^32
    (`htonl` followed by a raw copy). -/
def be32 (v : Nat) : List Nat :=
  [v / 16777216 % 256, v / 65536 % 256, v / 256 % 256, v % 256]

/-- Eight bytes, most significant first, of a value reduced modulo 2^64. -/
def be64 (v : Nat) : List Nat :=
  be32 (v / 4294967296) ++ be32 v

/-- The value of four received bytes after `ntohl`. -/
def ntohl (b0 b1 b2 b3 : Nat) : Nat :=
  (b0 % 256) * 16777216 + (b1 % 256) * 65536 + (b2 % 256) * 256 + b3 % 256

/-- Two-complement image of a signed 32-bit value. -/
def s32 (v : Int) : Nat := (v % 4294967296).toNat

/-- Signed reading of a 32-bit pattern. -/
def toS32 (v : Nat) : Int :=
  if v % 4294967296 < 2147483648 then (v % 4294967296 : Nat) else (v % 4294967296 : Nat) - 4294967296

/-- Signed reading of a 64-bit pattern. -/
def toS64 (v : Nat) : Int :=
  if v % 18446744073709551616 < 9223372036854775808 then (v % 18446744073709551616 : Nat)
  else (v % 18446744073709551616 : Nat) - 18446744073709551616

/-- Value of a big-endian byte string. -/
def beValue (bs : List Nat) : Nat :=
  bs.foldl (fun acc b => acc * 256 + b % 256) 0

/-! ## Opcodes and constants of `vnsicommand.h` -/

/-- The case labels of the switch in `processRequest`, in source order. -/
inductive Opcode where
  | VNSI_LOGIN
  | VNSI_GETTIME
  | VNSI_ENABLESTATUSINTERFACE
  | VNSI_PING
  | VNSI_GETSETUP
  | VNSI_STORESETUP
  | VNSI_CHANNELSTREAM_OPEN
  | VNSI_CHANNELSTREAM_CLOSE
  | VNSI_CHANNELSTREAM_SEEK
  | VNSI_RECSTREAM_OPEN
  | VNSI_RECSTREAM_CLOSE
  | VNSI_RECSTREAM_GETBLOCK
  | VNSI_RECSTREAM_POSTOFRAME
  | VNSI_RECSTREAM_FRAMETOPOS
  | VNSI_RECSTREAM_GETIFRAME
  | VNSI_RECSTREAM_GETLENGTH
  | VNSI_CHANNELS_GETCOUNT
  | VNSI_CHANNELS_GETCHANNELS
  | VNSI_CHANNELGROUP_GETCOUNT
  | VNSI_CHANNELGROUP_LIST
  | VNSI_CHANNELGROUP_MEMBERS
  | VNSI_CHANNELS_GETCAIDS
  | VNSI_CHANNELS_GETWHITELIST
  | VNSI_CHANNELS_GETBLACKLIST
  | VNSI_CHANNELS_SETWHITELIST
  | VNSI_CHANNELS_SETBLACKLIST
  | VNSI_TIMER_GETCOUNT
  | VNSI_TIMER_GET
  | VNSI_TIMER_GETLIST
  | VNSI_TIMER_ADD
  | VNSI_TIMER_DELETE
  | VNSI_TIMER_UPDATE
  | VNSI_RECORDINGS_DISKSIZE
  | VNSI_RECORDINGS_GETCOUNT
  | VNSI_RECORDINGS_GETLIST
  | VNSI_RECORDINGS_RENAME
  | VNSI_RECORDINGS_DELETE
  | VNSI_RECORDINGS_GETEDL
  | VNSI_EPG_GETFORCHANNEL
  | VNSI_SCAN_SUPPORTED
  | VNSI_SCAN_GETCOUNTRIES
  | VNSI_SCAN_GETSATELLITES
  | VNSI_SCAN_START
  | VNSI_SCAN_STOP
  | VNSI_SCAN_SUPPORTED_TYPES
  | VNSI_OSD_CONNECT
  | VNSI_OSD_DISCONNECT
  | VNSI_OSD_HITKEY
  | VNSI_RECORDINGS_DELETED_ACCESS_SUPPORTED
  | VNSI_RECORDINGS_DELETED_GETCOUNT
  | VNSI_RECORDINGS_DELETED_GETLIST
  | VNSI_RECORDINGS_DELETED_DELETE
  | VNSI_RECORDINGS_DELETED_UNDELETE
  | VNSI_RECORDINGS_DELETED_DELETE_ALL
  deriving DecidableEq, Repr

/-- The header `vnsicommand.h` (with `vnsi.h`) is not among the sources; its
    constants are the fields of this record. `label n` is the case label of
    the switch in `processRequest` whose numeric value is `n`, if there is
    one: the labels of a C switch are pairwise distinct, so a number has at
    most one label. -/
structure vnsicommand where
  label : Nat → Option Opcode
  VNSI_PROTOCOLVERSION : Nat
  VNSI_MIN_PROTOCOLVERSION : Nat
  VNSI_RDS_PROTOCOLVERSION : Nat
  VNSI_SERVER_VERSION : List Nat
  VNSI_RET_OK : Nat
  VNSI_RET_RECRUNNING : Nat
  VNSI_RET_NOTSUPPORTED : Nat
  VNSI_RET_DATAUNKNOWN : Nat
  VNSI_RET_DATALOCKED : Nat
  VNSI_RET_DATAINVALID : Nat
  VNSI_RET_ERROR : Nat

/-! ## Request and response packets -/

/-- The request handed to `processRequest`:
    `new cRequestPacket(requestID, opcode, data, dataLength)`.
    `userData` holds the `dataLength` payload bytes (none when `data` is
    NULL) and `packetPos` is the read cursor. -/
structure cRequestPacket where
  requestID : Nat
  opCode : Nat
  userData : List Nat
  packetPos : Nat
  deriving DecidableEq, Repr

namespace cRequestPacket

/-- Constructor call of `Action`. -/
def new (requestID opcode : Nat) (data : List Nat) : cRequestPacket :=
  { requestID := requestID, opCode := opcode, userData := data, packetPos := 0 }

def getDataLength (r : cRequestPacket) : Nat := r.userData.length

def getRequestID (r : cRequestPacket) : Nat := r.requestID

def getOpCode (r : cRequestPacket) : Nat := r.opCode

/-- Modelled from the spec: `requestpacket.c` is not among the sources. A
    fixed-width field is decoded big-endian at the cursor, which then moves
    past it. The spec calls extraction past the declared payload length a
    protocol error and gives it no result; here such an extraction yields 0
    and leaves the cursor where it is. -/
def extractFixed (r : cRequestPacket) (n : Nat) : Nat × cRequestPacket :=
  if r.packetPos + n ≤ r.userData.length then
    (beValue ((r.userData.drop r.packetPos).take n), { r with packetPos := r.packetPos + n })
  else (0, r)

def extract_U8 (r : cRequestPacket) : Nat × cRequestPacket := r.extractFixed 1

def extract_U32 (r : cRequestPacket) : Nat × cRequestPacket := r.extractFixed 4

def extract_U64 (r : cRequestPacket) : Nat × cRequestPacket := r.extractFixed 8

def extract_S32 (r : cRequestPacket) : Int × cRequestPacket :=
  ((toS32 (r.extractFixed 4).1), (r.extractFixed 4).2)

def extract_S64 (r : cRequestPacket) : Int × cRequestPacket :=
  ((toS64 (r.extractFixed 8).1), (r.extractFixed 8).2)

/-- Modelled from the spec: `requestpacket.c` is not among the sources. A
    string field is the bytes from the cursor up to the next NUL within the
    payload; the cursor moves past the NUL. -/
def extract_String (r : cRequestPacket) : List Nat × cRequestPacket :=
  let s := (r.userData.drop r.packetPos).takeWhile (fun b => b ≠ 0)
  (s, { r with packetPos := min r.userData.length (r.packetPos + s.length + 1) })

end cRequestPacket

/-- Which initialiser built a packet: `init` (reply to a request),
    `initStatus` (status push) or `initScan` (channel-scan event). -/
inductive PacketKind where
  | response
  | status
  | scan
  deriving DecidableEq, Repr

/-- Modelled from the spec: `responsepacket.c` is not among the sources.
    A response is `requestId | kind-tag | field…`: `ident` is the request id
    (or the status opcode), `kind` the tag, and `payload` the bytes of the
    typed fields in the order they were added. -/
structure cResponsePacket where
  kind : PacketKind
  ident : Nat
  payload : List Nat
  finalised : Bool
  deriving DecidableEq, Repr

namespace cResponsePacket

/-- Result of `new cResponsePacket()` followed by a successful `init(requestID)`. -/
def init (requestID : Nat) : cResponsePacket :=
  { kind := PacketKind.response, ident := requestID, payload := [], finalised := false }

def add_U8 (p : cResponsePacket) (v : Nat) : cResponsePacket :=
  { p with payload := p.payload ++ [v % 256] }

def add_U32 (p : cResponsePacket) (v : Nat) : cResponsePacket :=
  { p with payload := p.payload ++ be32 v }

def add_S32 (p : cResponsePacket) (v : Int) : cResponsePacket :=
  { p with payload := p.payload ++ be32 (s32 v) }

def add_U64 (p : cResponsePacket) (v : Nat) : cResponsePacket :=
  { p with payload := p.payload ++ be64 v }

/-- A string field is its bytes followed by a NUL. -/
def add_String (p : cResponsePacket) (s : List Nat) : cResponsePacket :=
  { p with payload := p.payload ++ s ++ [0] }

/-- Modelled from the spec ("reserve N bytes, write directly, then shrink by
    unused amount"): `reserve` grows the payload by `n` bytes and returns the
    offset of the reserved region, the pointer the caller writes through. -/
def reserve (p : cResponsePacket) (n : Nat) : Nat × cResponsePacket :=
  (p.payload.length, { p with payload := p.payload ++ List.replicate n 0 })

/-- Modelled from the spec: `unreserve` gives back the last `n` bytes. -/
def unreserve (p : cResponsePacket) (n : Nat) : cResponsePacket :=
  { p with payload := p.payload.take (p.payload.length - n) }

/-- A callee writing `bytes` through the pointer returned by `reserve`:
    the bytes replace the payload from offset `off` on, byte for byte. -/
def store (p : cResponsePacket) (off : Nat) (bytes : List Nat) : cResponsePacket :=
  { p with payload := p.payload.take off ++ bytes ++ p.payload.drop (off + bytes.length) }

def finalise (p : cResponsePacket) : cResponsePacket :=
  { p with finalised := true }

end cResponsePacket

/-- Send side of `m_socket`: every `write(ptr, len)` is recorded as the
    packet whose buffer was handed over, oldest first. -/
structure cxSocket where
  written : List cResponsePacket
  deriving DecidableEq, Repr

def cxSocket.write (s : cxSocket) (p : cResponsePacket) : cxSocket :=
  { written := s.written ++ [p] }


/-! ## Collaborators -/

/-- A channel of the host, known to the dispatcher only as a handle. -/
structure cChannel where
  number : Nat
  deriving DecidableEq, Repr

/-- A recording of the host: a handle and the answer of `IsPesRecording`. -/
structure cRecording where
  handle : Nat
  IsPesRecording : Bool
  deriving DecidableEq, Repr

/-- The object built by `new cLiveStreamer(m_Id, m_bSupportRDS, timeshift, timeout)`,
    identified by its constructor arguments. -/
structure cLiveStreamer where
  clientID : Nat
  bAllowRDS : Bool
  timeshift : Nat
  timeout : Nat
  deriving DecidableEq, Repr

/-- Modelled from the spec: `recplayer.c` is not among the sources. The
    reader state is the recording it was opened on and the total length in
    bytes and in frames found by the last scan of its segment table. -/
structure cRecPlayer where
  recording : cRecording
  m_totalLength : Nat
  m_totalFrames : Nat
  deriving DecidableEq, Repr

/-- Answers of everything `vnsiclient.c` calls but does not define, at the
    time of one request. -/
structure Env where
  /-- The thread flag tested by `while (Running())`. -/
  Running : Bool
  /-- Whether `malloc(n)` returns a buffer. -/
  malloc : Nat → Bool
  /-- Whether `m_resp->init(requestID)` succeeds. -/
  respInit : Bool
  /-- Value of `time(NULL)`. -/
  timeNow : Nat
  /-- Field `tm_gmtoff` of `localtime(&timeNow)`. -/
  tm_gmtoff : Int
  /-- GetSetup: the configured value when the name is one of the four
      `CONFNAME_` keys it knows, nothing otherwise. -/
  setup : List Nat → Option Nat
  /-- Configured `VNSIServerConfig.stream_timeout`. -/
  stream_timeout : Nat
  FindChannelByUID : Nat → Option cChannel
  /-- Method `Channels.GetByNumber`. -/
  GetByNumber : Nat → Option cChannel
  /-- Method `cLiveStreamer::StreamChannel(channel, priority, &m_socket, m_resp)`:
      its result and the packets it writes to the socket itself. -/
  StreamChannel : cLiveStreamer → cChannel → Int → cResponsePacket → Bool × List cResponsePacket
  /-- Method `cLiveStreamer::SeekTime(time, serial)`: its result and the value
      of the reference argument `serial` (0 on entry) afterwards. -/
  SeekTime : cLiveStreamer → Int → Bool × Nat
  /-- Method `cRecordingsCache::GetInstance().Lookup(uid)`. -/
  Lookup : Nat → Option cRecording
  /-- Total length in bytes and in frames a scan of the recording finds now. -/
  scan : cRecording → Nat × Nat
  /-- Method `cRecPlayer::getBlock(p, position, amount)`: the bytes it stores
      through `p`; its return value is their number. -/
  getBlock : cRecPlayer → Nat → Nat → List Nat
  positionFromFrameNumber : cRecPlayer → Nat → Nat
  frameNumberFromPosition : cRecPlayer → Nat → Nat
  /-- Method `cRecPlayer::getNextIFrame`: on success the file position, frame
      number and frame length. -/
  getNextIFrame : cRecPlayer → Nat → Nat → Option (Nat × Nat × Nat)
  /-- Width and height reported by `GetOsdSize`. -/
  osdSize : Nat × Nat
  /-- Fields the channel, timer, recording, EPG and scan handlers add to
      their response, computed from the host stores. -/
  collaborator : Opcode → cRequestPacket → List Nat

namespace cRecPlayer

/-- Modelled from the spec: the reader is "built when a recording stream is
    opened"; the constructor scans the recording. -/
def new (env : Env) (recording : cRecording) : cRecPlayer :=
  { recording := recording, m_totalLength := (env.scan recording).1,
    m_totalFrames := (env.scan recording).2 }

/-- Modelled from the spec: "re-scans the recording's segment table to
    account for in-progress recordings growing on disk". -/
def reScan (env : Env) (p : cRecPlayer) : cRecPlayer :=
  { p with m_totalLength := (env.scan p.recording).1, m_totalFrames := (env.scan p.recording).2 }

def getLengthBytes (p : cRecPlayer) : Nat := p.m_totalLength

def getLengthFrames (p : cRecPlayer) : Nat := p.m_totalFrames

end cRecPlayer

/-- Modelled from the spec: `cRecPlayer::getBlock` (recplayer.c is not among
    the sources) over a recording whose bytes are `content`: "returns up to
    `amount` bytes starting at byte `position`; if fewer bytes are available
    (near end of file) returns only what exists". -/
def specGetBlock (content : List Nat) (position amount : Nat) : List Nat :=
  (content.drop position).take amount

/-! ## The session -/

/-- The members of `cVNSIClient` the modelled handlers read or write.
    `liveStreamers` is bookkeeping of the embedding, not a member: the
    `cLiveStreamer` objects created by `new` and not yet destroyed by
    `delete`. `m_Osd` is true when the pointer is non-null. -/
structure cVNSIClient where
  m_Id : Nat
  m_loggedIn : Bool
  m_StatusInterfaceEnabled : Bool
  m_Streamer : Option cLiveStreamer
  m_isStreaming : Bool
  m_bSupportRDS : Bool
  m_protocolVersion : Nat
  m_RecPlayer : Option cRecPlayer
  m_Osd : Bool
  m_socket : cxSocket
  liveStreamers : List cLiveStreamer
  deriving DecidableEq, Repr

namespace cVNSIClient

/-- State left by the constructor `cVNSIClient(fd, id, ClientAdr)`.
    `m_bSupportRDS` is set by the initialiser list; `m_protocolVersion` is
    not initialised there and is taken as 0. -/
def new (id : Nat) : cVNSIClient :=
  { m_Id := id, m_loggedIn := false, m_StatusInterfaceEnabled := false,
    m_Streamer := none, m_isStreaming := false, m_bSupportRDS := false,
    m_protocolVersion := 0, m_RecPlayer := none, m_Osd := false,
    m_socket := { written := [] }, liveStreamers := [] }

/-- The call `m_socket.write(m_resp->getPtr(), m_resp->getLen())`. -/
def write (c : cVNSIClient) (resp : cResponsePacket) : cVNSIClient :=
  { c with m_socket := c.m_socket.write resp }

def SetLoggedIn (c : cVNSIClient) (yesNo : Bool) : cVNSIClient :=
  { c with m_loggedIn := yesNo }

def SetStatusInterface (c : cVNSIClient) (yesNo : Bool) : cVNSIClient :=
  { c with m_StatusInterfaceEnabled := yesNo }

/-- Lines 168-173. -/
def StartChannelStreaming (env : Env) (c : cVNSIClient) (channel : cChannel) (priority : Int)
    (timeshift timeout : Nat) (resp : cResponsePacket) : Bool × cVNSIClient :=
  let s : cLiveStreamer :=
    { clientID := c.m_Id, bAllowRDS := c.m_bSupportRDS, timeshift := timeshift, timeout := timeout }
  let r := env.StreamChannel s channel priority resp
  (r.1, { c with m_Streamer := some s, liveStreamers := s :: c.liveStreamers,
                 m_isStreaming := r.1,
                 m_socket := { written := c.m_socket.written ++ r.2 } })

/-- Lines 175-183. -/
def StopChannelStreaming (c : cVNSIClient) : cVNSIClient :=
  match c.m_Streamer with
  | some s => { c with m_isStreaming := false, m_Streamer := none,
                       liveStreamers := c.liveStreamers.erase s }
  | none => { c with m_isStreaming := false }

/-! ### OPCODE 1 - 19: general purpose -/

/-- The string literal of line 683, as bytes. -/
def serverName : List Nat :=
  ("VDR-Network-Streaming-Interface (VNSI) Server".toList).map Char.toNat

/-- Lines 665-707. -/
def process_Login (k : vnsicommand) (env : Env) (req : cRequestPacket) (resp : cResponsePacket)
    (c : cVNSIClient) : Bool × cVNSIClient :=
  if req.getDataLength ≤ 4 then (false, c) else
  let c := { c with m_protocolVersion := req.extract_U32.1 }
  let req := req.extract_U32.2
  let req := req.extract_U8.2
  let _clientName := req.extract_String.1
  let resp := resp.add_U32 k.VNSI_PROTOCOLVERSION
  let resp := resp.add_U32 env.timeNow
  let resp := resp.add_S32 env.tm_gmtoff
  let resp := resp.add_String serverName
  let resp := resp.add_String k.VNSI_SERVER_VERSION
  let resp := resp.finalise
  let c := if c.m_protocolVersion < k.VNSI_MIN_PROTOCOLVERSION then c else c.SetLoggedIn true
  let c := if c.m_protocolVersion < k.VNSI_RDS_PROTOCOLVERSION
    then { c with m_bSupportRDS := false } else { c with m_bSupportRDS := true }
  (true, c.write resp)

/-- Lines 709-720. -/
def process_GetTime (env : Env) (resp : cResponsePacket) (c : cVNSIClient) : Bool × cVNSIClient :=
  let resp := resp.add_U32 env.timeNow
  let resp := resp.add_S32 env.tm_gmtoff
  let resp := resp.finalise
  (true, c.write resp)

/-- Lines 722-733. `SetPriority(1)` acts on the thread only. -/
def process_EnableStatusInterface (k : vnsicommand) (req : cRequestPacket) (resp : cResponsePacket)
    (c : cVNSIClient) : Bool × cVNSIClient :=
  let enabled := decide (req.extract_U8.1 ≠ 0)
  let c := c.SetStatusInterface enabled
  let resp := resp.add_U32 k.VNSI_RET_OK
  let resp := resp.finalise
  (true, c.write resp)

/-- Lines 735-741. -/
def process_Ping (resp : cResponsePacket) (c : cVNSIClient) : Bool × cVNSIClient :=
  let resp := resp.add_U32 1
  let resp := resp.finalise
  (true, c.write resp)

/-- Lines 743-758. -/
def process_GetSetup (env : Env) (req : cRequestPacket) (resp : cResponsePacket)
    (c : cVNSIClient) : Bool × cVNSIClient :=
  let name := req.extract_String.1
  let resp := match env.setup name with
    | some v => resp.add_U32 v
    | none => resp
  let resp := resp.finalise
  (true, c.write resp)

/-- Lines 760-794. The stored value goes to the plugin setup, which is not
    part of the session. -/
def process_StoreSetup (k : vnsicommand) (resp : cResponsePacket) (c : cVNSIClient) :
    Bool × cVNSIClient :=
  let resp := resp.add_U32 k.VNSI_RET_OK
  let resp := resp.finalise
  (true, c.write resp)

/-! ### OPCODE 20 - 39: live streaming -/

/-- Lines 798-846. -/
def processChannelStream_Open (k : vnsicommand) (env : Env) (req : cRequestPacket)
    (resp : cResponsePacket) (c : cVNSIClient) : Bool × cVNSIClient :=
  let uid := req.extract_U32.1
  let req := req.extract_U32.2
  let priority := req.extract_S32.1
  let req := req.extract_S32.2
  let timeshift := req.extract_U8.1
  let req := req.extract_U8.2
  let timeout := req.extract_U32.1
  let timeout := if timeout = 0 then env.stream_timeout else timeout
  let c := if c.m_isStreaming then c.StopChannelStreaming else c
  let channel := env.FindChannelByUID uid
  let channel := match channel with
    | none => env.GetByNumber uid
    | some ch => some ch
  match channel with
  | none =>
    let resp := resp.add_U32 k.VNSI_RET_DATAINVALID
    let resp := resp.finalise
    (false, c.write resp)
  | some ch =>
    let started := c.StartChannelStreaming env ch priority timeshift timeout resp
    if started.1 then (true, started.2)
    else
      let resp := resp.add_U32 k.VNSI_RET_DATALOCKED
      let resp := resp.finalise
      (false, started.2.write resp)

/-- Lines 848-854. -/
def processChannelStream_Close (c : cVNSIClient) : Bool × cVNSIClient :=
  let c := if c.m_isStreaming then c.StopChannelStreaming else c
  (true, c)

/-- Lines 856-874. -/
def processChannelStream_Seek (k : vnsicommand) (env : Env) (req : cRequestPacket)
    (resp : cResponsePacket) (c : cVNSIClient) : Bool × cVNSIClient :=
  let serial := 0
  let r : Nat × cResponsePacket :=
    match c.m_isStreaming, c.m_Streamer with
    | true, some s =>
      let time := req.extract_S64.1
      let sk := env.SeekTime s time
      if sk.1 then (sk.2, resp.add_U32 k.VNSI_RET_OK)
      else (sk.2, resp.add_U32 k.VNSI_RET_ERROR)
    | _, _ => (serial, resp.add_U32 k.VNSI_RET_ERROR)
  let resp := r.2.add_U32 r.1
  let resp := resp.finalise
  (true, c.write resp)

/-! ### OPCODE 40 - 59: recording streaming -/

/-- Lines 878-909 (the branch `VDRVERSNUM >= 10703`). -/
def processRecStream_Open (k : vnsicommand) (env : Env) (req : cRequestPacket)
    (resp : cResponsePacket) (c : cVNSIClient) : Bool × cVNSIClient :=
  let uid := req.extract_U32.1
  match env.Lookup uid, c.m_RecPlayer with
  | some recording, none =>
    let player := cRecPlayer.new env recording
    let c := { c with m_RecPlayer := some player }
    let resp := resp.add_U32 k.VNSI_RET_OK
    let resp := resp.add_U32 player.getLengthFrames
    let resp := resp.add_U64 player.getLengthBytes
    let resp := resp.add_U8 (if recording.IsPesRecording then 1 else 0)
    let resp := resp.finalise
    (true, c.write resp)
  | _, _ =>
    let resp := resp.add_U32 k.VNSI_RET_DATAUNKNOWN
    let resp := resp.finalise
    (true, c.write resp)

/-- Lines 911-923. -/
def processRecStream_Close (k : vnsicommand) (resp : cResponsePacket) (c : cVNSIClient) :
    Bool × cVNSIClient :=
  let c := { c with m_RecPlayer := none }
  let resp := resp.add_U32 k.VNSI_RET_OK
  let resp := resp.finalise
  (true, c.write resp)

/-- Lines 925-956. `amount` and `amountReceived` are `uint32_t`. -/
def processRecStream_GetBlock (env : Env) (req : cRequestPacket) (resp : cResponsePacket)
    (c : cVNSIClient) : Bool × cVNSIClient :=
  if c.m_isStreaming then (false, c) else
  match c.m_RecPlayer with
  | none => (false, c)
  | some player =>
    let position := req.extract_U64.1
    let req := req.extract_U64.2
    let amount := req.extract_U32.1
    let p := (resp.reserve amount).1
    let resp := (resp.reserve amount).2
    let block := env.getBlock player position amount
    let resp := resp.store p block
    let amountReceived := block.length % 4294967296
    let resp := if amount > amountReceived then resp.unreserve (amount - amountReceived) else resp
    let resp := if amountReceived = 0 then resp.add_U32 0 else resp
    let resp := resp.finalise
    (true, c.write resp)

/-- Lines 958-972. -/
def processRecStream_PositionFromFrameNumber (env : Env) (req : cRequestPacket)
    (resp : cResponsePacket) (c : cVNSIClient) : Bool × cVNSIClient :=
  let frameNumber := req.extract_U32.1
  let retval := match c.m_RecPlayer with
    | some player => env.positionFromFrameNumber player frameNumber
    | none => 0
  let resp := resp.add_U64 retval
  let resp := resp.finalise
  (true, c.write resp)

/-- Lines 974-988. -/
def processRecStream_FrameNumberFromPosition (env : Env) (req : cRequestPacket)
    (resp : cResponsePacket) (c : cVNSIClient) : Bool × cVNSIClient :=
  let position := req.extract_U64.1
  let retval := match c.m_RecPlayer with
    | some player => env.frameNumberFromPosition player position
    | none => 0
  let resp := resp.add_U32 retval
  let resp := resp.finalise
  (true, c.write resp)

/-- Lines 990-1019. -/
def processRecStream_GetIFrame (env : Env) (req : cRequestPacket) (resp : cResponsePacket)
    (c : cVNSIClient) : Bool × cVNSIClient :=
  let frameNumber := req.extract_U32.1
  let req := req.extract_U32.2
  let direction := req.extract_U32.1
  let found := match c.m_RecPlayer with
    | some player => env.getNextIFrame player frameNumber direction
    | none => none
  let resp := match found with
    | some (rfilePosition, rframeNumber, rframeLength) =>
      ((resp.add_U64 rfilePosition).add_U32 rframeNumber).add_U32 rframeLength
    | none => resp.add_U32 0
  let resp := resp.finalise
  (true, c.write resp)

/-- Lines 1021-1037. -/
def processRecStream_GetLength (env : Env) (resp : cResponsePacket) (c : cVNSIClient) :
    Bool × cVNSIClient :=
  let r : Nat × cVNSIClient := match c.m_RecPlayer with
    | some player =>
      let player := player.reScan env
      (player.getLengthBytes, { c with m_RecPlayer := some player })
    | none => (0, c)
  let resp := resp.add_U64 r.1
  let resp := resp.finalise
  (true, r.2.write resp)

/-! ### OPCODE 60 and above: channels, timers, recordings, EPG, scan, OSD -/

/-- The handlers of the channel, timer, recording, EPG and scan opcodes
    (lines 1041-2374 and 2512-2886) other than `processCHANNELS_GetChannels`,
    as far as the members of `cVNSIClient` kept in this model go: none of them
    assigns `m_loggedIn`, `m_StatusInterfaceEnabled`, `m_Streamer`,
    `m_isStreaming`, `m_RecPlayer` or `m_Osd`. They read and change stores of
    the host and members of the session that are outside this model
    (`m_channelgroups`, `m_epgUpdate`, the static `m_inhibidDataUpdates`). What
    they put on the socket is abstracted as one response packet whose fields
    are `Env.collaborator`. The source departs from that abstraction in the
    handlers followed statement by statement further down:
    `processRECORDINGS_DELETED_Undelete` can write a status packet before its
    response, `processCHANNELS_SetBlacklist` loops until the request is at its
    end, and the two channel-group handlers index `m_channelgroups` with the
    byte of the request. -/
def processCollaborator (env : Env) (op : Opcode) (req : cRequestPacket) (resp : cResponsePacket)
    (c : cVNSIClient) : Bool × cVNSIClient :=
  let resp := { resp with payload := resp.payload ++ env.collaborator op req }
  let resp := resp.finalise
  (true, c.write resp)

/-- Lines 1062-1135, as far as the session members of this model go. -/
def processCHANNELS_GetChannels (env : Env) (req : cRequestPacket) (resp : cResponsePacket)
    (c : cVNSIClient) : Bool × cVNSIClient :=
  if req.getDataLength ≠ 5 then (false, c) else
  processCollaborator env Opcode.VNSI_CHANNELS_GETCHANNELS req resp c

/-- Lines 2477-2488. -/
def processOSD_Connect (env : Env) (resp : cResponsePacket) (c : cVNSIClient) : Bool × cVNSIClient :=
  let c := { c with m_Osd := true }
  let resp := resp.add_U32 env.osdSize.1
  let resp := resp.add_U32 env.osdSize.2
  let resp := resp.finalise
  (true, c.write resp)

/-- Lines 2490-2498. -/
def processOSD_Disconnect (c : cVNSIClient) : Bool × cVNSIClient :=
  (true, { c with m_Osd := false })

/-- Lines 2500-2508. The key goes to the OSD provider. -/
def processOSD_Hitkey (c : cVNSIClient) : Bool × cVNSIClient :=
  (true, c)

/-! ### The dispatcher -/

/-- The switch of `processRequest` (lines 419-651) once the case label of
    the opcode is known. -/
def dispatch (k : vnsicommand) (env : Env) (op : Opcode) (req : cRequestPacket)
    (resp : cResponsePacket) (c : cVNSIClient) : Bool × cVNSIClient :=
  match op with
  | Opcode.VNSI_LOGIN => process_Login k env req resp c
  | Opcode.VNSI_GETTIME => process_GetTime env resp c
  | Opcode.VNSI_ENABLESTATUSINTERFACE => process_EnableStatusInterface k req resp c
  | Opcode.VNSI_PING => process_Ping resp c
  | Opcode.VNSI_GETSETUP => process_GetSetup env req resp c
  | Opcode.VNSI_STORESETUP => process_StoreSetup k resp c
  | Opcode.VNSI_CHANNELSTREAM_OPEN => processChannelStream_Open k env req resp c
  | Opcode.VNSI_CHANNELSTREAM_CLOSE => processChannelStream_Close c
  | Opcode.VNSI_CHANNELSTREAM_SEEK => processChannelStream_Seek k env req resp c
  | Opcode.VNSI_RECSTREAM_OPEN => processRecStream_Open k env req resp c
  | Opcode.VNSI_RECSTREAM_CLOSE => processRecStream_Close k resp c
  | Opcode.VNSI_RECSTREAM_GETBLOCK => processRecStream_GetBlock env req resp c
  | Opcode.VNSI_RECSTREAM_POSTOFRAME => processRecStream_PositionFromFrameNumber env req resp c
  | Opcode.VNSI_RECSTREAM_FRAMETOPOS => processRecStream_FrameNumberFromPosition env req resp c
  | Opcode.VNSI_RECSTREAM_GETIFRAME => processRecStream_GetIFrame env req resp c
  | Opcode.VNSI_RECSTREAM_GETLENGTH => processRecStream_GetLength env resp c
  | Opcode.VNSI_CHANNELS_GETCHANNELS => processCHANNELS_GetChannels env req resp c
  | Opcode.VNSI_OSD_CONNECT => processOSD_Connect env resp c
  | Opcode.VNSI_OSD_DISCONNECT => processOSD_Disconnect c
  | Opcode.VNSI_OSD_HITKEY => processOSD_Hitkey c
  | Opcode.VNSI_CHANNELS_GETCOUNT
  | Opcode.VNSI_CHANNELGROUP_GETCOUNT
  | Opcode.VNSI_CHANNELGROUP_LIST
  | Opcode.VNSI_CHANNELGROUP_MEMBERS
  | Opcode.VNSI_CHANNELS_GETCAIDS
  | Opcode.VNSI_CHANNELS_GETWHITELIST
  | Opcode.VNSI_CHANNELS_GETBLACKLIST
  | Opcode.VNSI_CHANNELS_SETWHITELIST
  | Opcode.VNSI_CHANNELS_SETBLACKLIST
  | Opcode.VNSI_TIMER_GETCOUNT
  | Opcode.VNSI_TIMER_GET
  | Opcode.VNSI_TIMER_GETLIST
  | Opcode.VNSI_TIMER_ADD
  | Opcode.VNSI_TIMER_DELETE
  | Opcode.VNSI_TIMER_UPDATE
  | Opcode.VNSI_RECORDINGS_DISKSIZE
  | Opcode.VNSI_RECORDINGS_GETCOUNT
  | Opcode.VNSI_RECORDINGS_GETLIST
  | Opcode.VNSI_RECORDINGS_RENAME
  | Opcode.VNSI_RECORDINGS_DELETE
  | Opcode.VNSI_RECORDINGS_GETEDL
  | Opcode.VNSI_EPG_GETFORCHANNEL
  | Opcode.VNSI_SCAN_SUPPORTED
  | Opcode.VNSI_SCAN_GETCOUNTRIES
  | Opcode.VNSI_SCAN_GETSATELLITES
  | Opcode.VNSI_SCAN_START
  | Opcode.VNSI_SCAN_STOP
  | Opcode.VNSI_SCAN_SUPPORTED_TYPES
  | Opcode.VNSI_RECORDINGS_DELETED_ACCESS_SUPPORTED
  | Opcode.VNSI_RECORDINGS_DELETED_GETCOUNT
  | Opcode.VNSI_RECORDINGS_DELETED_GETLIST
  | Opcode.VNSI_RECORDINGS_DELETED_DELETE
  | Opcode.VNSI_RECORDINGS_DELETED_UNDELETE
  | Opcode.VNSI_RECORDINGS_DELETED_DELETE_ALL => processCollaborator env op req resp c

/-- Lines 402-660. An opcode without case label leaves `result` false and
    runs no handler. -/
def processRequest (k : vnsicommand) (env : Env) (req : cRequestPacket) (c : cVNSIClient) :
    Bool × cVNSIClient :=
  if !env.respInit then (false, c) else
  let resp := cResponsePacket.init req.getRequestID
  match k.label req.getOpCode with
  | some op => dispatch k env op req resp c
  | none => (false, c)

end cVNSIClient

/-! ## The command loop -/

/-- A successful `m_socket.read` of a `uint32_t` followed by `ntohl`: the
    value and the bytes left. The read fails when the peer has sent fewer
    than four bytes (closed connection or timeout). -/
def readU32 : List Nat → Option (Nat × List Nat)
  | b0 :: b1 :: b2 :: b3 :: rest => some (ntohl b0 b1 b2 b3, rest)
  | _ => none

/-- Lines 114-133: the payload of `dataLength` bytes, read into a malloc-ed
    buffer; no buffer and no read when `dataLength` is 0. -/
def readPayload (env : Env) (dataLength : Nat) (pending : List Nat) :
    Option (List Nat × List Nat) :=
  if dataLength ≠ 0 then
    if env.malloc dataLength then
      if dataLength ≤ pending.length then some (pending.take dataLength, pending.drop dataLength)
      else none
    else none
  else some ([], pending)

/-- How one pass through the body of `while (Running())` ends: the loop is
    left (`stop`), or `processRequest` was called, returned `result`, and the
    loop goes round again with the bytes `rest` still to read (`handled`). -/
inductive Pass where
  | stop (c : cVNSIClient)
  | handled (result : Bool) (rest : List Nat) (c : cVNSIClient)
  deriving DecidableEq, Repr

/-- One pass of the loop of `Action`, lines 93-153. -/
def ActionPass (k : vnsicommand) (env : Env) (pending : List Nat) (c : cVNSIClient) : Pass :=
  if !env.Running then Pass.stop c else
  match readU32 pending with
  | none => Pass.stop c
  | some (channelID, p1) =>
    if channelID = 1 then
      match readU32 p1 with
      | none => Pass.stop c
      | some (requestID, p2) =>
        match readU32 p2 with
        | none => Pass.stop c
        | some (opcode, p3) =>
          match readU32 p3 with
          | none => Pass.stop c
          | some (dataLength, p4) =>
            if dataLength > 200000 then Pass.stop c
            else
              match readPayload env dataLength p4 with
              | none => Pass.stop c
              | some (data, p5) =>
                if !c.m_loggedIn && decide (k.label opcode ≠ some Opcode.VNSI_LOGIN) then
                  Pass.stop c
                else
                  let req := cRequestPacket.new requestID opcode data
                  let r := c.processRequest k env req
                  Pass.handled r.1 p5 r.2
    else Pass.stop c

/-- The loop of `Action`. The first pass sees the collaborators as `envs 0`,
    the next as `envs 1`, and so on. The first argument bounds the number of
    passes. -/
def ActionLoop (k : vnsicommand) : Nat → (Nat → Env) → List Nat → cVNSIClient → cVNSIClient
  | 0, _, _, c => c
  | fuel + 1, envs, pending, c =>
    match ActionPass k (envs 0) pending c with
    | Pass.stop c1 => c1
    | Pass.handled _ rest c1 => ActionLoop k fuel (fun j => envs (j + 1)) rest c1

/-- Lines 155-165, after the loop. `m_ChannelScanControl.StopScan()` acts on
    the scan control, which is outside this model. -/
def afterLoop (c : cVNSIClient) : cVNSIClient :=
  let c := c.StopChannelStreaming
  { c with m_Osd := false }

/-- The thread function `cVNSIClient::Action` on the bytes `pending` the peer
    sends before the connection ends. Every pass that goes round again has
    read at least 16 bytes, so `pending.length + 1` passes are never used up. -/
def Action (k : vnsicommand) (env : Nat → Env) (pending : List Nat) (c : cVNSIClient) :
    cVNSIClient :=
  afterLoop (ActionLoop k (pending.length + 1) env pending c)

/-! ## Concrete inputs -/

/-- The 16 header bytes of a request as a client sends them: the four fields
    read at lines 95-107, each big-endian. -/
def header (channelID requestID opcode dataLength : Nat) : List Nat :=
  be32 channelID ++ (be32 requestID ++ (be32 opcode ++ be32 dataLength))

/-- The bytes of one request on the control channel: header, then payload. -/
def request (requestID opcode : Nat) (payload : List Nat) : List Nat :=
  header 1 requestID opcode payload.length ++ payload

/-- A numbering of the opcodes used to run the model on concrete bytes:
    the numbers the handlers carry in their comments (`/* OPCODE 20 */`);
    an opcode whose handler has no such comment gets no number here. -/
def sampleLabel : Nat → Option Opcode
  | 1 => some Opcode.VNSI_LOGIN
  | 2 => some Opcode.VNSI_GETTIME
  | 7 => some Opcode.VNSI_PING
  | 8 => some Opcode.VNSI_GETSETUP
  | 9 => some Opcode.VNSI_STORESETUP
  | 20 => some Opcode.VNSI_CHANNELSTREAM_OPEN
  | 21 => some Opcode.VNSI_CHANNELSTREAM_CLOSE
  | 22 => some Opcode.VNSI_CHANNELSTREAM_SEEK
  | 40 => some Opcode.VNSI_RECSTREAM_OPEN
  | 41 => some Opcode.VNSI_RECSTREAM_CLOSE
  | 42 => some Opcode.VNSI_RECSTREAM_GETBLOCK
  | 43 => some Opcode.VNSI_RECSTREAM_POSTOFRAME
  | 44 => some Opcode.VNSI_RECSTREAM_FRAMETOPOS
  | 45 => some Opcode.VNSI_RECSTREAM_GETIFRAME
  | 46 => some Opcode.VNSI_RECSTREAM_GETLENGTH
  | 61 => some Opcode.VNSI_CHANNELS_GETCOUNT
  | 63 => some Opcode.VNSI_CHANNELS_GETCHANNELS
  | 80 => some Opcode.VNSI_TIMER_GETCOUNT
  | 81 => some Opcode.VNSI_TIMER_GET
  | 82 => some Opcode.VNSI_TIMER_GETLIST
  | 83 => some Opcode.VNSI_TIMER_ADD
  | 84 => some Opcode.VNSI_TIMER_DELETE
  | 85 => some Opcode.VNSI_TIMER_UPDATE
  | 100 => some Opcode.VNSI_RECORDINGS_DISKSIZE
  | 101 => some Opcode.VNSI_RECORDINGS_GETCOUNT
  | 102 => some Opcode.VNSI_RECORDINGS_GETLIST
  | 103 => some Opcode.VNSI_RECORDINGS_RENAME
  | 104 => some Opcode.VNSI_RECORDINGS_DELETE
  | 105 => some Opcode.VNSI_RECORDINGS_GETEDL
  | 120 => some Opcode.VNSI_EPG_GETFORCHANNEL
  | 140 => some Opcode.VNSI_SCAN_SUPPORTED
  | 141 => some Opcode.VNSI_SCAN_GETCOUNTRIES
  | 142 => some Opcode.VNSI_SCAN_GETSATELLITES
  | 143 => some Opcode.VNSI_SCAN_START
  | 144 => some Opcode.VNSI_SCAN_STOP
  | 160 => some Opcode.VNSI_OSD_CONNECT
  | 161 => some Opcode.VNSI_OSD_DISCONNECT
  | 162 => some Opcode.VNSI_OSD_HITKEY
  | 180 => some Opcode.VNSI_RECORDINGS_DELETED_ACCESS_SUPPORTED
  | 181 => some Opcode.VNSI_RECORDINGS_DELETED_GETCOUNT
  | 182 => some Opcode.VNSI_RECORDINGS_DELETED_GETLIST
  | 183 => some Opcode.VNSI_RECORDINGS_DELETED_DELETE
  | 184 => some Opcode.VNSI_RECORDINGS_DELETED_UNDELETE
  | 185 => some Opcode.VNSI_RECORDINGS_DELETED_DELETE_ALL
  | _ => none

/-- Sample values for the constants of `vnsicommand.h`. -/
def sampleCommand : vnsicommand :=
  { label := sampleLabel, VNSI_PROTOCOLVERSION := 8, VNSI_MIN_PROTOCOLVERSION := 5,
    VNSI_RDS_PROTOCOLVERSION := 8, VNSI_SERVER_VERSION := [49, 46, 51],
    VNSI_RET_OK := 0, VNSI_RET_RECRUNNING := 1, VNSI_RET_NOTSUPPORTED := 995,
    VNSI_RET_DATAUNKNOWN := 996, VNSI_RET_DATALOCKED := 997, VNSI_RET_DATAINVALID := 998,
    VNSI_RET_ERROR := 999 }

/-- A sample host: uid 100 is a channel that can be streamed, uid 200 a
    channel whose device is locked (`StreamChannel` fails without writing),
    no other uid or number is a channel; uid 9 is a recording of 1,048,576
    zero bytes. -/
def sampleEnv : Env :=
  { Running := true, malloc := fun _ => true, respInit := true,
    timeNow := 1700000000, tm_gmtoff := 3600, setup := fun _ => none,
    stream_timeout := 10,
    FindChannelByUID := fun uid =>
      if uid = 100 then some { number := 1 } else if uid = 200 then some { number := 2 } else none,
    GetByNumber := fun _ => none,
    StreamChannel := fun _ ch _ resp =>
      if ch.number = 1 then (true, [(resp.add_U32 0).finalise]) else (false, []),
    SeekTime := fun _ t => (decide (0 ≤ t), 5),
    Lookup := fun uid => if uid = 9 then some { handle := 9, IsPesRecording := false } else none,
    scan := fun _ => (1048576, 26214),
    getBlock := fun p position amount =>
      specGetBlock (List.replicate p.m_totalLength 0) position amount,
    positionFromFrameNumber := fun _ n => n * 40,
    frameNumberFromPosition := fun _ n => n / 40,
    getNextIFrame := fun _ _ _ => none,
    osdSize := (1920, 1080),
    collaborator := fun _ _ => be32 0 }

/-- A login request: protocol version 8, capability byte 0, client name "c". -/
def loginRequest (requestID : Nat) : List Nat :=
  request requestID 1 (be32 8 ++ [0] ++ [99, 0])

/-- A live-stream open request: uid, priority 0, timeshift 0, timeout 0. -/
def openRequest (requestID uid : Nat) : List Nat :=
  request requestID 20 (be32 uid ++ be32 0 ++ [0] ++ be32 0)

/-- The session after a successful login with protocol version 8 on a fresh
    connection whose reply is the first packet on the socket. -/
def loggedInSession : cVNSIClient :=
  (cVNSIClient.process_Login sampleCommand sampleEnv
    (cRequestPacket.new 1 1 (be32 8 ++ [0] ++ [99, 0])) (cResponsePacket.init 1)
    (cVNSIClient.new 0)).2

/-- The session a client reaches by logging in and then asking for the
    channel with uid 200, whose device is locked: the state in which the loop
    of `Action` waits for the third request. -/
def lockedOpenSession : cVNSIClient :=
  ActionLoop sampleCommand ((loginRequest 1 ++ openRequest 2 200).length + 1)
    (fun _ => sampleEnv) (loginRequest 1 ++ openRequest 2 200) (cVNSIClient.new 0)

/-- The recording host of the spec example: `sampleEnv` with `getBlock` read
    off a recording whose bytes are `content`. -/
def recordingEnv (content : List Nat) : Env :=
  { sampleEnv with getBlock := fun _ position amount => specGetBlock content position amount }

/-- The logged-in session after a recording-stream open for uid 9: a reader
    on the sample recording is installed. -/
def recordingSession : cVNSIClient :=
  (loggedInSession.processRequest sampleCommand sampleEnv (cRequestPacket.new 2 40 (be32 9))).2

/-! ## The destructor -/

/-- The statements of the destructor `~cVNSIClient` (lines 78-81). -/
inductive DtorStep where
  | StopChannelStreaming
  | StopScan
  | socketClose
  | Cancel
  deriving DecidableEq, Repr

/-- What a statement of the destructor does to the members of the session.
    `m_ChannelScanControl.StopScan()` acts on the scan control, `m_socket.close()`
    on the descriptor and `Cancel(10)` on the thread; none of them touches a
    member of this model. -/
def DtorStep.run : DtorStep → cVNSIClient → cVNSIClient
  | DtorStep.StopChannelStreaming, c => c.StopChannelStreaming
  | DtorStep.StopScan, c => c
  | DtorStep.socketClose, c => c
  | DtorStep.Cancel, c => c

/-- The body of the destructor, lines 78-81, in source order. -/
def destructorSteps : List DtorStep :=
  [DtorStep.StopChannelStreaming, DtorStep.StopScan, DtorStep.socketClose, DtorStep.Cancel]

/-- Running a list of statements: every statement paired with the state in
    which it starts, and the state after the last one. -/
def runSteps : List DtorStep → cVNSIClient → List (DtorStep × cVNSIClient) × cVNSIClient
  | [], c => ([], c)
  | step :: rest, c =>
    (((step, c) :: (runSteps rest (step.run c)).1), (runSteps rest (step.run c)).2)

/-- The destructor `~cVNSIClient`, lines 75-83: the members it leaves. -/
def destructor (c : cVNSIClient) : cVNSIClient := (runSteps destructorSteps c).2

/-- The state of the members at the moment the destructor closes the socket
    (line 80). -/
def stateAtSocketClose (c : cVNSIClient) : Option cVNSIClient :=
  ((runSteps destructorSteps c).1.find? (fun e => e.1 = DtorStep.socketClose)).map (fun e => e.2)

/-! ## Channel scan (OPCODE 140 - 159) -/

/-- Modelled from the spec: `channelscancontrol.c` is not among the sources.
    Of the scan control of a client (`m_ChannelScanControl`) the model keeps
    whether a scan it has started is still running. -/
structure cVNSIChannelScanControl where
  running : Bool
  deriving DecidableEq, Repr

/-- Answers of the scanner plugin at the time of one request. -/
structure ScanHost where
  /-- Result of `IsSupported()`. -/
  IsSupported : Bool
  /-- Whether `StartScan(svc)` starts a scan; `svc` is read field by field
      from the request (lines 2324-2337). -/
  StartScan : cRequestPacket → Bool
  /-- Result of `StopScan()`. -/
  StopScan : Bool

namespace cVNSIChannelScanControl

/-- Modelled from the spec: a scan that the plugin starts is running from
    then on. -/
def StartScan (host : ScanHost) (req : cRequestPacket) (ctl : cVNSIChannelScanControl) :
    Bool × cVNSIChannelScanControl :=
  if host.StartScan req then (true, { running := true }) else (false, ctl)

/-- Modelled from the spec: after `StopScan` no scan of this control is running. -/
def StopScan (host : ScanHost) (_ctl : cVNSIChannelScanControl) :
    Bool × cVNSIChannelScanControl :=
  (host.StopScan, { running := false })

end cVNSIChannelScanControl

/-- A session together with its scan control. -/
structure ScanSession where
  client : cVNSIClient
  m_ChannelScanControl : cVNSIChannelScanControl
  deriving DecidableEq, Repr

/-- All connections of the server and the static member
    `cVNSIClient::m_inhibidDataUpdates` they share (line 54). -/
structure ScanServer where
  m_inhibidDataUpdates : Bool
  sessions : List ScanSession
  deriving DecidableEq, Repr

/-- Lines 2322-2355. The first component is the handler's result, the second
    the static flag afterwards. -/
def processSCAN_Start (k : vnsicommand) (host : ScanHost) (req : cRequestPacket)
    (resp : cResponsePacket) (m_inhibidDataUpdates : Bool) (s : ScanSession) :
    Bool × Bool × ScanSession :=
  if !m_inhibidDataUpdates && host.IsSupported then
    let started := s.m_ChannelScanControl.StartScan host req
    if started.1 then
      let resp := resp.add_U32 k.VNSI_RET_OK
      let resp := resp.finalise
      (true, true, { client := s.client.write resp, m_ChannelScanControl := started.2 })
    else
      let resp := resp.add_U32 k.VNSI_RET_ERROR
      let resp := resp.finalise
      (true, m_inhibidDataUpdates,
        { client := s.client.write resp, m_ChannelScanControl := started.2 })
  else
    let resp := resp.add_U32 k.VNSI_RET_NOTSUPPORTED
    let resp := resp.finalise
    (true, m_inhibidDataUpdates, { s with client := s.client.write resp })

/-- Lines 2357-2374. -/
def processSCAN_Stop (k : vnsicommand) (host : ScanHost) (resp : cResponsePacket)
    (_m_inhibidDataUpdates : Bool) (s : ScanSession) : Bool × Bool × ScanSession :=
  let m_inhibidDataUpdates := false
  if host.IsSupported then
    let stopped := s.m_ChannelScanControl.StopScan host
    let resp := if stopped.1 then resp.add_U32 k.VNSI_RET_OK else resp.add_U32 k.VNSI_RET_ERROR
    let resp := resp.finalise
    (true, m_inhibidDataUpdates,
      { client := s.client.write resp, m_ChannelScanControl := stopped.2 })
  else
    let resp := resp.add_U32 k.VNSI_RET_NOTSUPPORTED
    let resp := resp.finalise
    (true, m_inhibidDataUpdates, { s with client := s.client.write resp })

/-- A scan request of one of the connections. -/
inductive ScanRequest where
  | start (req : cRequestPacket)
  | stop (req : cRequestPacket)
  deriving DecidableEq, Repr

/-- The server after connection number `i` has had one scan request
    processed. A number that is no connection changes nothing. -/
def ScanServer.handle (k : vnsicommand) (host : ScanHost) (srv : ScanServer) (i : Nat)
    (r : ScanRequest) : ScanServer :=
  match srv.sessions.get? i with
  | none => srv
  | some s =>
    match r with
    | ScanRequest.start req =>
      let out := processSCAN_Start k host req (cResponsePacket.init req.getRequestID)
        srv.m_inhibidDataUpdates s
      { m_inhibidDataUpdates := out.2.1, sessions := srv.sessions.set i out.2.2 }
    | ScanRequest.stop req =>
      let out := processSCAN_Stop k host (cResponsePacket.init req.getRequestID)
        srv.m_inhibidDataUpdates s
      { m_inhibidDataUpdates := out.2.1, sessions := srv.sessions.set i out.2.2 }

/-- The server after a sequence of scan requests, each with the number of
    the connection that sent it. -/
def ScanServer.run (k : vnsicommand) (host : ScanHost) (srv : ScanServer) :
    List (Nat × ScanRequest) → ScanServer
  | [] => srv
  | (i, r) :: rest => ScanServer.run k host (srv.handle k host i r) rest

/-- Number of connections whose scan control has a started, not yet stopped
    scan. -/
def ScanServer.activeScans (srv : ScanServer) : Nat :=
  (srv.sessions.filter (fun s => s.m_ChannelScanControl.running)).length

/-- A server with two logged-in connections, no scan running. -/
def twoClients : ScanServer :=
  { m_inhibidDataUpdates := false,
    sessions := [{ client := loggedInSession, m_ChannelScanControl := { running := false } },
                 { client := loggedInSession, m_ChannelScanControl := { running := false } }] }

/-- A scanner plugin that is present and starts every scan it is asked for. -/
def sampleScanHost : ScanHost :=
  { IsSupported := true, StartScan := fun _ => true, StopScan := true }

/-! ## Notifications and the write lock `m_msgLock` -/

/-- What a member function does to `m_msgLock` and to the socket, in the
    order of its statements: `lock` is the construction of
    `cMutexLock lock(&m_msgLock)`, `unlock` its destruction when the function
    returns, `write` a call of `m_socket.write`. -/
inductive LockEvent where
  | lock
  | unlock
  | write (p : cResponsePacket)
  deriving DecidableEq, Repr

/-- Whether every `write` of a sequence of events happens while the lock is
    held; the first argument says whether it is held at the start. -/
def writesUnderLock : Bool → List LockEvent → Bool
  | _, [] => true
  | _, LockEvent.lock :: rest => writesUnderLock true rest
  | _, LockEvent.unlock :: rest => writesUnderLock false rest
  | held, LockEvent.write _ :: rest => held && writesUnderLock held rest

/-- The status and scanner opcodes of `vnsicommand.h`, which is not among
    the sources. -/
structure vnsinotify where
  VNSI_STATUS_TIMERCHANGE : Nat
  VNSI_STATUS_RECORDING : Nat
  VNSI_STATUS_MESSAGE : Nat
  VNSI_STATUS_CHANNELCHANGE : Nat
  VNSI_STATUS_RECORDINGSCHANGE : Nat
  VNSI_STATUS_EPGCHANGE : Nat
  VNSI_SCANNER_PERCENTAGE : Nat
  VNSI_SCANNER_SIGNAL : Nat
  VNSI_SCANNER_DEVICE : Nat
  VNSI_SCANNER_TRANSPONDER : Nat
  VNSI_SCANNER_NEWCHANNEL : Nat
  VNSI_SCANNER_FINISHED : Nat
  VNSI_SCANNER_STATUS : Nat

/-- Result of `new cResponsePacket()` followed by a successful
    `initStatus(opcode)`. -/
def cResponsePacket.initStatus (opcode : Nat) : cResponsePacket :=
  { kind := PacketKind.status, ident := opcode, payload := [], finalised := false }

/-- Result of `new cResponsePacket()` followed by a successful
    `initScan(opcode)`. -/
def cResponsePacket.initScan (opcode : Nat) : cResponsePacket :=
  { kind := PacketKind.scan, ident := opcode, payload := [], finalised := false }

/-- The session after the socket writes of a sequence of events. -/
def cVNSIClient.perform (c : cVNSIClient) : List LockEvent → cVNSIClient
  | [] => c
  | LockEvent.write p :: rest => cVNSIClient.perform (c.write p) rest
  | _ :: rest => cVNSIClient.perform c rest

/-- Lines 190-207. `initOk` is the result of `initStatus`. -/
def TimerChange (n : vnsinotify) (initOk : Bool) (c : cVNSIClient) : List LockEvent :=
  [LockEvent.lock] ++
    (if c.m_StatusInterfaceEnabled then
      if !initOk then []
      else [LockEvent.write (cResponsePacket.initStatus n.VNSI_STATUS_TIMERCHANGE).finalise]
    else []) ++
  [LockEvent.unlock]

/-- Lines 209-226. -/
def ChannelsChange (n : vnsinotify) (initOk : Bool) (c : cVNSIClient) : List LockEvent :=
  [LockEvent.lock] ++
    (if !c.m_StatusInterfaceEnabled then []
      else if !initOk then []
      else [LockEvent.write (cResponsePacket.initStatus n.VNSI_STATUS_CHANNELCHANGE).finalise]) ++
  [LockEvent.unlock]

/-- Lines 228-245. -/
def RecordingsChange (n : vnsinotify) (initOk : Bool) (c : cVNSIClient) : List LockEvent :=
  [LockEvent.lock] ++
    (if !c.m_StatusInterfaceEnabled then []
      else if !initOk then []
      else [LockEvent.write
        (cResponsePacket.initStatus n.VNSI_STATUS_RECORDINGSCHANGE).finalise]) ++
  [LockEvent.unlock]

/-- The events of `processRequest` (lines 402-660): the lock is taken at line
    404 and held until the function returns; in between lie the writes of the
    handler. -/
def processRequestEvents (k : vnsicommand) (env : Env) (req : cRequestPacket) (c : cVNSIClient) :
    List LockEvent :=
  [LockEvent.lock] ++
    (((c.processRequest k env req).2.m_socket.written.drop c.m_socket.written.length).map
      LockEvent.write) ++
  [LockEvent.unlock]

/-- Lines 2376-2388. `initOk` is the result of `initScan`. -/
def processSCAN_SetPercentage (n : vnsinotify) (initOk : Bool) (percent : Nat) : List LockEvent :=
  if !initOk then []
  else [LockEvent.write ((cResponsePacket.initScan n.VNSI_SCANNER_PERCENTAGE).add_U32
    percent).finalise]

/-- Lines 2390-2403. -/
def processSCAN_SetSignalStrength (n : vnsinotify) (initOk : Bool) (strength : Nat)
    (locked : Bool) : List LockEvent :=
  if !initOk then []
  else [LockEvent.write (((cResponsePacket.initScan n.VNSI_SCANNER_SIGNAL).add_U32
    strength).add_U32 (if locked then 1 else 0)).finalise]

/-- Lines 2405-2417. -/
def processSCAN_SetDeviceInfo (n : vnsinotify) (initOk : Bool) (Info : List Nat) :
    List LockEvent :=
  if !initOk then []
  else [LockEvent.write ((cResponsePacket.initScan n.VNSI_SCANNER_DEVICE).add_String
    Info).finalise]

/-- Lines 2419-2431. -/
def processSCAN_SetTransponder (n : vnsinotify) (initOk : Bool) (Info : List Nat) :
    List LockEvent :=
  if !initOk then []
  else [LockEvent.write ((cResponsePacket.initScan n.VNSI_SCANNER_TRANSPONDER).add_String
    Info).finalise]

/-- Lines 2433-2448. -/
def processSCAN_NewChannel (n : vnsinotify) (initOk : Bool) (Name : List Nat)
    (isRadio isEncrypted isHD : Bool) : List LockEvent :=
  if !initOk then []
  else [LockEvent.write (((((cResponsePacket.initScan n.VNSI_SCANNER_NEWCHANNEL).add_U32
    (if isRadio then 1 else 0)).add_U32 (if isEncrypted then 1 else 0)).add_U32
    (if isHD then 1 else 0)).add_String Name).finalise]

/-- Lines 2450-2461. -/
def processSCAN_IsFinished (n : vnsinotify) (initOk : Bool) : List LockEvent :=
  if !initOk then []
  else [LockEvent.write (cResponsePacket.initScan n.VNSI_SCANNER_FINISHED).finalise]

/-- Lines 2463-2475. -/
def processSCAN_SetStatus (n : vnsinotify) (initOk : Bool) (status : Nat) : List LockEvent :=
  if !initOk then []
  else [LockEvent.write ((cResponsePacket.initScan n.VNSI_SCANNER_STATUS).add_U32
    status).finalise]

/-! ## Timers (OPCODE 80 - 99), branch `VDRVERSNUM >= 20301` -/

/-- A timer of the host (`cTimer` of VDR) as far as the handlers look at it:
    the settings it was parsed from, the flag `tfActive`, and the answer of
    `Recording()`. -/
structure cTimer where
  settings : List Nat
  active : Bool
  recording : Bool
  deriving DecidableEq, Repr

/-- The timer list of the host (`cTimers` of VDR) under `LOCK_TIMERS_WRITE`:
    its elements in order, whether `SetExplicitModify()` and whether
    `SetModified()` has been called on it. -/
structure cTimers where
  list : List cTimer
  explicitModify : Bool
  modified : Bool
  deriving DecidableEq, Repr

namespace cTimers

def Count (t : cTimers) : Nat := t.list.length

/-- The call `Timers->Get(Index)` with an `int` index: no element for a
    negative index or one past the end. -/
def Get (t : cTimers) (index : Int) : Option cTimer :=
  if index < 0 then none else t.list.get? index.toNat

def SetExplicitModify (t : cTimers) : cTimers := { t with explicitModify := true }

def SetModified (t : cTimers) : cTimers := { t with modified := true }

/-- The call `Timers->Add(timer)`: the timer is appended. -/
def Add (t : cTimers) (timer : cTimer) : cTimers := { t with list := t.list ++ [timer] }

/-- The call `Timers->Del(timer)` for the element at position `index`. -/
def Del (t : cTimers) (index : Nat) : cTimers := { t with list := t.list.eraseIdx index }

/-- The assignment `*timer = t` for the element at position `index`. -/
def assign (t : cTimers) (index : Nat) (timer : cTimer) : cTimers :=
  { t with list := t.list.set index timer }

end cTimers

/-- The fields of a timer request after the flags: lines 1526-1534 and
    1737-1745. -/
structure TimerFields where
  priority : Nat
  lifetime : Nat
  channelid : Nat
  startTime : Nat
  stopTime : Nat
  day : Nat
  weekdays : Nat
  file : List Nat
  aux : List Nat
  deriving DecidableEq, Repr

/-- The extractions of lines 1526-1534 (and 1737-1745), in order. -/
def extractTimerFields (req : cRequestPacket) : TimerFields :=
  let priority := req.extract_U32.1
  let req := req.extract_U32.2
  let lifetime := req.extract_U32.1
  let req := req.extract_U32.2
  let channelid := req.extract_U32.1
  let req := req.extract_U32.2
  let startTime := req.extract_U32.1
  let req := req.extract_U32.2
  let stopTime := req.extract_U32.1
  let req := req.extract_U32.2
  let day := req.extract_U32.1
  let req := req.extract_U32.2
  let weekdays := req.extract_U32.1
  let req := req.extract_U32.2
  let file := req.extract_String.1
  let req := req.extract_String.2
  let aux := req.extract_String.1
  { priority := priority, lifetime := lifetime, channelid := channelid, startTime := startTime,
    stopTime := stopTime, day := day, weekdays := weekdays, file := file, aux := aux }

/-- Answers of the host to the timer handlers. -/
structure TimerHost where
  /-- Value of `time(NULL)`. -/
  timeNow : Nat
  FindChannelByUID : Nat → Option cChannel
  /-- The text built by `cString::sprintf` at lines 1554 and 1759 from the
      flags, the channel and the request fields (with their conversion by
      `localtime_r`, `cTimer::SetTime` and `cTimer::PrintDay`). -/
  describe : Nat → cChannel → TimerFields → List Nat
  /-- The call `timer->Parse(buffer)` on a timer object: the timer it becomes,
      or nothing when the text does not parse. -/
  Parse : cTimer → List Nat → Option cTimer
  /-- The call `Timers->GetTimer(timer)`: a timer of the list with the same
      settings, if there is one. -/
  GetTimer : List cTimer → cTimer → Option cTimer
  /-- The object built by `new cTimer`. -/
  newTimer : cTimer

/-- The description assembled at lines 1550-1555 and 1755-1760: the text of
    `sprintf` when the channel uid resolves, the empty `cString` otherwise. -/
def timerDescription (host : TimerHost) (flags : Nat) (f : TimerFields) : List Nat :=
  match host.FindChannelByUID f.channelid with
  | some channel => host.describe flags channel f
  | none => []

/-- The description `processTIMER_Add` assembles from its request, lines
    1525-1555. The flags are `tfActive` (1) or `tfNone` (0). An instant timer
    (start time 0) starts now; the other test of line 1537,
    `startTime == -1`, cannot hold for a `uint32_t` value held in a 64-bit
    `time_t`. -/
def addDescription (host : TimerHost) (req : cRequestPacket) : List Nat :=
  let flags := if req.extract_U32.1 > 0 then 1 else 0
  let req := req.extract_U32.2
  let f := extractTimerFields req
  let f := if f.startTime = 0 then { f with startTime := host.timeNow } else f
  timerDescription host flags f

/-- Lines 1521-1606. -/
def processTIMER_Add (k : vnsicommand) (host : TimerHost) (req : cRequestPacket)
    (resp : cResponsePacket) (timers : cTimers) (c : cVNSIClient) :
    Bool × cVNSIClient × cTimers :=
  let buffer := addDescription host req
  match host.Parse host.newTimer buffer with
  | some timer =>
    match host.GetTimer timers.list timer with
    | none =>
      let timers := timers.Add timer
      let timers := timers.SetModified
      let resp := resp.add_U32 k.VNSI_RET_OK
      let resp := resp.finalise
      (true, c.write resp, timers)
    | some _ =>
      let resp := resp.add_U32 k.VNSI_RET_DATALOCKED
      let resp := resp.finalise
      (true, c.write resp, timers)
  | none =>
    let resp := resp.add_U32 k.VNSI_RET_DATAINVALID
    let resp := resp.finalise
    (true, c.write resp, timers)

/-- Lines 1608-1699. `timer->Skip()` acts on the timer that is deleted next,
    and `cRecordControls::Process` on the record controls of the host.
    `refused` is the path of lines 1642-1649: the timer is recording and
    force is 0. -/
def processTIMER_Delete (k : vnsicommand) (req : cRequestPacket) (resp : cResponsePacket)
    (timers : cTimers) (c : cVNSIClient) : Bool × cVNSIClient × cTimers :=
  let timersCount := timers.Count
  let number := req.extract_U32.1
  let req := req.extract_U32.2
  let force := decide (req.extract_U32.1 ≠ 0)
  if number = 0 ∨ number > timersCount then
    let resp := resp.add_U32 k.VNSI_RET_DATAINVALID
    let resp := resp.finalise
    (true, c.write resp, timers)
  else
    match timers.Get (toS32 (number - 1)) with
    | some timer =>
      let timers := timers.SetExplicitModify
      let refused := if timer.recording then (if force then false else true) else false
      if refused then
        let resp := resp.add_U32 k.VNSI_RET_RECRUNNING
        let resp := resp.finalise
        (true, c.write resp, timers)
      else
        let timers := timers.Del (number - 1)
        let timers := timers.SetModified
        let resp := resp.add_U32 k.VNSI_RET_OK
        let resp := resp.finalise
        (true, c.write resp, timers)
    | none =>
      let resp := resp.add_U32 k.VNSI_RET_DATAINVALID
      let resp := resp.finalise
      (true, c.write resp, timers)

/-- The argument of `Timers->Get(index - 1)` at line 1711: `index - 1` is
    computed in `uint32_t` and passed as `int`. -/
def updatePosition (req : cRequestPacket) : Int :=
  toS32 (if req.extract_U32.1 = 0 then 4294967295 else req.extract_U32.1 - 1)

/-- The description `processTIMER_Update` assembles when the request is not
    the 8-byte form, lines 1736-1760. -/
def updateDescription (host : TimerHost) (req : cRequestPacket) : List Nat :=
  let req := req.extract_U32.2
  let active := decide (req.extract_U32.1 ≠ 0)
  let req := req.extract_U32.2
  let flags := if active then 1 else 0
  let f := extractTimerFields req
  timerDescription host flags f

/-- Lines 1701-1786. -/
def processTIMER_Update (k : vnsicommand) (host : TimerHost) (req : cRequestPacket)
    (resp : cResponsePacket) (timers : cTimers) (c : cVNSIClient) :
    Bool × cVNSIClient × cTimers :=
  let length := req.getDataLength
  let active := decide (req.extract_U32.2.extract_U32.1 ≠ 0)
  let position := updatePosition req
  match timers.Get position with
  | none =>
    let resp := resp.add_U32 k.VNSI_RET_DATAUNKNOWN
    let resp := resp.finalise
    (true, c.write resp, timers)
  | some timer =>
    let t := timer
    let parsed : Option cTimer :=
      if length = 8 then some { t with active := active }
      else host.Parse t (updateDescription host req)
    match parsed with
    | none =>
      let resp := resp.add_U32 k.VNSI_RET_DATAINVALID
      let resp := resp.finalise
      (true, c.write resp, timers)
    | some t =>
      let timers := timers.assign position.toNat t
      let timers := timers.SetModified
      let resp := resp.add_U32 k.VNSI_RET_OK
      let resp := resp.finalise
      (true, c.write resp, timers)

/-- A sample timer list: one idle timer and one that is recording. -/
def sampleTimers : cTimers :=
  { list := [{ settings := [49], active := true, recording := false },
             { settings := [50], active := true, recording := true }],
    explicitModify := false, modified := false }

/-- A sample host for the timer handlers: uid 100 is the only channel; a
    description parses when it is not empty. -/
def sampleTimerHost : TimerHost :=
  { timeNow := 1700000000,
    FindChannelByUID := fun uid => if uid = 100 then some { number := 1 } else none,
    describe := fun flags _ f => [48 + flags, 58] ++ f.file,
    Parse := fun t text => if text = [] then none else some { t with settings := text },
    GetTimer := fun list timer => list.find? (fun x => x.settings = timer.settings),
    newTimer := { settings := [], active := false, recording := false } }

/-- A timer-add request for a channel uid: active, priority 50, lifetime 99,
    start 1700000100, stop 1700003700, day 0, weekdays 0, file "f", aux "". -/
def timerAddPayload (uid : Nat) : List Nat :=
  be32 1 ++ be32 50 ++ be32 99 ++ be32 uid ++ be32 1700000100 ++ be32 1700003700 ++ be32 0
    ++ be32 0 ++ [102, 0] ++ [0]

/-! ## `sStreamInfo` (src/demuxer.h) -/

/-- The struct `sStreamInfo`, demuxer.h lines 36-53. `eStreamType` and
    `eStreamContent` are kept as their numeric values; `language` is the array
    `char language[MAXLANGCODE2]`, one entry per element (the constant
    `MAXLANGCODE2` comes from a header that is not among the sources). -/
structure sStreamInfo where
  pID : Int
  type : Nat
  content : Nat
  language : List Nat
  subtitlingType : Int
  compositionPageId : Int
  ancillaryPageId : Int
  handleRDS : Bool
  deriving DecidableEq, Repr

/-- The character `s[i]` of a C string whose characters before the
    terminating NUL are `s`: the NUL itself at index `s.length`. -/
def cstrAt (s : List Nat) (i : Nat) : Nat := s.getD i 0

/-- The C string held in a character array: the characters before the first
    NUL. -/
def cstrOf (a : List Nat) : List Nat := a.takeWhile (fun b => b ≠ 0)

/-- The member function `sStreamInfo::SetLanguage`, lines 46-52. -/
def sStreamInfo.SetLanguage (s : sStreamInfo) (lang : List Nat) : sStreamInfo :=
  let language := s.language.set 0 (cstrAt lang 0)
  let language := language.set 1 (cstrAt lang 1)
  let language := language.set 2 (cstrAt lang 2)
  let language := language.set 3 0
  { s with language := language }

/-- A stream info with an eight-character language array holding "eng". -/
def sampleStreamInfo : sStreamInfo :=
  { pID := 256, type := 2, content := 1, language := [101, 110, 103, 0, 0, 0, 0, 0],
    subtitlingType := 0, compositionPageId := 0, ancillaryPageId := 0, handleRDS := false }

/-! ## Status notifications `Recording` and `OsdStatusMessage` -/

/-- Lines 319-348. `Name` and `FileName` may be NULL; `initOk` is the result
    of `initStatus`. -/
def Recording (n : vnsinotify) (initOk : Bool) (CardIndex : Nat) (Name FileName : Option (List Nat))
    (On : Bool) (c : cVNSIClient) : List LockEvent :=
  [LockEvent.lock] ++
    (if c.m_StatusInterfaceEnabled then
      if !initOk then []
      else
        let resp := cResponsePacket.initStatus n.VNSI_STATUS_RECORDING
        let resp := resp.add_U32 CardIndex
        let resp := resp.add_U32 (if On then 1 else 0)
        let resp := match Name with
          | some name => resp.add_String name
          | none => resp.add_String []
        let resp := match FileName with
          | some name => resp.add_String name
          | none => resp.add_String []
        [LockEvent.write resp.finalise]
    else []) ++
  [LockEvent.unlock]

/-- Lines 350-391. `ignored` says whether the message is one of the twenty
    prompts of lines 357-376, which are not forwarded. -/
def OsdStatusMessage (n : vnsinotify) (initOk : Bool) (ignored : List Nat → Bool)
    (Message : Option (List Nat)) (c : cVNSIClient) : List LockEvent :=
  [LockEvent.lock] ++
    (match c.m_StatusInterfaceEnabled, Message with
      | true, some message =>
        if ignored message then []
        else if !initOk then []
        else
          let resp := cResponsePacket.initStatus n.VNSI_STATUS_MESSAGE
          let resp := resp.add_U32 0
          let resp := resp.add_String message
          [LockEvent.write resp.finalise]
      | _, _ => []) ++
  [LockEvent.unlock]

/-! ## EPG (`EpgChange`, OPCODE 120) -/

/-- An entry of `m_epgUpdate` (`sEpgUpdate`, declared in `vnsiclient.h`,
    which is not among the sources): the fields the code uses. -/
structure sEpgUpdate where
  attempts : Nat
  lastEvent : Nat
  deriving DecidableEq, Repr

/-- A session with its member `std::map<int, sEpgUpdate> m_epgUpdate`: the
    entry stored under a key, if there is one. -/
structure EpgSession where
  client : cVNSIClient
  m_epgUpdate : Nat → Option sEpgUpdate

/-- An event of the host (`cEvent` of VDR): what `processEPG_GetForChannel`
    reads of it. A text that is a NULL pointer is `none`. -/
structure cEvent where
  EventID : Nat
  StartTime : Nat
  Duration : Nat
  Contents : Nat
  ParentalRating : Nat
  Title : Option (List Nat)
  ShortText : Option (List Nat)
  Description : Option (List Nat)
  deriving DecidableEq, Repr

/-- A schedule of the host as `EpgChange` sees it: the hash of its channel
    id, the start time of its last event (none without events), whether
    `GetByChannelID` finds the channel and whether the channel passes the
    filter. -/
structure cSchedule where
  channelHash : Nat
  lastEventStart : Option Nat
  channelExists : Bool
  passFilter : Bool
  deriving DecidableEq, Repr

/-- How a call of `EpgChange` ends: the session it leaves, the channel ids
    for which it wrote a VNSI_STATUS_EPGCHANGE notification, in order, and, if
    it used the iterator returned by `m_epgUpdate.find` although that was
    `end()`, the key that had no entry. -/
structure EpgRun where
  session : EpgSession
  sent : List Nat
  fault : Option Nat

/-- The loop of `EpgChange`, lines 270-316, over the schedules that are
    left. A failing `initStatus` ends the call (line 310). -/
def EpgChangeLoop (n : vnsinotify) (initOk : Bool) :
    List cSchedule → EpgSession → List Nat → EpgRun
  | [], s, sent => { session := s, sent := sent, fault := none }
  | schedule :: rest, s, sent =>
    match schedule.lastEventStart with
    | none => EpgChangeLoop n initOk rest s sent
    | some lastStart =>
      if !schedule.channelExists then EpgChangeLoop n initOk rest s sent
      else if !schedule.passFilter then EpgChangeLoop n initOk rest s sent
      else
        let channelId := schedule.channelHash
        match s.m_epgUpdate channelId with
        | some entry =>
          if entry.lastEvent ≥ lastStart then EpgChangeLoop n initOk rest s sent
          else if entry.attempts > 3 then EpgChangeLoop n initOk rest s sent
          else
            let counted : sEpgUpdate := { entry with attempts := entry.attempts + 1 }
            let s1 : EpgSession :=
              { s with m_epgUpdate := Function.update s.m_epgUpdate channelId (some counted) }
            if !initOk then { session := s1, sent := sent, fault := none }
            else
              let resp := cResponsePacket.initStatus n.VNSI_STATUS_EPGCHANGE
              let resp := resp.add_U32 channelId
              let resp := resp.finalise
              EpgChangeLoop n initOk rest { s1 with client := s1.client.write resp }
                (sent ++ [channelId])
        | none =>
          -- `it == end()`: the test of line 293 is false and line 298 reads
          -- `it->second.attempts`
          { session := s, sent := sent, fault := some channelId }

/-- The callback `cVNSIClient::EpgChange`, lines 247-317. `schedules` is none
    when the schedules cannot be read. -/
def EpgChange (n : vnsinotify) (initOk : Bool) (schedules : Option (List cSchedule))
    (s : EpgSession) : EpgRun :=
  if !s.client.m_StatusInterfaceEnabled then { session := s, sent := [], fault := none }
  else
    match schedules with
    | none => { session := s, sent := [], fault := none }
    | some list => EpgChangeLoop n initOk list s []

/-- Lines 1115-1122 of `processCHANNELS_GetChannels`: the entry created for
    a listed channel on first query. -/
def epgCreateEntry (m : Nat → Option sEpgUpdate) (uuid : Nat) : Nat → Option sEpgUpdate :=
  match m uuid with
  | none => Function.update m uuid (some { attempts := 0, lastEvent := 0 })
  | some _ => m

/-- Sample values for the status and scanner opcodes. -/
def sampleNotify : vnsinotify :=
  { VNSI_STATUS_TIMERCHANGE := 1, VNSI_STATUS_RECORDING := 2, VNSI_STATUS_MESSAGE := 3,
    VNSI_STATUS_CHANNELCHANGE := 4, VNSI_STATUS_RECORDINGSCHANGE := 5,
    VNSI_STATUS_EPGCHANGE := 6, VNSI_SCANNER_PERCENTAGE := 1, VNSI_SCANNER_SIGNAL := 2,
    VNSI_SCANNER_DEVICE := 3, VNSI_SCANNER_TRANSPONDER := 4, VNSI_SCANNER_NEWCHANNEL := 5,
    VNSI_SCANNER_FINISHED := 6, VNSI_SCANNER_STATUS := 7 }

/-- The logged-in session after VNSI_ENABLESTATUSINTERFACE with byte 1, with
    an empty `m_epgUpdate`: no channel has been listed or queried. -/
def statusSession : EpgSession :=
  { client := (loggedInSession.process_EnableStatusInterface sampleCommand
      (cRequestPacket.new 2 3 [1]) (cResponsePacket.init 2)).2,
    m_epgUpdate := fun _ => none }

/-! ## OPCODE 120: `processEPG_GetForChannel` -/

/-- Conversion of a value to `uint32_t`. -/
def u32 (v : Nat) : Nat := v % 4294967296

/-- What `processEPG_GetForChannel` asks of the host: the value of the k-th
    call of `time(NULL)` during the request, `FindChannelByUID`, the events of
    `Schedules->GetSchedule(channel->GetChannelID())` in the order of
    `First`/`Next` (none for a NULL schedule), and `m_toUTF8.Convert`. -/
structure EpgHost where
  time : Nat → Nat
  FindChannelByUID : Nat → Option cChannel
  GetSchedule : cChannel → Option (List cEvent)
  Convert : List Nat → List Nat

/-- The loop of lines 2167-2209 over the events that are left; `calls` counts
    the calls of `time(NULL)` made so far, one per event (line 2188). The
    branch taken for the rating is `APIVERSNUM >= 10711` (line 2178). -/
def epgEventLoop (host : EpgHost) (startTime duration : Nat) :
    List cEvent → Nat → cResponsePacket → Bool → cResponsePacket × Bool
  | [], _, resp, atLeastOneEvent => (resp, atLeastOneEvent)
  | event :: rest, calls, resp, atLeastOneEvent =>
    let thisEventID := u32 event.EventID
    let thisEventTime := u32 event.StartTime
    let thisEventDuration := u32 event.Duration
    let thisEventContent := u32 event.Contents
    let thisEventRating := u32 event.ParentalRating
    if u32 (thisEventTime + thisEventDuration) < u32 (host.time calls) then
      epgEventLoop host startTime duration rest (calls + 1) resp atLeastOneEvent
    else if u32 (thisEventTime + thisEventDuration) ≤ startTime then
      epgEventLoop host startTime duration rest (calls + 1) resp atLeastOneEvent
    else if duration ≠ 0 ∧ thisEventTime ≥ u32 (startTime + duration) then
      epgEventLoop host startTime duration rest (calls + 1) resp atLeastOneEvent
    else
      let thisEventTitle := match event.Title with
        | some text => text
        | none => []
      let thisEventSubTitle := match event.ShortText with
        | some text => text
        | none => []
      let thisEventDescription := match event.Description with
        | some text => text
        | none => []
      let resp := resp.add_U32 thisEventID
      let resp := resp.add_U32 thisEventTime
      let resp := resp.add_U32 thisEventDuration
      let resp := resp.add_U32 thisEventContent
      let resp := resp.add_U32 thisEventRating
      let resp := resp.add_String (host.Convert thisEventTitle)
      let resp := resp.add_String (host.Convert thisEventSubTitle)
      let resp := resp.add_String (host.Convert thisEventDescription)
      epgEventLoop host startTime duration rest (calls + 1) resp true

/-- Lines 2228-2233: `m_epgUpdate[channelUID]` gets the start of the last
    event and a zero attempts counter; `operator[]` creates a missing entry. -/
def epgReset (m : Nat → Option sEpgUpdate) (channelUID lastStart : Nat) :
    Nat → Option sEpgUpdate :=
  Function.update m channelUID (some { attempts := 0, lastEvent := lastStart })

/-- Lines 2087-2237, the branch `VDRVERSNUM >= 20301`. -/
def processEPG_GetForChannel (host : EpgHost) (req : cRequestPacket) (resp : cResponsePacket)
    (s : EpgSession) : Bool × EpgSession :=
  let channelUID := req.extract_U32.1
  let req := req.extract_U32.2
  let startTime := req.extract_U32.1
  let req := req.extract_U32.2
  let duration := req.extract_U32.1
  match host.FindChannelByUID channelUID with
  | none =>
    let resp := resp.add_U32 0
    let resp := resp.finalise
    (true, { s with client := s.client.write resp })
  | some channel =>
    match host.GetSchedule channel with
    | none =>
      let resp := resp.add_U32 0
      let resp := resp.finalise
      (true, { s with client := s.client.write resp })
    | some events =>
      let r := epgEventLoop host startTime duration events 0 resp false
      let resp := if !r.2 then r.1.add_U32 0 else r.1
      let resp := resp.finalise
      let s := { s with client := s.client.write resp }
      match events.getLast? with
      | some lastEvent =>
        (true, { s with m_epgUpdate := epgReset s.m_epgUpdate channelUID lastEvent.StartTime })
      | none => (true, s)

/-- The condition of claim C27 on an event with start `t` and duration `d`,
    in the words of the specification, all sums modulo 2^32. -/
def specQualifies (now startTime duration : Nat) (e : cEvent) : Bool :=
  decide ((e.StartTime % 4294967296 + e.Duration % 4294967296) % 4294967296 ≥ now % 4294967296
    ∧ (e.StartTime % 4294967296 + e.Duration % 4294967296) % 4294967296 > startTime
    ∧ (duration = 0 ∨ e.StartTime % 4294967296 < (startTime + duration) % 4294967296))

/-- The bytes of one emitted event in the words of the specification: five
    U32 fields (id, start, duration, content, rating) and three strings, a
    missing string sent as the empty string; `convert` is the character set
    conversion applied to each string. -/
def specEventFields (convert : List Nat → List Nat) (e : cEvent) : List Nat :=
  be32 e.EventID ++ be32 e.StartTime ++ be32 e.Duration ++ be32 e.Contents
    ++ be32 e.ParentalRating
    ++ (convert (e.Title.getD []) ++ [0])
    ++ (convert (e.ShortText.getD []) ++ [0])
    ++ (convert (e.Description.getD []) ++ [0])

/-- The payload of the reply in the words of the specification. -/
def specEpgPayload (convert : List Nat → List Nat) (now startTime duration : Nat)
    (events : List cEvent) : List Nat :=
  if events.filter (specQualifies now startTime duration) = [] then be32 0
  else ((events.filter (specQualifies now startTime duration)).map (specEventFields convert)).flatten

/-- A host with one channel (uid 100) whose schedule has three events: one
    over, one running at time 1700000000, one later; the clock stands still. -/
def sampleEpgHost : EpgHost :=
  { time := fun _ => 1700000000,
    FindChannelByUID := fun uid =>
      if uid = 100 then some { number := 1 } else none,
    GetSchedule := fun _ => some [
      { EventID := 1, StartTime := 1699990000, Duration := 3600, Contents := 16,
        ParentalRating := 0, Title := some [79], ShortText := none, Description := none },
      { EventID := 2, StartTime := 1699999000, Duration := 3600, Contents := 32,
        ParentalRating := 12, Title := some [78], ShortText := some [110], Description := none },
      { EventID := 3, StartTime := 1700002600, Duration := 1800, Contents := 0,
        ParentalRating := 0, Title := none, ShortText := none, Description := some [100] }],
    Convert := fun text => text }

/-- What can touch `m_epgUpdate` on a session: a call of `EpgChange` (with
    the result of its `initStatus` and the schedules it finds), the creation
    of the entry of a listed channel by `processCHANNELS_GetChannels` (lines
    1115-1122), and the reset at the end of `processEPG_GetForChannel` (lines
    2228-2233). -/
inductive EpgStep where
  | change (initOk : Bool) (schedules : Option (List cSchedule))
  | create (uuid : Nat)
  | reset (channelUID lastStart : Nat)

/-- Whether a step sets the attempts counter of the entry `id`, which
    exists, to 0. -/
def EpgStep.resets (id : Nat) : EpgStep → Bool
  | EpgStep.reset channelUID _ => decide (channelUID = id)
  | _ => false

/-- Whether a step is a call of `EpgChange` that finds for the channel with
    hash `id` a schedule whose last event starts after `lastEvent`. -/
def EpgStep.nothingNewFor (id lastEvent : Nat) : EpgStep → Prop
  | EpgStep.change _ (some list) => ∀ schedule ∈ list, schedule.channelHash = id →
      ∀ t, schedule.lastEventStart = some t → t ≤ lastEvent
  | _ => True

/-- A run of steps on one session: the notifications of all `EpgChange`
    calls in order, and of the other steps their effect on `m_epgUpdate`. The
    run ends at a call that uses a missing entry. -/
def EpgSteps (n : vnsinotify) : List EpgStep → EpgSession → EpgRun
  | [], s => { session := s, sent := [], fault := none }
  | EpgStep.change initOk schedules :: rest, s =>
    let r := EpgChange n initOk schedules s
    match r.fault with
    | some _ => r
    | none =>
      let r2 := EpgSteps n rest r.session
      { session := r2.session, sent := r.sent ++ r2.sent, fault := r2.fault }
  | EpgStep.create uuid :: rest, s =>
    EpgSteps n rest { s with m_epgUpdate := epgCreateEntry s.m_epgUpdate uuid }
  | EpgStep.reset channelUID lastStart :: rest, s =>
    EpgSteps n rest { s with m_epgUpdate := epgReset s.m_epgUpdate channelUID lastStart }

/-- A schedule of the channel with hash 77 whose last event starts at `t`. -/
def schedule77 (t : Nat) : cSchedule :=
  { channelHash := 77, lastEventStart := some t, channelExists := true, passFilter := true }

/-! ## Channel blacklist (`processCHANNELS_SetBlacklist`, `processCHANNELS_GetBlacklist`) -/

/-- Modelled from the spec: `requestpacket.c` is not among the sources. The
    member function `end()`: the cursor has reached the declared payload
    length. -/
def cRequestPacket.atEnd (r : cRequestPacket) : Bool := decide (r.userData.length ≤ r.packetPos)

/-- The two `std::vector<int>` of the global `VNSIChannelFilter` that the
    blacklist handlers use. -/
structure cVNSIChannelFilter where
  m_channelsRadio : List Int
  m_channelsVideo : List Int
  deriving DecidableEq, Repr

/-- The loop of lines 1362-1366, `while(!m_req->end())`: each pass converts
    an extracted `uint32_t` to `int` and appends it. `none` when the passes
    allowed are used up before the request is at its end. -/
def blacklistLoop : Nat → cRequestPacket → List Int → Option (List Int)
  | 0, _, _ => none
  | fuel + 1, req, channels =>
    if req.atEnd then some channels
    else
      let id := toS32 req.extract_U32.1
      blacklistLoop fuel req.extract_U32.2 (channels ++ [id])

/-- Lines 1348-1374. Modelled from the spec: `StoreBlacklist`
    (channelfilter.c, not among the sources) saves the list and leaves the
    vectors as they are. -/
def processCHANNELS_SetBlacklist (fuel : Nat) (req : cRequestPacket) (resp : cResponsePacket)
    (f : cVNSIChannelFilter) (c : cVNSIClient) :
    Option (Bool × cVNSIChannelFilter × cVNSIClient) :=
  let radio := decide (req.extract_U8.1 ≠ 0)
  let req := req.extract_U8.2
  match blacklistLoop fuel req [] with
  | none => none
  | some channels =>
    let f := if radio then { f with m_channelsRadio := channels }
      else { f with m_channelsVideo := channels }
    let resp := resp.finalise
    some (true, f, c.write resp)

/-- Lines 1296-1316. -/
def processCHANNELS_GetBlacklist (req : cRequestPacket) (resp : cResponsePacket)
    (f : cVNSIChannelFilter) (c : cVNSIClient) : Bool × cVNSIClient :=
  let radio := decide (req.extract_U8.1 ≠ 0)
  let channels := if radio then f.m_channelsRadio else f.m_channelsVideo
  let resp := channels.foldl (fun r channel => r.add_U32 (s32 channel)) resp
  let resp := resp.finalise
  (true, c.write resp)

/-- A filter with one radio and two video channels blacklisted. -/
def sampleFilter : cVNSIChannelFilter :=
  { m_channelsRadio := [5], m_channelsVideo := [6, 7] }

/-! ## Channel groups (`processCHANNELS_GroupsCount`, `GroupList`, `GetGroupMembers`) -/

/-- The struct `ChannelGroup` as the handlers use it. -/
structure ChannelGroup where
  name : List Nat
  radio : Bool
  automatic : Bool
  deriving DecidableEq, Repr

/-- A channel of the host as the group handlers see it. -/
structure GroupChannel where
  GroupSep : Bool
  Provider : List Nat
  Name : List Nat
  IsRadio : Bool
  PassFilter : Bool
  uid : Nat
  deriving DecidableEq, Repr

/-- The order of `std::string` keys: bytewise, a proper prefix first. -/
def strLess : List Nat → List Nat → Bool
  | [], [] => false
  | [], _ :: _ => true
  | _ :: _, [] => false
  | a :: as, b :: bs => if a < b then true else if b < a then false else strLess as bs

/-- Assignment `m[key] = g` on a `std::map<std::string, ChannelGroup>` kept
    as its entries in key order. -/
def groupInsert : List (List Nat × ChannelGroup) → List Nat → ChannelGroup →
    List (List Nat × ChannelGroup)
  | [], key, g => [(key, g)]
  | (k, v) :: rest, key, g =>
    if strLess key k then (key, g) :: (k, v) :: rest
    else if k = key then (key, g) :: rest
    else (k, v) :: groupInsert rest key g

/-- The call `m.find(key)`: the group stored under the key, none for `end()`. -/
def groupFind (m : List (List Nat × ChannelGroup)) (key : List Nat) : Option ChannelGroup :=
  match m.find? (fun entry => entry.1 = key) with
  | some entry => some entry.2
  | none => none

/-- The member array `m_channelgroups`, which has the two elements that
    `processCHANNELS_GroupsCount` clears (lines 1141-1142). -/
structure ChannelGroups where
  element0 : List (List Nat × ChannelGroup)
  element1 : List (List Nat × ChannelGroup)
  deriving DecidableEq, Repr

/-- The expression `m_channelgroups[i]` for an unsigned index: none when the
    index is outside the array. -/
def ChannelGroups.index (t : ChannelGroups) (i : Nat) : Option (List (List Nat × ChannelGroup)) :=
  match i with
  | 0 => some t.element0
  | 1 => some t.element1
  | _ => none

/-- The expression `m_channelgroups[isRadio]` for a `bool` index. -/
def ChannelGroups.ofBool (t : ChannelGroups) (isRadio : Bool) : List (List Nat × ChannelGroup) :=
  if isRadio then t.element1 else t.element0

/-- A session with its member `m_channelgroups`. -/
structure GroupSession where
  client : cVNSIClient
  m_channelgroups : ChannelGroups
  deriving DecidableEq

/-- The loop of `CreateChannelGroups`, lines 1380-1407; `groupname` is
    declared outside the loop and keeps its value between channels. -/
def CreateChannelGroupsLoop (automatic : Bool) :
    List GroupChannel → List Nat → ChannelGroups → ChannelGroups
  | [], _, t => t
  | channel :: rest, groupname, t =>
    let isRadio := channel.IsRadio
    let groupname :=
      if automatic && !channel.GroupSep then channel.Provider
      else if !automatic && channel.GroupSep then channel.Name
      else groupname
    if groupname.isEmpty then CreateChannelGroupsLoop automatic rest groupname t
    else
      match groupFind (t.ofBool isRadio) groupname with
      | some _ => CreateChannelGroupsLoop automatic rest groupname t
      | none =>
        let group : ChannelGroup := { name := groupname, radio := isRadio, automatic := automatic }
        let m := groupInsert (t.ofBool isRadio) groupname group
        let t := if isRadio then { t with element1 := m } else { t with element0 := m }
        CreateChannelGroupsLoop automatic rest groupname t

/-- The member function `CreateChannelGroups`, lines 1376-1412. -/
def CreateChannelGroups (Channels : List GroupChannel) (automatic : Bool) (t : ChannelGroups) :
    ChannelGroups :=
  CreateChannelGroupsLoop automatic Channels [] t

/-- Lines 1137-1163. -/
def processCHANNELS_GroupsCount (Channels : List GroupChannel) (req : cRequestPacket)
    (resp : cResponsePacket) (s : GroupSession) : Bool × GroupSession :=
  let type := req.extract_U32.1
  let t : ChannelGroups := { element0 := [], element1 := [] }
  let t := if type = 1 then CreateChannelGroups Channels true t
    else CreateChannelGroups Channels false t
  let count := u32 (t.element0.length + t.element1.length)
  let resp := resp.add_U32 count
  let resp := resp.finalise
  (true, { client := s.client.write resp, m_channelgroups := t })

/-- Lines 1165-1179. The index is the extracted byte as `uint32_t`; the result
    is none when `m_channelgroups[radio]` lies outside the array. -/
def processCHANNELS_GroupList (req : cRequestPacket) (resp : cResponsePacket)
    (s : GroupSession) : Option (Bool × GroupSession) :=
  let radio := req.extract_U8.1
  match s.m_channelgroups.index radio with
  | none => none
  | some groups =>
    let resp := groups.foldl
      (fun r entry => (r.add_String entry.2.name).add_U8 (if entry.2.radio then 1 else 0)) resp
    let resp := resp.finalise
    some (true, { s with client := s.client.write resp })

/-- The loop of lines 1203-1238 over the channels that are left; `name` keeps
    its value between channels. -/
def groupMembersLoop (groupname : List Nat) (radio : Nat) (filter automatic : Bool) :
    List GroupChannel → List Nat → Nat → cResponsePacket → cResponsePacket
  | [], _, _, resp => resp
  | channel :: rest, name, index, resp =>
    if automatic && !channel.GroupSep then
      let name := channel.Provider
      if name.isEmpty then groupMembersLoop groupname radio filter automatic rest name index resp
      else if (if channel.IsRadio then 1 else 0) ≠ radio then
        groupMembersLoop groupname radio filter automatic rest name index resp
      else if filter && !channel.PassFilter then
        groupMembersLoop groupname radio filter automatic rest name index resp
      else if name = groupname then
        let resp := resp.add_U32 channel.uid
        let resp := resp.add_U32 (index + 1)
        groupMembersLoop groupname radio filter automatic rest name (index + 1) resp
      else groupMembersLoop groupname radio filter automatic rest name index resp
    else if channel.GroupSep then
      groupMembersLoop groupname radio filter automatic rest channel.Name index resp
    else if name.isEmpty then
      groupMembersLoop groupname radio filter automatic rest name index resp
    else if (if channel.IsRadio then 1 else 0) ≠ radio then
      groupMembersLoop groupname radio filter automatic rest name index resp
    else if filter && !channel.PassFilter then
      groupMembersLoop groupname radio filter automatic rest name index resp
    else if name = groupname then
      let resp := resp.add_U32 channel.uid
      let resp := resp.add_U32 (index + 1)
      groupMembersLoop groupname radio filter automatic rest name (index + 1) resp
    else groupMembersLoop groupname radio filter automatic rest name index resp

/-- Lines 1181-1249. The result is none when `m_channelgroups[radio]` lies
    outside the array. -/
def processCHANNELS_GetGroupMembers (Channels : List GroupChannel) (req : cRequestPacket)
    (resp : cResponsePacket) (s : GroupSession) : Option (Bool × GroupSession) :=
  let groupname := req.extract_String.1
  let req := req.extract_String.2
  let radio := req.extract_U8.1
  let req := req.extract_U8.2
  let filter := decide (req.extract_U8.1 ≠ 0)
  match s.m_channelgroups.index radio with
  | none => none
  | some groups =>
    match groupFind groups groupname with
    | none =>
      let resp := resp.finalise
      some (true, { s with client := s.client.write resp })
    | some group =>
      let resp := groupMembersLoop groupname radio filter group.automatic Channels [] 0 resp
      let resp := resp.finalise
      some (true, { s with client := s.client.write resp })

/-- Three channels of the host: a group separator "A", a TV channel and a
    radio channel. -/
def sampleGroupChannels : List GroupChannel :=
  [{ GroupSep := true, Provider := [], Name := [65], IsRadio := false, PassFilter := true,
     uid := 0 },
   { GroupSep := false, Provider := [80], Name := [84], IsRadio := false, PassFilter := true,
     uid := 100 },
   { GroupSep := false, Provider := [80], Name := [82], IsRadio := true, PassFilter := true,
     uid := 101 }]

/-- The logged-in session after `processCHANNELS_GroupsCount` with type 0. -/
def groupSession : GroupSession :=
  (processCHANNELS_GroupsCount sampleGroupChannels (cRequestPacket.new 2 60 (be32 0))
    (cResponsePacket.init 2)
    { client := loggedInSession, m_channelgroups := { element0 := [], element1 := [] } }).2

/-! ## Deleting and undeleting recordings (OPCODE 104, 183, 184) -/

/-- The lists `Recordings` and `DeletedRecordings` of the host. -/
structure RecordingLists where
  Recordings : List cRecording
  DeletedRecordings : List cRecording
  deriving DecidableEq, Repr

/-- What the three handlers and `Undelete` ask of the host:
    `cRecordingsCache::LookupWrite`, `FileName()`, `CreateStringHash`, whether
    `GetRecordControl` finds a record control for a file name,
    `recording->Delete()`, `Recordings->DelByName`, `LockFile.Lock()`,
    `RemoveVideoFile`, and for `Undelete`: whether the file name ends in
    ".del", whether the new name exists, whether the old one is accessible,
    the texts of the messages, the message of the index check if it finds
    something wrong, and the test of `OsdStatusMessage` for prompts that are
    not forwarded. -/
structure RecordingsHost where
  LookupWrite : Nat → Option cRecording
  FileName : cRecording → List Nat
  CreateStringHash : List Nat → Nat
  GetRecordControl : List Nat → Bool
  Delete : cRecording → Bool
  DelByName : List Nat → List cRecording → List cRecording
  Lock : Bool
  RemoveVideoFile : List Nat → Bool
  hasDelExt : cRecording → Bool
  newNameExists : cRecording → Bool
  accessible : cRecording → Bool
  existsMessage : cRecording → List Nat
  indexMessage : cRecording → Option (List Nat)
  vanishedMessage : cRecording → List Nat
  ignored : List Nat → Bool
  initOk : Bool

/-- Lines 1999-2051. -/
def processRECORDINGS_Delete (k : vnsicommand) (host : RecordingsHost) (req : cRequestPacket)
    (resp : cResponsePacket) (lists : RecordingLists) (c : cVNSIClient) :
    Bool × RecordingLists × cVNSIClient :=
  let uid := req.extract_U32.1
  match host.LookupWrite uid with
  | some recording =>
    if !host.GetRecordControl (host.FileName recording) then
      if host.Delete recording then
        let lists := { lists with
          Recordings := host.DelByName (host.FileName recording) lists.Recordings }
        let resp := resp.add_U32 k.VNSI_RET_OK
        let resp := resp.finalise
        (true, lists, c.write resp)
      else
        let resp := resp.add_U32 k.VNSI_RET_ERROR
        let resp := resp.finalise
        (true, lists, c.write resp)
    else
      let resp := resp.add_U32 k.VNSI_RET_DATALOCKED
      let resp := resp.finalise
      (true, lists, c.write resp)
  | none =>
    let resp := resp.add_U32 k.VNSI_RET_DATAUNKNOWN
    let resp := resp.finalise
    (true, lists, c.write resp)

/-- The loop of lines 2668-2697 over the deleted recordings that are left:
    the first one whose hash is `uid` ends it. -/
def deletedDeleteLoop (k : vnsicommand) (host : RecordingsHost) (uid : Nat) :
    List cRecording → cResponsePacket → RecordingLists → cResponsePacket × RecordingLists
  | [], resp, lists => (resp, lists)
  | recording :: rest, resp, lists =>
    if uid = host.CreateStringHash (host.FileName recording) then
      if !host.RemoveVideoFile (host.FileName recording) then
        (resp.add_U32 k.VNSI_RET_ERROR, lists)
      else
        (resp.add_U32 k.VNSI_RET_OK,
         { lists with DeletedRecordings := lists.DeletedRecordings.erase recording })
    else deletedDeleteLoop k host uid rest resp lists

/-- Lines 2653-2707. -/
def processRECORDINGS_DELETED_Delete (k : vnsicommand) (host : RecordingsHost)
    (req : cRequestPacket) (resp : cResponsePacket) (lists : RecordingLists) (c : cVNSIClient) :
    Bool × RecordingLists × cVNSIClient :=
  let r :=
    if host.Lock then
      let uid := req.extract_U32.1
      deletedDeleteLoop k host uid lists.DeletedRecordings resp lists
    else (resp, lists)
  let resp := r.1.finalise
  (true, r.2, c.write resp)

/-- The member function `Undelete`, lines 2709-2791: it returns true on every
    path; the deleted recording leaves `DeletedRecordings` when its file name
    ends in ".del", the new name is free and the old one is accessible; what
    goes wrong is reported through `OsdStatusMessage`. -/
def Undelete (n : vnsinotify) (host : RecordingsHost) (recording : cRecording)
    (lists : RecordingLists) (c : cVNSIClient) : Bool × RecordingLists × cVNSIClient :=
  if host.hasDelExt recording then
    if host.newNameExists recording then
      (true, lists, c.perform
        (OsdStatusMessage n host.initOk host.ignored (some (host.existsMessage recording)) c))
    else if host.accessible recording then
      let c := match host.indexMessage recording with
        | some message =>
          c.perform (OsdStatusMessage n host.initOk host.ignored (some message) c)
        | none => c
      (true, { lists with DeletedRecordings := lists.DeletedRecordings.erase recording }, c)
    else
      (true, lists, c.perform
        (OsdStatusMessage n host.initOk host.ignored (some (host.vanishedMessage recording)) c))
  else (true, lists, c)

/-- The loop of lines 2807-2823 over the deleted recordings that are left;
    `ret` is the status so far. -/
def deletedUndeleteLoop (k : vnsicommand) (n : vnsinotify) (host : RecordingsHost) (uid : Nat) :
    List cRecording → Nat → RecordingLists → cVNSIClient → Nat × RecordingLists × cVNSIClient
  | [], ret, lists, c => (ret, lists, c)
  | recording :: rest, ret, lists, c =>
    if uid = host.CreateStringHash (host.FileName recording) then
      let r := Undelete n host recording lists c
      if r.1 then (k.VNSI_RET_OK, r.2.1, r.2.2)
      else (k.VNSI_RET_ERROR, r.2.1, r.2.2)
    else deletedUndeleteLoop k n host uid rest ret lists c

/-- Lines 2792-2831. -/
def processRECORDINGS_DELETED_Undelete (k : vnsicommand) (n : vnsinotify)
    (host : RecordingsHost) (req : cRequestPacket) (resp : cResponsePacket)
    (lists : RecordingLists) (c : cVNSIClient) : Bool × RecordingLists × cVNSIClient :=
  let ret := k.VNSI_RET_DATAUNKNOWN
  let r :=
    if host.Lock then
      let uid := req.extract_U32.1
      deletedUndeleteLoop k n host uid lists.DeletedRecordings ret lists c
    else (ret, lists, c)
  let resp := resp.add_U32 r.1
  let resp := resp.finalise
  (true, r.2.1, r.2.2.write resp)

/-- A host with one recording (uid 9) and one deleted recording whose file
    name hashes to 500; the video directory can be locked. -/
def sampleRecordingsHost : RecordingsHost :=
  { LookupWrite := fun uid =>
      if uid = 9 then some { handle := 9, IsPesRecording := false } else none,
    FileName := fun recording => [47, 118, recording.handle % 256],
    CreateStringHash := fun name => if name = [47, 118, 50] then 500 else 0,
    GetRecordControl := fun _ => false,
    Delete := fun _ => true,
    DelByName := fun _ recordings => recordings,
    Lock := true,
    RemoveVideoFile := fun _ => true,
    hasDelExt := fun _ => true,
    newNameExists := fun _ => false,
    accessible := fun _ => true,
    existsMessage := fun _ => [101],
    indexMessage := fun _ => none,
    vanishedMessage := fun _ => [118],
    ignored := fun _ => false,
    initOk := true }

/-- The lists of the sample host. -/
def sampleRecordingLists : RecordingLists :=
  { Recordings := [{ handle := 9, IsPesRecording := false }],
    DeletedRecordings := [{ handle := 50, IsPesRecording := false }] }

/-! ## The scan-inhibit flag over the life of the connections -/

/-- What happens on the server, one entry at a time: a scan request of
    connection `i`, the end of the command loop of connection `i` (the peer
    closed the connection, or a request ended the loop), and the scanner
    reporting to connection `i` that its scan is finished. -/
inductive ScanEvent where
  | request (i : Nat) (r : ScanRequest)
  | loopEnds (i : Nat)
  | finished (i : Nat) (initOk : Bool)
  deriving DecidableEq, Repr

/-- Lines 155-165 and the destructor (lines 75-83) on a session with its scan
    control: both call `m_ChannelScanControl.StopScan()`; neither writes
    `m_inhibidDataUpdates`. -/
def ScanSession.afterLoop (host : ScanHost) (s : ScanSession) : ScanSession :=
  { client := VNSI.afterLoop s.client,
    m_ChannelScanControl := (s.m_ChannelScanControl.StopScan host).2 }

/-- The callback `processSCAN_IsFinished` (lines 2450-2461) on a session.
    Modelled from the spec: the scanner calls it when the scan of this
    control has ended, so the scan is no longer running. The callback does not
    write `m_inhibidDataUpdates`. -/
def ScanSession.scanFinished (n : vnsinotify) (initOk : Bool) (s : ScanSession) : ScanSession :=
  { client := s.client.perform (processSCAN_IsFinished n initOk),
    m_ChannelScanControl := { running := false } }

/-- The server after one event. A connection whose loop has ended is cleaned
    up and leaves the list of connections; the static flag stays as it is. -/
def ScanServer.step (k : vnsicommand) (n : vnsinotify) (host : ScanHost) (srv : ScanServer) :
    ScanEvent → ScanServer
  | ScanEvent.request i r => srv.handle k host i r
  | ScanEvent.loopEnds i =>
    match srv.sessions.get? i with
    | none => srv
    | some _ => { srv with sessions := srv.sessions.eraseIdx i }
  | ScanEvent.finished i initOk =>
    match srv.sessions.get? i with
    | none => srv
    | some s => { srv with sessions := srv.sessions.set i (s.scanFinished n initOk) }

/-- The server after a sequence of events. -/
def ScanServer.steps (k : vnsicommand) (n : vnsinotify) (host : ScanHost) (srv : ScanServer) :
    List ScanEvent → ScanServer
  | [] => srv
  | e :: rest => ScanServer.steps k n host (srv.step k n host e) rest

/-! ## One response per request -/

theorem readU32_be32 (v : Nat) (rest : List Nat) (h : v < 4294967296) :
    readU32 (be32 v ++ rest) = some (v, rest) := by
  simp only [be32, readU32, List.cons_append, List.nil_append, ntohl]
  have : v / 16777216 % 256 % 256 * 16777216 + v / 65536 % 256 % 256 * 65536
      + v / 256 % 256 % 256 * 256 + v % 256 % 256 = v := by omega
  rw [this]

theorem readU32_header (a b c d : Nat) (rest : List Nat) (ha : a < 4294967296) :
    readU32 (header a b c d ++ rest) = some (a, be32 b ++ (be32 c ++ (be32 d ++ rest))) := by
  unfold header
  rw [List.append_assoc, List.append_assoc, List.append_assoc]
  exact readU32_be32 a _ ha

/-- One pass of the loop on a complete 16-byte header. -/
theorem ActionPass_header (k : vnsicommand) (env : Env) (c : cVNSIClient)
    (channelID requestID opcode dataLength : Nat) (rest : List Nat)
    (hch : channelID < 4294967296) (hrid : requestID < 4294967296)
    (hop : opcode < 4294967296) (hlen : dataLength < 4294967296) :
    ActionPass k env (header channelID requestID opcode dataLength ++ rest) c =
      if !env.Running then Pass.stop c
      else if channelID = 1 then
        if dataLength > 200000 then Pass.stop c
        else
          match readPayload env dataLength rest with
          | none => Pass.stop c
          | some (data, p5) =>
            if !c.m_loggedIn && decide (k.label opcode ≠ some Opcode.VNSI_LOGIN) then Pass.stop c
            else
              Pass.handled (c.processRequest k env (cRequestPacket.new requestID opcode data)).1 p5
                (c.processRequest k env (cRequestPacket.new requestID opcode data)).2
      else Pass.stop c := by
  unfold ActionPass
  simp only [readU32_header _ _ _ _ _ hch, readU32_be32 _ _ hrid, readU32_be32 _ _ hop,
    readU32_be32 _ _ hlen]

theorem readU32_length {p rest : List Nat} {v : Nat} (h : readU32 p = some (v, rest)) :
    rest.length + 4 = p.length := by
  match p, h with
  | b0 :: b1 :: b2 :: b3 :: t, h =>
    simp only [readU32, Option.some.injEq, Prod.mk.injEq] at h
    rw [← h.2]
    simp

theorem readPayload_length {env : Env} {n : Nat} {p data rest : List Nat}
    (h : readPayload env n p = some (data, rest)) : rest.length ≤ p.length := by
  unfold readPayload at h
  split at h
  · split at h
    · split at h
      · simp only [Option.some.injEq, Prod.mk.injEq] at h
        rw [← h.2]
        simp
      · cases h
    · cases h
  · simp only [Option.some.injEq, Prod.mk.injEq] at h
    rw [← h.2]

/-- A pass that goes round again has consumed at least the 16 header bytes. -/
theorem ActionPass_handled_length {k : vnsicommand} {env : Env} {p rest : List Nat}
    {c c1 : cVNSIClient} {r : Bool} (h : ActionPass k env p c = Pass.handled r rest c1) :
    rest.length + 16 ≤ p.length := by
  unfold ActionPass at h
  split at h
  · cases h
  · split at h
    · cases h
    · rename_i channelID p1 h1
      split at h
      · split at h
        · cases h
        · rename_i requestID p2 h2
          split at h
          · cases h
          · rename_i opcode p3 h3
            split at h
            · cases h
            · rename_i dataLength p4 h4
              split at h
              · cases h
              · split at h
                · cases h
                · rename_i data p5 h5
                  split at h
                  · cases h
                  · simp only [Pass.handled.injEq] at h
                    obtain ⟨_, hrest, _⟩ := h
                    subst hrest
                    have l1 := readU32_length h1
                    have l2 := readU32_length h2
                    have l3 := readU32_length h3
                    have l4 := readU32_length h4
                    have l5 := readPayload_length h5
                    omega
      · cases h

/-- The bound on the number of passes is never reached: any two bounds above
    the number of pending bytes give the same run. -/
theorem ActionLoop_fuel (k : vnsicommand) (f : Nat) :
    ∀ (g : Nat) (envs : Nat → Env) (p : List Nat) (c : cVNSIClient),
      p.length < f → p.length < g → ActionLoop k f envs p c = ActionLoop k g envs p c := by
  induction f with
  | zero => intro g envs p c h; omega
  | succ f ih =>
    intro g envs p c hf hg
    cases g with
    | zero => omega
    | succ g =>
      simp only [ActionLoop]
      cases hp : ActionPass k (envs 0) p c with
      | stop c1 => rfl
      | handled r rest c1 =>
        have hl := ActionPass_handled_length hp
        exact ih g _ rest c1 (by omega) (by omega)

/-- Claim C1. While the session is not logged in, a well-formed header
    (channel id 1, declared length at most 200000) whose opcode is not
    VNSI_LOGIN ends the loop: the pass never reaches `processRequest`, and it
    leaves the session, the socket's written packets included, exactly as it
    was; the loop of `Action` returns that same state. -/
theorem C1_unauthenticated_opcode_ends_loop (k : vnsicommand) (envs : Nat → Env) (fuel : Nat)
    (c : cVNSIClient) (requestID opcode dataLength : Nat) (rest : List Nat)
    (hrid : requestID < 4294967296) (hop : opcode < 4294967296)
    (hlen : dataLength ≤ 200000)
    (hlogin : c.m_loggedIn = false)
    (hnot : k.label opcode ≠ some Opcode.VNSI_LOGIN) :
    ActionPass k (envs 0) (header 1 requestID opcode dataLength ++ rest) c = Pass.stop c
    ∧ ActionLoop k (fuel + 1) envs (header 1 requestID opcode dataLength ++ rest) c = c := by
  have hpass : ActionPass k (envs 0) (header 1 requestID opcode dataLength ++ rest) c
      = Pass.stop c := by
    rw [ActionPass_header k _ c 1 requestID opcode dataLength rest (by norm_num) hrid hop
      (by omega)]
    simp only [hlogin, hnot, ne_eq, not_false_eq_true, decide_True, Bool.not_false, Bool.and_self,
      if_true]
    split
    · rfl
    · split
      · rfl
      · split <;> rfl
  refine ⟨hpass, ?_⟩
  simp only [ActionLoop, hpass]

/-- Witness of C1: a ping (opcode 7) sent before any login. -/
theorem C1_witness :
    ActionPass sampleCommand sampleEnv (header 1 1 7 0 ++ []) (cVNSIClient.new 0)
      = Pass.stop (cVNSIClient.new 0)
    ∧ ActionLoop sampleCommand 1 (fun _ => sampleEnv) (header 1 1 7 0 ++ []) (cVNSIClient.new 0)
      = cVNSIClient.new 0 :=
  C1_unauthenticated_opcode_ends_loop sampleCommand (fun _ => sampleEnv) 0 (cVNSIClient.new 0)
    1 7 0 [] (by norm_num) (by norm_num) (by norm_num) rfl (by decide)

/-- Claim C2. A header whose channel id is not 1, or whose declared payload
    length exceeds 200000, ends the loop without a call of `processRequest`
    and with the session and its written packets unchanged. A declared
    length of exactly 200000 passes the check: when the payload arrives, the
    buffer is allocated and the session may send the opcode, the request is
    handed to `processRequest`. -/
theorem C2_bad_channel_or_oversized_ends_loop (k : vnsicommand) (envs : Nat → Env) (fuel : Nat)
    (c : cVNSIClient) (channelID requestID opcode dataLength : Nat) (rest : List Nat)
    (hch : channelID < 4294967296) (hrid : requestID < 4294967296)
    (hop : opcode < 4294967296) (hlen : dataLength < 4294967296) :
    ((channelID ≠ 1 ∨ 200000 < dataLength) →
      ActionPass k (envs 0) (header channelID requestID opcode dataLength ++ rest) c = Pass.stop c
      ∧ ActionLoop k (fuel + 1) envs (header channelID requestID opcode dataLength ++ rest) c = c)
    ∧ (channelID = 1 → dataLength = 200000 → (envs 0).Running = true →
        (envs 0).malloc 200000 = true → 200000 ≤ rest.length →
        (c.m_loggedIn = true ∨ k.label opcode = some Opcode.VNSI_LOGIN) →
      ActionPass k (envs 0) (header channelID requestID opcode dataLength ++ rest) c =
        Pass.handled
          (c.processRequest k (envs 0) (cRequestPacket.new requestID opcode (rest.take 200000))).1
          (rest.drop 200000)
          (c.processRequest k (envs 0) (cRequestPacket.new requestID opcode (rest.take 200000))).2)
    := by
  have hp := ActionPass_header k (envs 0) c channelID requestID opcode dataLength rest
    hch hrid hop hlen
  constructor
  · intro hbad
    have hpass : ActionPass k (envs 0) (header channelID requestID opcode dataLength ++ rest) c
        = Pass.stop c := by
      rw [hp]
      split
      · rfl
      · split
        · rename_i h1
          rcases hbad with h | h
          · exact absurd h1 h
          · rw [if_pos h]
        · rfl
    exact ⟨hpass, by simp only [ActionLoop, hpass]⟩
  · intro h1 h2 hrun hmalloc hrest hmay
    rw [hp]
    subst h1 h2
    have hgate : (!c.m_loggedIn && decide (k.label opcode ≠ some Opcode.VNSI_LOGIN)) = false := by
      rcases hmay with h | h
      · simp [h]
      · simp [h]
    have hpay : readPayload (envs 0) 200000 rest
        = some (rest.take 200000, rest.drop 200000) := by
      simp [readPayload, hmalloc, hrest]
    rw [hpay]
    simp only [hrun, hgate, Bool.not_true, Bool.false_eq_true, if_false, if_true, gt_iff_lt,
      lt_self_iff_false]

/-- Witness of C2: a header on channel 2, a header declaring 200001 bytes,
    and a ping of 200000 payload bytes on a logged-in session. -/
theorem C2_witness :
    (ActionPass sampleCommand sampleEnv (header 2 1 7 0 ++ []) loggedInSession
        = Pass.stop loggedInSession
      ∧ ActionLoop sampleCommand 1 (fun _ => sampleEnv) (header 2 1 7 0 ++ []) loggedInSession
        = loggedInSession)
    ∧ (ActionPass sampleCommand sampleEnv (header 1 1 7 200001 ++ []) loggedInSession
        = Pass.stop loggedInSession
      ∧ ActionLoop sampleCommand 1 (fun _ => sampleEnv) (header 1 1 7 200001 ++ []) loggedInSession
        = loggedInSession)
    ∧ ActionPass sampleCommand sampleEnv (header 1 1 7 200000 ++ List.replicate 200000 0)
        loggedInSession =
      Pass.handled
        (loggedInSession.processRequest sampleCommand sampleEnv
          (cRequestPacket.new 1 7 ((List.replicate 200000 0).take 200000))).1
        ((List.replicate 200000 0).drop 200000)
        (loggedInSession.processRequest sampleCommand sampleEnv
          (cRequestPacket.new 1 7 ((List.replicate 200000 0).take 200000))).2 :=
  ⟨(C2_bad_channel_or_oversized_ends_loop sampleCommand (fun _ => sampleEnv) 0 loggedInSession
      2 1 7 0 [] (by norm_num) (by norm_num) (by norm_num) (by norm_num)).1
      (Or.inl (by decide)),
   (C2_bad_channel_or_oversized_ends_loop sampleCommand (fun _ => sampleEnv) 0 loggedInSession
      1 1 7 200001 [] (by norm_num) (by norm_num) (by norm_num) (by norm_num)).1
      (Or.inr (by norm_num)),
   (C2_bad_channel_or_oversized_ends_loop sampleCommand (fun _ => sampleEnv) 0 loggedInSession
      1 1 7 200000 (List.replicate 200000 0) (by norm_num) (by norm_num) (by norm_num)
      (by norm_num)).2 rfl rfl rfl rfl (by rw [List.length_replicate]) (Or.inl (by decide))⟩

/-- Claim C3. On a session that is not yet logged in, a login request with
    more than 4 payload bytes leaves the session logged in exactly when the
    protocol version sent by the client (the first U32 of the payload) is at
    least VNSI_MIN_PROTOCOLVERSION; either way the handler writes exactly one
    packet, the login reply (server protocol version, time, UTC offset, the
    two identification strings), and returns true. -/
theorem C3_login_flag_and_single_reply (k : vnsicommand) (env : Env) (req : cRequestPacket)
    (resp : cResponsePacket) (c : cVNSIClient)
    (hnot : c.m_loggedIn = false) (hlen : 4 < req.getDataLength) :
    ((c.process_Login k env req resp).2.m_loggedIn = true
        ↔ k.VNSI_MIN_PROTOCOLVERSION ≤ req.extract_U32.1)
    ∧ (c.process_Login k env req resp).1 = true
    ∧ (c.process_Login k env req resp).2.m_socket.written =
        c.m_socket.written ++
          [(((((resp.add_U32 k.VNSI_PROTOCOLVERSION).add_U32 env.timeNow).add_S32
            env.tm_gmtoff).add_String cVNSIClient.serverName).add_String k.VNSI_SERVER_VERSION).finalise] := by
  have hlen2 : ¬ req.getDataLength ≤ 4 := by omega
  unfold cVNSIClient.process_Login
  rw [if_neg hlen2]
  refine ⟨?_, rfl, ?_⟩
  · by_cases hv : req.extract_U32.1 < k.VNSI_MIN_PROTOCOLVERSION
    · simp only [hv, if_true]
      split <;> simp [cVNSIClient.write, hnot] <;> omega
    · simp only [hv, if_false]
      split <;> simp [cVNSIClient.write, cVNSIClient.SetLoggedIn] <;> omega
  · dsimp only
    split <;> split <;> simp [cVNSIClient.write, cxSocket.write, cVNSIClient.SetLoggedIn]

/-- Witness of C3: the login of protocol version 8 on a fresh session. -/
theorem C3_witness :
    (((cVNSIClient.new 0).process_Login sampleCommand sampleEnv
          (cRequestPacket.new 1 1 (be32 8 ++ [0] ++ [99, 0])) (cResponsePacket.init 1)).2.m_loggedIn
          = true
        ↔ sampleCommand.VNSI_MIN_PROTOCOLVERSION
          ≤ (cRequestPacket.new 1 1 (be32 8 ++ [0] ++ [99, 0])).extract_U32.1)
    ∧ ((cVNSIClient.new 0).process_Login sampleCommand sampleEnv
          (cRequestPacket.new 1 1 (be32 8 ++ [0] ++ [99, 0])) (cResponsePacket.init 1)).1 = true
    ∧ ((cVNSIClient.new 0).process_Login sampleCommand sampleEnv
          (cRequestPacket.new 1 1 (be32 8 ++ [0] ++ [99, 0])) (cResponsePacket.init 1)).2.m_socket.written =
        (cVNSIClient.new 0).m_socket.written ++
          [((((((cResponsePacket.init 1).add_U32 sampleCommand.VNSI_PROTOCOLVERSION).add_U32
            sampleEnv.timeNow).add_S32 sampleEnv.tm_gmtoff).add_String cVNSIClient.serverName).add_String
            sampleCommand.VNSI_SERVER_VERSION).finalise] :=
  C3_login_flag_and_single_reply sampleCommand sampleEnv
    (cRequestPacket.new 1 1 (be32 8 ++ [0] ++ [99, 0])) (cResponsePacket.init 1)
    (cVNSIClient.new 0) rfl (by decide)

/-- Counterexample to C4 as stated: a login request without payload makes
    `processRequest` return false, yet the loop goes round again and serves
    the login request that follows, whose reply (request id 2) is the only
    packet written. -/
theorem C4_counterexample :
    ((cVNSIClient.new 0).processRequest sampleCommand sampleEnv (cRequestPacket.new 1 1 [])).1
        = false
    ∧ ActionPass sampleCommand sampleEnv (request 1 1 [] ++ loginRequest 2) (cVNSIClient.new 0)
        = Pass.handled false (loginRequest 2) (cVNSIClient.new 0)
    ∧ (ActionLoop sampleCommand ((request 1 1 [] ++ loginRequest 2).length + 1)
          (fun _ => sampleEnv) (request 1 1 [] ++ loginRequest 2) (cVNSIClient.new 0)).m_loggedIn
        = true
    ∧ (ActionLoop sampleCommand ((request 1 1 [] ++ loginRequest 2).length + 1)
          (fun _ => sampleEnv) (request 1 1 [] ++ loginRequest 2)
          (cVNSIClient.new 0)).m_socket.written.map (fun p => p.ident) = [2] := by
  refine ⟨by decide, by decide, by decide, by decide⟩

/-- Claim C4, amended. The result of `processRequest` is not looked at by
    `Action`: whenever a pass reaches `processRequest`, whether that returns
    true or false, the loop goes on with the next header; the run of the loop
    from this header is the run of the loop from the bytes that follow the
    request, started in the state `processRequest` left. -/
theorem C4_loop_continues_whatever_result (k : vnsicommand) (envs : Nat → Env)
    (pending rest : List Nat) (c c1 : cVNSIClient) (result : Bool)
    (h : ActionPass k (envs 0) pending c = Pass.handled result rest c1) :
    ActionLoop k (pending.length + 1) envs pending c
        = ActionLoop k (rest.length + 1) (fun j => envs (j + 1)) rest c1
    ∧ Action k envs pending c = Action k (fun j => envs (j + 1)) rest c1 := by
  have hl := ActionPass_handled_length h
  have hloop : ActionLoop k (pending.length + 1) envs pending c
      = ActionLoop k (rest.length + 1) (fun j => envs (j + 1)) rest c1 := by
    simp only [ActionLoop, h]
    exact ActionLoop_fuel k pending.length (rest.length + 1) _ rest c1 (by omega) (by omega)
  exact ⟨hloop, by simp only [Action, hloop]⟩

/-- Witness of C4 amended: the login request without payload, result false,
    followed by a login request. -/
theorem C4_witness :
    ActionLoop sampleCommand ((request 1 1 [] ++ loginRequest 2).length + 1) (fun _ => sampleEnv)
        (request 1 1 [] ++ loginRequest 2) (cVNSIClient.new 0)
      = ActionLoop sampleCommand ((loginRequest 2).length + 1) (fun _ => sampleEnv)
        (loginRequest 2) (cVNSIClient.new 0)
    ∧ Action sampleCommand (fun _ => sampleEnv) (request 1 1 [] ++ loginRequest 2)
        (cVNSIClient.new 0)
      = Action sampleCommand (fun _ => sampleEnv) (loginRequest 2) (cVNSIClient.new 0) :=
  C4_loop_continues_whatever_result sampleCommand (fun _ => sampleEnv)
    (request 1 1 [] ++ loginRequest 2) (loginRequest 2) (cVNSIClient.new 0) (cVNSIClient.new 0)
    false (by decide)

/-- Claim C6, evaluated at the failing input. After a login and a live-stream
    open that failed to start (uid 200, device locked) the session is not
    streaming but still holds the streamer of the failed open. A live-stream
    open for uid 300, which is neither a channel uid nor a channel number, is
    then answered by the single U32 VNSI_RET_DATAINVALID and leaves
    m_isStreaming false, as claimed, but m_Streamer is still non-null: the
    guard `if (m_isStreaming)` skipped `StopChannelStreaming`. -/
theorem C6_failing_input :
    sampleEnv.FindChannelByUID 300 = none ∧ sampleEnv.GetByNumber 300 = none
    ∧ lockedOpenSession.m_isStreaming = false
    ∧ (lockedOpenSession.processRequest sampleCommand sampleEnv
        (cRequestPacket.new 3 20 (be32 300 ++ be32 0 ++ [0] ++ be32 0))).2.m_socket.written
      = lockedOpenSession.m_socket.written ++
          [{ kind := PacketKind.response, ident := 3,
             payload := be32 sampleCommand.VNSI_RET_DATAINVALID, finalised := true }]
    ∧ (lockedOpenSession.processRequest sampleCommand sampleEnv
        (cRequestPacket.new 3 20 (be32 300 ++ be32 0 ++ [0] ++ be32 0))).2.m_isStreaming = false
    ∧ (lockedOpenSession.processRequest sampleCommand sampleEnv
        (cRequestPacket.new 3 20 (be32 300 ++ be32 0 ++ [0] ++ be32 0))).2.m_Streamer
      = some { clientID := 0, bAllowRDS := true, timeshift := 0, timeout := 10 }
    ∧ (ActionLoop sampleCommand
        ((loginRequest 1 ++ openRequest 2 200 ++ openRequest 3 300).length + 1)
        (fun _ => sampleEnv) (loginRequest 1 ++ openRequest 2 200 ++ openRequest 3 300)
        (cVNSIClient.new 0)).m_Streamer ≠ none := by
  refine ⟨by decide, by decide, by decide, by decide, by decide, by decide, by decide⟩

/-- Claim C7, evaluated at the failing input. After a login and a live-stream
    open that failed to start (uid 200), m_Streamer is non-null while
    m_isStreaming is false. The next live-stream open (uid 100) therefore
    skips `StopChannelStreaming` and `StartChannelStreaming` creates a second
    streamer while the first still exists: two `cLiveStreamer` objects are
    alive, and the first is not destroyed even by the clean-up that ends
    `Action`. -/
theorem C7_failing_input :
    lockedOpenSession.m_Streamer
      = some { clientID := 0, bAllowRDS := true, timeshift := 0, timeout := 10 }
    ∧ lockedOpenSession.m_isStreaming = false
    ∧ lockedOpenSession.liveStreamers.length = 1
    ∧ (lockedOpenSession.processRequest sampleCommand sampleEnv
        (cRequestPacket.new 3 20 (be32 100 ++ be32 0 ++ [0] ++ be32 0))).2.liveStreamers.length = 2
    ∧ (ActionLoop sampleCommand
        ((loginRequest 1 ++ openRequest 2 200 ++ openRequest 3 100).length + 1)
        (fun _ => sampleEnv) (loginRequest 1 ++ openRequest 2 200 ++ openRequest 3 100)
        (cVNSIClient.new 0)).liveStreamers.length = 2
    ∧ (Action sampleCommand (fun _ => sampleEnv)
        (loginRequest 1 ++ openRequest 2 200 ++ openRequest 3 100)
        (cVNSIClient.new 0)).m_Streamer = none
    ∧ (Action sampleCommand (fun _ => sampleEnv)
        (loginRequest 1 ++ openRequest 2 200 ++ openRequest 3 100)
        (cVNSIClient.new 0)).liveStreamers.length = 1 := by
  refine ⟨by decide, by decide, by decide, by decide, by decide, by decide, by decide⟩

/-- Claim C8. When the uid of a live-stream open resolves to a channel
    (as a channel uid, or else as a channel number), the handler builds a
    streamer and calls `StreamChannel`. If that succeeds the handler returns
    true, m_isStreaming is true and the socket holds nothing beyond what
    `StreamChannel` wrote itself. If it fails the handler returns false,
    m_isStreaming is false and the handler has written exactly one packet,
    whose payload is the single U32 VNSI_RET_DATALOCKED. The result of
    `StreamChannel` is a boolean, so these are all the cases. -/
theorem C8_open_resolved_channel (k : vnsicommand) (env : Env) (req : cRequestPacket)
    (rid : Nat) (c : cVNSIClient) (ch : cChannel)
    (hch : env.FindChannelByUID req.extract_U32.1 = some ch
      ∨ (env.FindChannelByUID req.extract_U32.1 = none
          ∧ env.GetByNumber req.extract_U32.1 = some ch)) :
    let r := c.processChannelStream_Open k env req (cResponsePacket.init rid)
    let timeout := req.extract_U32.2.extract_S32.2.extract_U8.2.extract_U32.1
    let s : cLiveStreamer :=
      { clientID := c.m_Id, bAllowRDS := c.m_bSupportRDS,
        timeshift := req.extract_U32.2.extract_S32.2.extract_U8.1,
        timeout := if timeout = 0 then env.stream_timeout else timeout }
    let sc := env.StreamChannel s ch req.extract_U32.2.extract_S32.1 (cResponsePacket.init rid)
    (sc.1 = true →
      r.1 = true ∧ r.2.m_isStreaming = true
        ∧ r.2.m_socket.written = c.m_socket.written ++ sc.2)
    ∧ (sc.1 = false →
      r.1 = false ∧ r.2.m_isStreaming = false
        ∧ r.2.m_socket.written = c.m_socket.written ++ sc.2 ++
            [{ kind := PacketKind.response, ident := rid,
               payload := be32 k.VNSI_RET_DATALOCKED, finalised := true }]) := by
  have hres : (match env.FindChannelByUID req.extract_U32.1 with
      | none => env.GetByNumber req.extract_U32.1
      | some ch => some ch) = some ch := by
    rcases hch with h | ⟨h1, h2⟩
    · rw [h]
    · rw [h1]; exact h2
  have hId : (if c.m_isStreaming then c.StopChannelStreaming else c).m_Id = c.m_Id := by
    unfold cVNSIClient.StopChannelStreaming
    split
    · split <;> rfl
    · rfl
  have hRds : (if c.m_isStreaming then c.StopChannelStreaming else c).m_bSupportRDS
      = c.m_bSupportRDS := by
    unfold cVNSIClient.StopChannelStreaming
    split
    · split <;> rfl
    · rfl
  have hW : (if c.m_isStreaming then c.StopChannelStreaming else c).m_socket = c.m_socket := by
    unfold cVNSIClient.StopChannelStreaming
    split
    · split <;> rfl
    · rfl
  intro r timeout s sc
  have hr : r = c.processChannelStream_Open k env req (cResponsePacket.init rid) := rfl
  unfold cVNSIClient.processChannelStream_Open at hr
  simp only [hres, cVNSIClient.StartChannelStreaming, hId, hRds, hW] at hr
  constructor
  · intro hok
    have hok2 : (env.StreamChannel s ch req.extract_U32.2.extract_S32.1
        (cResponsePacket.init rid)).1 = true := hok
    rw [if_pos hok2] at hr
    rw [hr]
    exact ⟨rfl, hok2, rfl⟩
  · intro hko
    have hko2 : (env.StreamChannel s ch req.extract_U32.2.extract_S32.1
        (cResponsePacket.init rid)).1 = false := hko
    rw [if_neg (by rw [hko2]; decide)] at hr
    rw [hr]
    refine ⟨rfl, hko2, ?_⟩
    simp [cVNSIClient.write, cxSocket.write, cResponsePacket.finalise, cResponsePacket.add_U32,
      cResponsePacket.init]
    rfl

/-- Witness of C8: on the logged-in session, uid 100 resolves and streams,
    uid 200 resolves and is locked. -/
theorem C8_witness :
    ((loggedInSession.processChannelStream_Open sampleCommand sampleEnv
          (cRequestPacket.new 2 20 (be32 100 ++ be32 0 ++ [0] ++ be32 0))
          (cResponsePacket.init 2)).1 = true
      ∧ (loggedInSession.processChannelStream_Open sampleCommand sampleEnv
          (cRequestPacket.new 2 20 (be32 100 ++ be32 0 ++ [0] ++ be32 0))
          (cResponsePacket.init 2)).2.m_isStreaming = true)
    ∧ ((loggedInSession.processChannelStream_Open sampleCommand sampleEnv
          (cRequestPacket.new 2 20 (be32 200 ++ be32 0 ++ [0] ++ be32 0))
          (cResponsePacket.init 2)).1 = false
      ∧ (loggedInSession.processChannelStream_Open sampleCommand sampleEnv
          (cRequestPacket.new 2 20 (be32 200 ++ be32 0 ++ [0] ++ be32 0))
          (cResponsePacket.init 2)).2.m_isStreaming = false) :=
  by
  have h1 := (C8_open_resolved_channel sampleCommand sampleEnv
      (cRequestPacket.new 2 20 (be32 100 ++ be32 0 ++ [0] ++ be32 0)) 2 loggedInSession
      { number := 1 } (Or.inl (by decide))).1 (by decide)
  have h2 := (C8_open_resolved_channel sampleCommand sampleEnv
      (cRequestPacket.new 2 20 (be32 200 ++ be32 0 ++ [0] ++ be32 0)) 2 loggedInSession
      { number := 2 } (Or.inl (by decide))).2 (by decide)
  exact ⟨⟨h1.1, h1.2.1⟩, ⟨h2.1, h2.2.1⟩⟩

/-- Claim C9. `processChannelStream_Seek` always returns true and writes
    exactly one packet whose payload is two U32 fields, status then serial.
    When the session is streaming and holds a streamer, the status is
    VNSI_RET_OK if `SeekTime` succeeded and VNSI_RET_ERROR if it failed, and
    the serial is the one `SeekTime` left. In every other state the status is
    VNSI_RET_ERROR, the serial is 0, and the reply is the same whatever the
    request payload holds: the payload is not read. -/
theorem C9_seek_reply (k : vnsicommand) (env : Env) (req : cRequestPacket) (rid : Nat)
    (c : cVNSIClient) :
    (c.processChannelStream_Seek k env req (cResponsePacket.init rid)).1 = true
    ∧ (∃ status serial : Nat,
        (c.processChannelStream_Seek k env req (cResponsePacket.init rid)).2
          = c.write { kind := PacketKind.response, ident := rid,
                      payload := be32 status ++ be32 serial, finalised := true })
    ∧ (∀ s : cLiveStreamer, c.m_isStreaming = true → c.m_Streamer = some s →
        (c.processChannelStream_Seek k env req (cResponsePacket.init rid)).2
          = c.write { kind := PacketKind.response, ident := rid,
                      payload := be32 (if (env.SeekTime s req.extract_S64.1).1 = true
                          then k.VNSI_RET_OK else k.VNSI_RET_ERROR)
                        ++ be32 (env.SeekTime s req.extract_S64.1).2,
                      finalised := true })
    ∧ ((c.m_isStreaming = false ∨ c.m_Streamer = none) →
        ∀ other : cRequestPacket,
          c.processChannelStream_Seek k env other (cResponsePacket.init rid)
            = (true, c.write { kind := PacketKind.response, ident := rid,
                               payload := be32 k.VNSI_RET_ERROR ++ be32 0, finalised := true })) := by
  have hstream : ∀ s : cLiveStreamer, c.m_isStreaming = true → c.m_Streamer = some s →
      (c.processChannelStream_Seek k env req (cResponsePacket.init rid)).2
        = c.write { kind := PacketKind.response, ident := rid,
                    payload := be32 (if (env.SeekTime s req.extract_S64.1).1 = true
                        then k.VNSI_RET_OK else k.VNSI_RET_ERROR)
                      ++ be32 (env.SeekTime s req.extract_S64.1).2,
                    finalised := true } := by
    intro s h1 h2
    unfold cVNSIClient.processChannelStream_Seek
    simp only [h1, h2]
    split <;> simp [cResponsePacket.init, cResponsePacket.add_U32, cResponsePacket.finalise]
  have hidle : (c.m_isStreaming = false ∨ c.m_Streamer = none) →
      ∀ other : cRequestPacket,
        c.processChannelStream_Seek k env other (cResponsePacket.init rid)
          = (true, c.write { kind := PacketKind.response, ident := rid,
                             payload := be32 k.VNSI_RET_ERROR ++ be32 0, finalised := true }) := by
    intro h other
    unfold cVNSIClient.processChannelStream_Seek
    rcases h with h | h
    · simp [h, cResponsePacket.init, cResponsePacket.add_U32, cResponsePacket.finalise]
    · simp only [h]
      split
      · rename_i heq
        simp at heq
      · simp [cResponsePacket.init, cResponsePacket.add_U32, cResponsePacket.finalise]
  refine ⟨?_, ?_, hstream, hidle⟩
  · unfold cVNSIClient.processChannelStream_Seek
    rfl
  · by_cases hs : c.m_isStreaming = true
    · cases hm : c.m_Streamer with
      | none => exact ⟨_, _, by rw [hidle (Or.inr hm) req]⟩
      | some s => exact ⟨_, _, hstream s hs hm⟩
    · have hs2 : c.m_isStreaming = false := by simpa using hs
      exact ⟨_, _, by rw [hidle (Or.inl hs2) req]⟩

/-- Witness of C9: a seek on the logged-in session, which is not streaming. -/
theorem C9_witness :
    ∀ other : cRequestPacket,
      loggedInSession.processChannelStream_Seek sampleCommand sampleEnv other
          (cResponsePacket.init 5)
        = (true, loggedInSession.write
            { kind := PacketKind.response, ident := 5,
              payload := be32 sampleCommand.VNSI_RET_ERROR ++ be32 0, finalised := true }) :=
  (C9_seek_reply sampleCommand sampleEnv (cRequestPacket.new 5 22 (be64 0)) 5
    loggedInSession).2.2.2 (Or.inl (by decide))

theorem foldl_be_lt (bs : List Nat) :
    ∀ acc : Nat, bs.foldl (fun a b => a * 256 + b % 256) acc < (acc + 1) * 256 ^ bs.length := by
  induction bs with
  | nil => intro acc; simp
  | cons b t ih =>
    intro acc
    simp only [List.foldl_cons, List.length_cons]
    have h1 := ih (acc * 256 + b % 256)
    have h2 : b % 256 < 256 := Nat.mod_lt _ (by norm_num)
    have h3 : (acc * 256 + b % 256 + 1) * 256 ^ t.length ≤ ((acc + 1) * 256) * 256 ^ t.length :=
      Nat.mul_le_mul_right _ (by omega)
    calc List.foldl (fun a b => a * 256 + b % 256) (acc * 256 + b % 256) t
        < (acc * 256 + b % 256 + 1) * 256 ^ t.length := h1
      _ ≤ ((acc + 1) * 256) * 256 ^ t.length := h3
      _ = (acc + 1) * 256 ^ (t.length + 1) := by rw [pow_succ]; ring

theorem extract_U32_lt (r : cRequestPacket) : r.extract_U32.1 < 4294967296 := by
  unfold cRequestPacket.extract_U32 cRequestPacket.extractFixed
  split
  · have h := foldl_be_lt ((r.userData.drop r.packetPos).take 4) 0
    have hl : ((r.userData.drop r.packetPos).take 4).length ≤ 4 := by
      rw [List.length_take]; exact Nat.min_le_left _ _
    have hp : 256 ^ ((r.userData.drop r.packetPos).take 4).length ≤ 256 ^ 4 :=
      Nat.pow_le_pow_right (by norm_num) hl
    simp only [beValue]
    omega
  · norm_num

/-- The reserve, store, unreserve sequence of lines 942-945 leaves exactly
    the bytes the reader delivered. -/
theorem reserve_store_unreserve (rid amount : Nat) (block : List Nat) :
    ((((cResponsePacket.init rid).reserve amount).2.store
        ((cResponsePacket.init rid).reserve amount).1 block).unreserve
        (amount - block.length)).payload = block := by
  simp only [cResponsePacket.init, cResponsePacket.reserve, cResponsePacket.store,
    cResponsePacket.unreserve, List.nil_append, List.length_nil, List.take_zero, Nat.zero_add,
    List.length_append, List.length_drop, List.length_replicate]
  have : block.length + (amount - block.length) - (amount - block.length) = block.length := by
    omega
  rw [this, List.take_append_of_le_length (le_refl _), List.take_length]

/-- The reply of `processRecStream_GetBlock` when a reader is open, no live
    stream is active and the reader delivers at most `amount` bytes. -/
theorem GetBlock_reply (env : Env) (req : cRequestPacket) (rid : Nat) (c : cVNSIClient)
    (player : cRecPlayer) (hs : c.m_isStreaming = false) (hp : c.m_RecPlayer = some player)
    (hle : (env.getBlock player req.extract_U64.1 req.extract_U64.2.extract_U32.1).length
      ≤ req.extract_U64.2.extract_U32.1) :
    c.processRecStream_GetBlock env req (cResponsePacket.init rid)
      = (true, c.write
          { kind := PacketKind.response, ident := rid,
            payload :=
              if (env.getBlock player req.extract_U64.1 req.extract_U64.2.extract_U32.1).length = 0
              then be32 0
              else env.getBlock player req.extract_U64.1 req.extract_U64.2.extract_U32.1,
            finalised := true }) := by
  have hlt := extract_U32_lt req.extract_U64.2
  have hmod : (env.getBlock player req.extract_U64.1 req.extract_U64.2.extract_U32.1).length
      % 4294967296
      = (env.getBlock player req.extract_U64.1 req.extract_U64.2.extract_U32.1).length :=
    Nat.mod_eq_of_lt (by omega)
  have hpay := reserve_store_unreserve rid req.extract_U64.2.extract_U32.1
    (env.getBlock player req.extract_U64.1 req.extract_U64.2.extract_U32.1)
  unfold cVNSIClient.processRecStream_GetBlock
  simp only [hs, hp, Bool.false_eq_true, if_false, hmod]
  congr 2
  by_cases hgt : req.extract_U64.2.extract_U32.1
      > (env.getBlock player req.extract_U64.1 req.extract_U64.2.extract_U32.1).length
  · rw [if_pos hgt]
    by_cases hz : (env.getBlock player req.extract_U64.1 req.extract_U64.2.extract_U32.1).length
        = 0
    · rw [if_pos hz, if_pos hz]
      have hnil := List.length_eq_zero.mp hz
      rw [hnil] at hpay ⊢
      simp only [cResponsePacket.add_U32, cResponsePacket.finalise, hpay, List.nil_append]
      simp [cResponsePacket.unreserve, cResponsePacket.store, cResponsePacket.reserve,
        cResponsePacket.init]
    · rw [if_neg hz, if_neg hz]
      simp only [cResponsePacket.finalise, hpay]
      simp [cResponsePacket.unreserve, cResponsePacket.store, cResponsePacket.reserve,
        cResponsePacket.init]
  · rw [if_neg hgt]
    have heq : (env.getBlock player req.extract_U64.1 req.extract_U64.2.extract_U32.1).length
        = req.extract_U64.2.extract_U32.1 := by omega
    have hsub : req.extract_U64.2.extract_U32.1
        - (env.getBlock player req.extract_U64.1 req.extract_U64.2.extract_U32.1).length = 0 := by
      omega
    rw [hsub] at hpay
    have hun : ∀ q : cResponsePacket, q.unreserve 0 = q := by
      intro q
      simp [cResponsePacket.unreserve]
    rw [hun] at hpay
    by_cases hz : (env.getBlock player req.extract_U64.1 req.extract_U64.2.extract_U32.1).length
        = 0
    · rw [if_pos hz, if_pos hz]
      have hnil := List.length_eq_zero.mp hz
      rw [hnil] at hpay ⊢
      simp only [cResponsePacket.add_U32, cResponsePacket.finalise, hpay, List.nil_append]
      simp [cResponsePacket.store, cResponsePacket.reserve, cResponsePacket.init]
    · rw [if_neg hz, if_neg hz]
      simp only [cResponsePacket.finalise, hpay]
      simp [cResponsePacket.store, cResponsePacket.reserve, cResponsePacket.init]

/-- Claim C10. With a recording reader open and no live stream active, if
    the reader's `getBlock` delivers r bytes, r at most `amount`, then of the
    `amount` bytes reserved in the response exactly r remain after the
    reservation is shrunk by `amount - r`: the packet written carries exactly
    the r bytes when r > 0 and exactly one U32 zero (4 bytes) when r = 0, and
    the handler returns true. For a recording of 1,048,576 bytes read with the
    `getBlock` of the spec, position 1,000,000 and amount 65,536 give
    r = 48,576, the reservation shrinks by 16,960, and the payload is the tail
    of the recording from byte 1,000,000; a read at the end of the recording
    gives the explicit U32 zero. -/
theorem C10_getblock_shrinks_reservation (env : Env) (req : cRequestPacket) (rid : Nat)
    (c : cVNSIClient) (player : cRecPlayer)
    (hs : c.m_isStreaming = false) (hp : c.m_RecPlayer = some player) :
    (let amount := req.extract_U64.2.extract_U32.1
     let block := env.getBlock player req.extract_U64.1 amount
     block.length ≤ amount →
       ((cResponsePacket.init rid).reserve amount).2.payload.length = amount
       ∧ ((((cResponsePacket.init rid).reserve amount).2.store
            ((cResponsePacket.init rid).reserve amount).1 block).unreserve
            (amount - block.length)).payload = block
       ∧ c.processRecStream_GetBlock env req (cResponsePacket.init rid)
          = (true, c.write
              { kind := PacketKind.response, ident := rid,
                payload := if block.length = 0 then be32 0 else block,
                finalised := true })
       ∧ (be32 0).length = 4)
    ∧ (∀ content : List Nat, content.length = 1048576 →
        (specGetBlock content 1000000 65536).length = 48576
        ∧ 65536 - (specGetBlock content 1000000 65536).length = 16960
        ∧ c.processRecStream_GetBlock (recordingEnv content)
            (cRequestPacket.new rid 42 (be64 1000000 ++ be32 65536)) (cResponsePacket.init rid)
          = (true, c.write
              { kind := PacketKind.response, ident := rid,
                payload := content.drop 1000000, finalised := true })
        ∧ c.processRecStream_GetBlock (recordingEnv content)
            (cRequestPacket.new rid 42 (be64 1048576 ++ be32 65536)) (cResponsePacket.init rid)
          = (true, c.write
              { kind := PacketKind.response, ident := rid,
                payload := be32 0, finalised := true })) := by
  constructor
  · intro amount block hle
    refine ⟨?_, reserve_store_unreserve rid amount block, GetBlock_reply env req rid c player hs hp hle,
      rfl⟩
    simp [cResponsePacket.reserve, cResponsePacket.init]
  · intro content hlen
    have hpos : (cRequestPacket.new rid 42 (be64 1000000 ++ be32 65536)).extract_U64.1
        = 1000000 := rfl
    have hamt : (cRequestPacket.new rid 42 (be64 1000000 ++ be32 65536)).extract_U64.2.extract_U32.1
        = 65536 := rfl
    have hpos2 : (cRequestPacket.new rid 42 (be64 1048576 ++ be32 65536)).extract_U64.1
        = 1048576 := rfl
    have hamt2 : (cRequestPacket.new rid 42 (be64 1048576 ++ be32 65536)).extract_U64.2.extract_U32.1
        = 65536 := rfl
    have hblock : specGetBlock content 1000000 65536 = content.drop 1000000 := by
      unfold specGetBlock
      exact List.take_of_length_le (by rw [List.length_drop, hlen]; norm_num)
    have hr : (specGetBlock content 1000000 65536).length = 48576 := by
      rw [hblock, List.length_drop, hlen]
    have hend : specGetBlock content 1048576 65536 = [] := by
      unfold specGetBlock
      rw [List.drop_of_length_le (by rw [hlen])]
      rfl
    refine ⟨hr, by rw [hr], ?_, ?_⟩
    · have h := GetBlock_reply (recordingEnv content)
        (cRequestPacket.new rid 42 (be64 1000000 ++ be32 65536)) rid c player hs hp
        (by
          rw [hpos, hamt]
          show (specGetBlock content 1000000 65536).length ≤ 65536
          rw [hr]
          norm_num)
      rw [h, hpos, hamt]
      show (true, c.write
          { kind := PacketKind.response, ident := rid,
            payload := if (specGetBlock content 1000000 65536).length = 0 then be32 0
              else specGetBlock content 1000000 65536,
            finalised := true }) = _
      rw [if_neg (by rw [hr]; norm_num), hblock]
    · have h := GetBlock_reply (recordingEnv content)
        (cRequestPacket.new rid 42 (be64 1048576 ++ be32 65536)) rid c player hs hp
        (by
          rw [hpos2, hamt2]
          show (specGetBlock content 1048576 65536).length ≤ 65536
          rw [hend]
          simp)
      rw [h, hpos2, hamt2]
      show (true, c.write
          { kind := PacketKind.response, ident := rid,
            payload := if (specGetBlock content 1048576 65536).length = 0 then be32 0
              else specGetBlock content 1048576 65536,
            finalised := true }) = _
      rw [hend]
      rfl

/-- Witness of C10: the spec example on the session with a reader open, for
    a recording of 1,048,576 zero bytes. -/
theorem C10_witness :
    (specGetBlock (List.replicate 1048576 0) 1000000 65536).length = 48576
    ∧ 65536 - (specGetBlock (List.replicate 1048576 0) 1000000 65536).length = 16960
    ∧ recordingSession.processRecStream_GetBlock (recordingEnv (List.replicate 1048576 0))
        (cRequestPacket.new 3 42 (be64 1000000 ++ be32 65536)) (cResponsePacket.init 3)
      = (true, recordingSession.write
          { kind := PacketKind.response, ident := 3,
            payload := (List.replicate 1048576 0).drop 1000000, finalised := true })
    ∧ recordingSession.processRecStream_GetBlock (recordingEnv (List.replicate 1048576 0))
        (cRequestPacket.new 3 42 (be64 1048576 ++ be32 65536)) (cResponsePacket.init 3)
      = (true, recordingSession.write
          { kind := PacketKind.response, ident := 3, payload := be32 0, finalised := true }) :=
  (C10_getblock_shrinks_reservation sampleEnv (cRequestPacket.new 3 42 (be64 1000000 ++ be32 65536))
    3 recordingSession
    { recording := { handle := 9, IsPesRecording := false }, m_totalLength := 1048576,
      m_totalFrames := 26214 }
    (by decide) (by decide)).2 (List.replicate 1048576 0) (List.length_replicate 1048576 0)

/-- Claim C11. `processRecStream_Open` returns true in every case. When the
    uid is known to the recordings cache and no reader is open, it installs a
    reader built on that recording and writes one reply: VNSI_RET_OK, the
    frame count (U32), the byte length (U64) and the PES flag (U8). In every
    other case (uid unknown, or a reader already open) it writes one reply that
    is the single status VNSI_RET_DATAUNKNOWN and leaves m_RecPlayer as it was.
    A reader is therefore created only while none is held, and nothing but
    m_RecPlayer and the socket changes. -/
theorem C11_recstream_open (k : vnsicommand) (env : Env) (req : cRequestPacket) (rid : Nat)
    (c : cVNSIClient) :
    (c.processRecStream_Open k env req (cResponsePacket.init rid)).1 = true
    ∧ (∀ recording : cRecording, env.Lookup req.extract_U32.1 = some recording →
        c.m_RecPlayer = none →
        (c.processRecStream_Open k env req (cResponsePacket.init rid)).2
          = { c with
              m_RecPlayer := some (cRecPlayer.new env recording),
              m_socket := c.m_socket.write
                { kind := PacketKind.response, ident := rid,
                  payload := be32 k.VNSI_RET_OK
                    ++ be32 (cRecPlayer.new env recording).getLengthFrames
                    ++ be64 (cRecPlayer.new env recording).getLengthBytes
                    ++ [if recording.IsPesRecording then 1 else 0],
                  finalised := true } })
    ∧ ((env.Lookup req.extract_U32.1 = none ∨ c.m_RecPlayer ≠ none) →
        (c.processRecStream_Open k env req (cResponsePacket.init rid)).2
          = c.write { kind := PacketKind.response, ident := rid,
                      payload := be32 k.VNSI_RET_DATAUNKNOWN, finalised := true }
        ∧ (c.processRecStream_Open k env req (cResponsePacket.init rid)).2.m_RecPlayer
          = c.m_RecPlayer) := by
  refine ⟨?_, ?_, ?_⟩
  · unfold cVNSIClient.processRecStream_Open
    dsimp only
    split <;> rfl
  · intro recording hl hn
    unfold cVNSIClient.processRecStream_Open
    simp only [hl, hn]
    cases hpes : recording.IsPesRecording <;>
      simp [cVNSIClient.write, cxSocket.write, cResponsePacket.init, cResponsePacket.add_U32,
        cResponsePacket.add_U64, cResponsePacket.add_U8, cResponsePacket.finalise]
  · intro h
    have hr : (c.processRecStream_Open k env req (cResponsePacket.init rid)).2
        = c.write { kind := PacketKind.response, ident := rid,
                    payload := be32 k.VNSI_RET_DATAUNKNOWN, finalised := true } := by
      unfold cVNSIClient.processRecStream_Open
      dsimp only
      split
      · rename_i recording hl hn
        rcases h with h | h
        · rw [h] at hl; cases hl
        · exact absurd hn h
      · simp [cResponsePacket.init, cResponsePacket.add_U32, cResponsePacket.finalise]
    exact ⟨hr, by rw [hr]; rfl⟩

/-- Witness of C11: uid 9 on the logged-in session installs a reader; the
    same request on the session that already holds a reader is refused. -/
theorem C11_witness :
    (loggedInSession.processRecStream_Open sampleCommand sampleEnv
        (cRequestPacket.new 2 40 (be32 9)) (cResponsePacket.init 2)).2.m_RecPlayer
      = some (cRecPlayer.new sampleEnv { handle := 9, IsPesRecording := false })
    ∧ (recordingSession.processRecStream_Open sampleCommand sampleEnv
        (cRequestPacket.new 3 40 (be32 9)) (cResponsePacket.init 3)).2.m_RecPlayer
      = recordingSession.m_RecPlayer := by
  have h1 := (C11_recstream_open sampleCommand sampleEnv (cRequestPacket.new 2 40 (be32 9)) 2
    loggedInSession).2.1 { handle := 9, IsPesRecording := false } (by decide) (by decide)
  have h2 := (C11_recstream_open sampleCommand sampleEnv (cRequestPacket.new 3 40 (be32 9)) 3
    recordingSession).2.2 (Or.inr (by decide))
  exact ⟨by rw [h1], h2.2⟩

/-- Counterexample to C12 as stated: with a reader open on a recording of
    1,048,576 bytes and 26,214 frames, the reply of `processRecStream_GetLength`
    is the eight bytes of the byte length and nothing else; no frame count is
    sent. -/
theorem C12_counterexample :
    recordingSession.m_RecPlayer.map cRecPlayer.getLengthFrames = some 26214
    ∧ (recordingSession.processRecStream_GetLength sampleEnv
        (cResponsePacket.init 4)).2.m_socket.written
      = recordingSession.m_socket.written ++
          [{ kind := PacketKind.response, ident := 4, payload := be64 1048576,
             finalised := true }]
    ∧ (be64 1048576).length = 8
    ∧ be64 1048576 ≠ be64 1048576 ++ be32 26214 := by
  refine ⟨by decide, by decide, by decide, by decide⟩

/-- Claim C12, amended. With a recording reader open,
    `processRecStream_GetLength` re-scans the recording, keeps the re-scanned
    reader, and replies with one field only: the current total length in
    bytes, as U64. It returns true. -/
theorem C12_getlength_bytes_only (env : Env) (rid : Nat) (c : cVNSIClient) (player : cRecPlayer)
    (hp : c.m_RecPlayer = some player) :
    c.processRecStream_GetLength env (cResponsePacket.init rid)
      = (true,
          { c with
            m_RecPlayer := some (player.reScan env),
            m_socket := c.m_socket.write
              { kind := PacketKind.response, ident := rid,
                payload := be64 (env.scan player.recording).1, finalised := true } }) := by
  unfold cVNSIClient.processRecStream_GetLength
  simp [hp, cVNSIClient.write, cResponsePacket.init, cResponsePacket.add_U64,
    cResponsePacket.finalise, cRecPlayer.reScan, cRecPlayer.getLengthBytes]

/-- Witness of C12 amended: the session with the sample reader. -/
theorem C12_witness :
    recordingSession.processRecStream_GetLength sampleEnv (cResponsePacket.init 4)
      = (true,
          { recordingSession with
            m_RecPlayer := some (cRecPlayer.reScan sampleEnv
              { recording := { handle := 9, IsPesRecording := false },
                m_totalLength := 1048576, m_totalFrames := 26214 }),
            m_socket := recordingSession.m_socket.write
              { kind := PacketKind.response, ident := 4,
                payload := be64 (sampleEnv.scan { handle := 9, IsPesRecording := false }).1,
                finalised := true } }) :=
  C12_getlength_bytes_only sampleEnv 4 recordingSession
    { recording := { handle := 9, IsPesRecording := false }, m_totalLength := 1048576,
      m_totalFrames := 26214 } (by decide)

/-- Claim C13. `processRecStream_GetIFrame` returns true and leaves the
    session untouched apart from the one packet it writes; m_RecPlayer in
    particular is unchanged. When a reader is open and the I-frame search
    succeeds, the payload is the position (U64), the frame number (U32) and the
    frame length (U32), in that order; when the search fails or no reader is
    open, the payload is one U32 zero. -/
theorem C13_getiframe_reply (env : Env) (req : cRequestPacket) (rid : Nat) (c : cVNSIClient) :
    (c.processRecStream_GetIFrame env req (cResponsePacket.init rid)).1 = true
    ∧ (c.processRecStream_GetIFrame env req (cResponsePacket.init rid)).2.m_RecPlayer
        = c.m_RecPlayer
    ∧ (∀ (player : cRecPlayer) (position frame length : Nat), c.m_RecPlayer = some player →
        env.getNextIFrame player req.extract_U32.1 req.extract_U32.2.extract_U32.1
          = some (position, frame, length) →
        (c.processRecStream_GetIFrame env req (cResponsePacket.init rid)).2
          = c.write { kind := PacketKind.response, ident := rid,
                      payload := be64 position ++ be32 frame ++ be32 length,
                      finalised := true })
    ∧ ((c.m_RecPlayer = none
          ∨ ∃ player : cRecPlayer, c.m_RecPlayer = some player
            ∧ env.getNextIFrame player req.extract_U32.1 req.extract_U32.2.extract_U32.1 = none) →
        (c.processRecStream_GetIFrame env req (cResponsePacket.init rid)).2
          = c.write { kind := PacketKind.response, ident := rid, payload := be32 0,
                      finalised := true }) := by
  refine ⟨rfl, rfl, ?_, ?_⟩
  · intro player position frame length hp hf
    unfold cVNSIClient.processRecStream_GetIFrame
    simp [hp, hf, cResponsePacket.init, cResponsePacket.add_U32, cResponsePacket.add_U64,
      cResponsePacket.finalise]
  · intro h
    unfold cVNSIClient.processRecStream_GetIFrame
    rcases h with h | ⟨player, hp, hf⟩
    · simp [h, cResponsePacket.init, cResponsePacket.add_U32, cResponsePacket.finalise]
    · simp [hp, hf, cResponsePacket.init, cResponsePacket.add_U32, cResponsePacket.finalise]

/-- Witness of C13: on the session with the sample reader, whose search finds
    no I-frame, and on the logged-in session without a reader. -/
theorem C13_witness :
    (recordingSession.processRecStream_GetIFrame sampleEnv
        (cRequestPacket.new 5 45 (be32 10 ++ be32 1)) (cResponsePacket.init 5)).2
      = recordingSession.write
          { kind := PacketKind.response, ident := 5, payload := be32 0, finalised := true }
    ∧ (loggedInSession.processRecStream_GetIFrame sampleEnv
        (cRequestPacket.new 5 45 (be32 10 ++ be32 1)) (cResponsePacket.init 5)).2
      = loggedInSession.write
          { kind := PacketKind.response, ident := 5, payload := be32 0, finalised := true } :=
  ⟨(C13_getiframe_reply sampleEnv (cRequestPacket.new 5 45 (be32 10 ++ be32 1)) 5
      recordingSession).2.2.2
      (Or.inr ⟨{ recording := { handle := 9, IsPesRecording := false },
                 m_totalLength := 1048576, m_totalFrames := 26214 }, by decide, rfl⟩),
   (C13_getiframe_reply sampleEnv (cRequestPacket.new 5 45 (be32 10 ++ be32 1)) 5
      loggedInSession).2.2.2 (Or.inl (by decide))⟩

theorem StopChannelStreaming_stops (c : cVNSIClient) :
    c.StopChannelStreaming.m_isStreaming = false ∧ c.StopChannelStreaming.m_Streamer = none
    ∧ c.StopChannelStreaming.m_RecPlayer = c.m_RecPlayer := by
  unfold cVNSIClient.StopChannelStreaming
  split
  · exact ⟨rfl, rfl, rfl⟩
  · rename_i h
    exact ⟨rfl, h, rfl⟩

/-- Claim C14, evaluated at the failing input. A client logs in, opens the
    recording with uid 9 and the connection ends. When the loop of `Action`
    has ended and its clean-up has run, the reader is still held; it is still
    held at the moment the destructor closes the socket, and after the
    destructor: neither `Action` nor `~cVNSIClient` deletes m_RecPlayer. -/
theorem C14_failing_input :
    (Action sampleCommand (fun _ => sampleEnv) (loginRequest 1 ++ request 2 40 (be32 9))
        (cVNSIClient.new 0)).m_RecPlayer
      = some { recording := { handle := 9, IsPesRecording := false },
               m_totalLength := 1048576, m_totalFrames := 26214 }
    ∧ (stateAtSocketClose
        (Action sampleCommand (fun _ => sampleEnv) (loginRequest 1 ++ request 2 40 (be32 9))
          (cVNSIClient.new 0))).map (fun c => c.m_RecPlayer)
      = some (some { recording := { handle := 9, IsPesRecording := false },
                     m_totalLength := 1048576, m_totalFrames := 26214 })
    ∧ (destructor
        (Action sampleCommand (fun _ => sampleEnv) (loginRequest 1 ++ request 2 40 (be32 9))
          (cVNSIClient.new 0))).m_RecPlayer
      = some { recording := { handle := 9, IsPesRecording := false },
               m_totalLength := 1048576, m_totalFrames := 26214 } := by
  refine ⟨by decide, by decide, by decide⟩

/-- Claim C15. However the loop of `Action` ends, the clean-up after it runs
    `StopChannelStreaming`: for every input and every starting state the
    session that `Action` leaves has m_isStreaming false and m_Streamer null.
    This covers each exit of the loop: a pass that stops in state `c1` (failed
    read, unknown channel id, oversized payload, failed allocation,
    unauthenticated opcode, thread no longer running) makes `Action` return the
    clean-up of `c1`; a first read that finds fewer than four bytes is such a
    pass. In the destructor, `StopChannelStreaming` is the first statement and
    the socket is closed in a state with m_isStreaming false and m_Streamer
    null. -/
theorem C15_streaming_stopped_on_every_exit (k : vnsicommand) (envs : Nat → Env)
    (pending : List Nat) (c : cVNSIClient) :
    ((Action k envs pending c).m_isStreaming = false ∧ (Action k envs pending c).m_Streamer = none)
    ∧ (∀ c1 : cVNSIClient, ActionPass k (envs 0) pending c = Pass.stop c1 →
        Action k envs pending c = afterLoop c1
        ∧ (afterLoop c1).m_isStreaming = false ∧ (afterLoop c1).m_Streamer = none)
    ∧ (pending.length < 4 → ActionPass k (envs 0) pending c = Pass.stop c)
    ∧ destructorSteps.head? = some DtorStep.StopChannelStreaming
    ∧ (∃ c2 : cVNSIClient, stateAtSocketClose c = some c2
        ∧ c2.m_isStreaming = false ∧ c2.m_Streamer = none)
    ∧ ((destructor c).m_isStreaming = false ∧ (destructor c).m_Streamer = none) := by
  have hafter : ∀ c1 : cVNSIClient,
      (afterLoop c1).m_isStreaming = false ∧ (afterLoop c1).m_Streamer = none := by
    intro c1
    have h := StopChannelStreaming_stops c1
    exact ⟨h.1, h.2.1⟩
  refine ⟨hafter _, ?_, ?_, rfl, ?_, ?_⟩
  · intro c1 h
    refine ⟨?_, hafter c1⟩
    simp only [Action, ActionLoop, h]
  · intro hlen
    unfold ActionPass
    split
    · rfl
    · have hread : readU32 pending = none := by
        match pending, hlen with
        | [], _ => rfl
        | [_], _ => rfl
        | [_, _], _ => rfl
        | [_, _, _], _ => rfl
        | _ :: _ :: _ :: _ :: _, hl => simp at hl; omega
      rw [hread]
  · have h := StopChannelStreaming_stops c
    exact ⟨c.StopChannelStreaming, rfl, h.1, h.2.1⟩
  · have h := StopChannelStreaming_stops c
    exact ⟨h.1, h.2.1⟩

/-- Witness of C15: a header on channel 2 ends the loop on a session that is
    streaming the channel with uid 100. -/
theorem C15_witness :
    Action sampleCommand (fun _ => sampleEnv) (header 2 1 7 0)
        (loggedInSession.processChannelStream_Open sampleCommand sampleEnv
          (cRequestPacket.new 2 20 (be32 100 ++ be32 0 ++ [0] ++ be32 0))
          (cResponsePacket.init 2)).2
      = afterLoop (loggedInSession.processChannelStream_Open sampleCommand sampleEnv
          (cRequestPacket.new 2 20 (be32 100 ++ be32 0 ++ [0] ++ be32 0))
          (cResponsePacket.init 2)).2
    ∧ (afterLoop (loggedInSession.processChannelStream_Open sampleCommand sampleEnv
          (cRequestPacket.new 2 20 (be32 100 ++ be32 0 ++ [0] ++ be32 0))
          (cResponsePacket.init 2)).2).m_isStreaming = false
    ∧ (afterLoop (loggedInSession.processChannelStream_Open sampleCommand sampleEnv
          (cRequestPacket.new 2 20 (be32 100 ++ be32 0 ++ [0] ++ be32 0))
          (cResponsePacket.init 2)).2).m_Streamer = none :=
  (C15_streaming_stopped_on_every_exit sampleCommand (fun _ => sampleEnv) (header 2 1 7 0)
    (loggedInSession.processChannelStream_Open sampleCommand sampleEnv
      (cRequestPacket.new 2 20 (be32 100 ++ be32 0 ++ [0] ++ be32 0))
      (cResponsePacket.init 2)).2).2.1 _ (by decide)

/-- Claim C16. `process_Login` leaves the live streamer, the streaming flag,
    the recording reader and the status-interface flag as they were, for every
    session state and every login request. Of the members of the session it
    can change only m_protocolVersion, m_loggedIn and m_bSupportRDS; apart
    from them only the socket differs, by the reply written. -/
theorem C16_login_leaves_streams (k : vnsicommand) (env : Env) (req : cRequestPacket)
    (resp : cResponsePacket) (c : cVNSIClient) :
    (c.process_Login k env req resp).2.m_Streamer = c.m_Streamer
    ∧ (c.process_Login k env req resp).2.m_isStreaming = c.m_isStreaming
    ∧ (c.process_Login k env req resp).2.m_RecPlayer = c.m_RecPlayer
    ∧ (c.process_Login k env req resp).2.m_StatusInterfaceEnabled = c.m_StatusInterfaceEnabled
    ∧ (c.process_Login k env req resp).2
        = { c with
            m_protocolVersion := (c.process_Login k env req resp).2.m_protocolVersion,
            m_loggedIn := (c.process_Login k env req resp).2.m_loggedIn,
            m_bSupportRDS := (c.process_Login k env req resp).2.m_bSupportRDS,
            m_socket := (c.process_Login k env req resp).2.m_socket } := by
  unfold cVNSIClient.process_Login
  split
  · exact ⟨rfl, rfl, rfl, rfl, rfl⟩
  · dsimp only
    split <;> split <;> exact ⟨rfl, rfl, rfl, rfl, rfl⟩

/-- Claim C17, evaluated at the failing input. Two connections share the
    static flag. Connection 0 starts a scan: the flag is set and one scan is
    active. Connection 1, which has no scan, sends SCAN_Stop: line 2359 clears
    the flag although the scan of connection 0 is still running. Connection 1
    then sends SCAN_Start, which is no longer refused: two connections have a
    started, not yet stopped scan. -/
theorem C17_failing_input :
    (ScanServer.run sampleCommand sampleScanHost twoClients
        [(0, ScanRequest.start (cRequestPacket.new 1 143 []))]).m_inhibidDataUpdates = true
    ∧ (ScanServer.run sampleCommand sampleScanHost twoClients
        [(0, ScanRequest.start (cRequestPacket.new 1 143 []))]).activeScans = 1
    ∧ (ScanServer.run sampleCommand sampleScanHost twoClients
        [(0, ScanRequest.start (cRequestPacket.new 1 143 [])),
         (1, ScanRequest.stop (cRequestPacket.new 1 144 []))]).m_inhibidDataUpdates = false
    ∧ (ScanServer.run sampleCommand sampleScanHost twoClients
        [(0, ScanRequest.start (cRequestPacket.new 1 143 [])),
         (1, ScanRequest.stop (cRequestPacket.new 1 144 []))]).activeScans = 1
    ∧ (ScanServer.run sampleCommand sampleScanHost twoClients
        [(0, ScanRequest.start (cRequestPacket.new 1 143 [])),
         (1, ScanRequest.stop (cRequestPacket.new 1 144 [])),
         (1, ScanRequest.start (cRequestPacket.new 2 143 []))]).activeScans = 2
    ∧ ((ScanServer.run sampleCommand sampleScanHost twoClients
        [(0, ScanRequest.start (cRequestPacket.new 1 143 [])),
         (1, ScanRequest.stop (cRequestPacket.new 1 144 [])),
         (1, ScanRequest.start (cRequestPacket.new 2 143 []))]).sessions.map
          (fun s => s.m_ChannelScanControl.running)) = [true, true] := by
  refine ⟨by decide, by decide, by decide, by decide, by decide, by decide⟩

theorem writesUnderLock_map_write (ps : List cResponsePacket) (tail : List LockEvent) :
    writesUnderLock true (ps.map LockEvent.write ++ tail) = writesUnderLock true tail := by
  induction ps with
  | nil => rfl
  | cons p t ih => simp [writesUnderLock, ih]

/-- Claim C18, evaluated at the failing input. The status notifications
    `TimerChange`, `ChannelsChange` and `RecordingsChange` and the command
    responses of `processRequest` are written while `m_msgLock` is held. Each
    of the seven channel-scan progress events, called by the scanner while the
    lock is not held, writes its packet without taking the lock: none of
    `processSCAN_SetPercentage` ... `processSCAN_SetStatus` constructs a
    `cMutexLock`. -/
theorem C18_failing_input (n : vnsinotify) (k : vnsicommand) (env : Env) (req : cRequestPacket)
    (c : cVNSIClient) (initOk : Bool) (value : Nat) (text : List Nat) (b1 b2 b3 : Bool) :
    writesUnderLock false (TimerChange n initOk c) = true
    ∧ writesUnderLock false (ChannelsChange n initOk c) = true
    ∧ writesUnderLock false (RecordingsChange n initOk c) = true
    ∧ writesUnderLock false (processRequestEvents k env req c) = true
    ∧ writesUnderLock false (processSCAN_SetPercentage n true value) = false
    ∧ writesUnderLock false (processSCAN_SetSignalStrength n true value b1) = false
    ∧ writesUnderLock false (processSCAN_SetDeviceInfo n true text) = false
    ∧ writesUnderLock false (processSCAN_SetTransponder n true text) = false
    ∧ writesUnderLock false (processSCAN_NewChannel n true text b1 b2 b3) = false
    ∧ writesUnderLock false (processSCAN_IsFinished n true) = false
    ∧ writesUnderLock false (processSCAN_SetStatus n true value) = false := by
  refine ⟨?_, ?_, ?_, ?_, rfl, rfl, rfl, rfl, rfl, rfl, rfl⟩
  · unfold TimerChange
    cases c.m_StatusInterfaceEnabled <;> cases initOk <;> rfl
  · unfold ChannelsChange
    cases c.m_StatusInterfaceEnabled <;> cases initOk <;> rfl
  · unfold RecordingsChange
    cases c.m_StatusInterfaceEnabled <;> cases initOk <;> rfl
  · unfold processRequestEvents
    show writesUnderLock true
      (((c.processRequest k env req).2.m_socket.written.drop c.m_socket.written.length).map
        LockEvent.write ++ [LockEvent.unlock]) = true
    rw [writesUnderLock_map_write]
    rfl

theorem toS32_small (n : Nat) (h : n < 2147483648) : toS32 n = (n : Int) := by
  unfold toS32
  have hm : n % 4294967296 = n := Nat.mod_eq_of_lt (by omega)
  rw [hm, if_pos h]

theorem cTimers_Get_nat (t : cTimers) (n : Nat) : t.Get (n : Int) = t.list.get? n := by
  unfold cTimers.Get
  rw [if_neg (by omega)]
  simp

/-- Claim C19. `processTIMER_Delete` (branch `VDRVERSNUM >= 20301`), for a
    timer list of fewer than 2^31 timers (`Count()` is an `int`), returns true
    and writes exactly one response, a single U32 status. If the number is 0
    or greater than the timer count the status is VNSI_RET_DATAINVALID and the
    list is unchanged. A number within range addresses the timer at index
    number-1; if that timer is recording and force is 0 the status is
    VNSI_RET_RECRUNNING and the list is unchanged; otherwise the list loses
    exactly the element at index number-1, is marked modified, and the status
    is VNSI_RET_OK. -/
theorem C19_timer_delete (k : vnsicommand) (req : cRequestPacket) (rid : Nat) (timers : cTimers)
    (c : cVNSIClient) (hcount : timers.Count < 2147483648) :
    (processTIMER_Delete k req (cResponsePacket.init rid) timers c).1 = true
    ∧ (∃ status : Nat, (processTIMER_Delete k req (cResponsePacket.init rid) timers c).2.1
        = c.write { kind := PacketKind.response, ident := rid, payload := be32 status,
                    finalised := true })
    ∧ ((req.extract_U32.1 = 0 ∨ timers.Count < req.extract_U32.1) →
        processTIMER_Delete k req (cResponsePacket.init rid) timers c
          = (true,
             c.write { kind := PacketKind.response, ident := rid,
                       payload := be32 k.VNSI_RET_DATAINVALID, finalised := true },
             timers))
    ∧ (req.extract_U32.1 ≠ 0 → req.extract_U32.1 ≤ timers.Count →
        ∃ timer : cTimer, timers.list.get? (req.extract_U32.1 - 1) = some timer
          ∧ ((timer.recording = true ∧ req.extract_U32.2.extract_U32.1 = 0) →
              (processTIMER_Delete k req (cResponsePacket.init rid) timers c).2.1
                = c.write { kind := PacketKind.response, ident := rid,
                            payload := be32 k.VNSI_RET_RECRUNNING, finalised := true }
              ∧ (processTIMER_Delete k req (cResponsePacket.init rid) timers c).2.2.list
                = timers.list
              ∧ (processTIMER_Delete k req (cResponsePacket.init rid) timers c).2.2.modified
                = timers.modified)
          ∧ (¬ (timer.recording = true ∧ req.extract_U32.2.extract_U32.1 = 0) →
              (processTIMER_Delete k req (cResponsePacket.init rid) timers c).2.1
                = c.write { kind := PacketKind.response, ident := rid,
                            payload := be32 k.VNSI_RET_OK, finalised := true }
              ∧ (processTIMER_Delete k req (cResponsePacket.init rid) timers c).2.2.list
                = timers.list.eraseIdx (req.extract_U32.1 - 1)
              ∧ (processTIMER_Delete k req (cResponsePacket.init rid) timers c).2.2.modified
                = true)) := by
  have hbad : (req.extract_U32.1 = 0 ∨ timers.Count < req.extract_U32.1) →
      processTIMER_Delete k req (cResponsePacket.init rid) timers c
        = (true,
           c.write { kind := PacketKind.response, ident := rid,
                     payload := be32 k.VNSI_RET_DATAINVALID, finalised := true },
           timers) := by
    intro h
    unfold processTIMER_Delete
    have h2 : req.extract_U32.1 = 0 ∨ req.extract_U32.1 > timers.Count := h
    simp only [h2, if_true]
    simp [cResponsePacket.init, cResponsePacket.add_U32, cResponsePacket.finalise]
  have hgood : req.extract_U32.1 ≠ 0 → req.extract_U32.1 ≤ timers.Count →
      ∃ timer : cTimer, timers.list.get? (req.extract_U32.1 - 1) = some timer
        ∧ processTIMER_Delete k req (cResponsePacket.init rid) timers c
          = if timer.recording = true ∧ req.extract_U32.2.extract_U32.1 = 0 then
              (true,
               c.write { kind := PacketKind.response, ident := rid,
                         payload := be32 k.VNSI_RET_RECRUNNING, finalised := true },
               timers.SetExplicitModify)
            else
              (true,
               c.write { kind := PacketKind.response, ident := rid,
                         payload := be32 k.VNSI_RET_OK, finalised := true },
               ((timers.SetExplicitModify).Del (req.extract_U32.1 - 1)).SetModified) := by
    intro h0 hle
    have hlt : req.extract_U32.1 - 1 < timers.list.length := by
      unfold cTimers.Count at hle
      omega
    obtain ⟨timer, ht⟩ : ∃ timer : cTimer,
        timers.list.get? (req.extract_U32.1 - 1) = some timer :=
      ⟨timers.list.get ⟨_, hlt⟩, List.get?_eq_get hlt⟩
    refine ⟨timer, ht, ?_⟩
    have hget : timers.Get (toS32 (req.extract_U32.1 - 1)) = some timer := by
      rw [toS32_small _ (by unfold cTimers.Count at hcount; omega), cTimers_Get_nat, ht]
    have hnot : ¬ (req.extract_U32.1 = 0 ∨ req.extract_U32.1 > timers.Count) := by omega
    unfold processTIMER_Delete
    simp only [hnot, if_false, hget]
    cases hrec : timer.recording <;>
      by_cases hf : req.extract_U32.2.extract_U32.1 = 0 <;>
      simp [hf, cResponsePacket.init, cResponsePacket.add_U32, cResponsePacket.finalise]
  refine ⟨?_, ?_, hbad, ?_⟩
  · by_cases h : req.extract_U32.1 = 0 ∨ timers.Count < req.extract_U32.1
    · rw [hbad h]
    · obtain ⟨timer, _, hr⟩ := hgood (by omega) (by omega)
      rw [hr]
      split <;> rfl
  · by_cases h : req.extract_U32.1 = 0 ∨ timers.Count < req.extract_U32.1
    · exact ⟨_, by rw [hbad h]⟩
    · obtain ⟨timer, _, hr⟩ := hgood (by omega) (by omega)
      rw [hr]
      split
      · exact ⟨_, rfl⟩
      · exact ⟨_, rfl⟩
  · intro h0 hle
    obtain ⟨timer, ht, hr⟩ := hgood h0 hle
    refine ⟨timer, ht, ?_, ?_⟩
    · intro hc
      rw [hr, if_pos hc]
      exact ⟨rfl, rfl, rfl⟩
    · intro hc
      rw [hr, if_neg hc]
      exact ⟨rfl, rfl, rfl⟩

/-- Witness of C19: on the sample list of two timers, number 5 is refused
    and the list stays as it is. -/
theorem C19_witness :
    processTIMER_Delete sampleCommand (cRequestPacket.new 1 84 (be32 5 ++ be32 0))
        (cResponsePacket.init 1) sampleTimers loggedInSession
      = (true,
         loggedInSession.write
           { kind := PacketKind.response, ident := 1,
             payload := be32 sampleCommand.VNSI_RET_DATAINVALID, finalised := true },
         sampleTimers) :=
  (C19_timer_delete sampleCommand (cRequestPacket.new 1 84 (be32 5 ++ be32 0)) 1 sampleTimers
    loggedInSession (by decide)).2.2.1 (Or.inr (by decide))

/-- An index that addresses no timer, 0 or one beyond the count, finds none. -/
theorem Update_index_missing (timers : cTimers) (index : Nat) (hlt : index < 4294967296)
    (h : index = 0 ∨ timers.Count < index) :
    timers.Get (toS32 (if index = 0 then 4294967295 else index - 1)) = none := by
  by_cases h0 : index = 0
  · rw [if_pos h0]
    have hneg : toS32 4294967295 = -1 := by
      unfold toS32
      norm_num
    rw [hneg]
    unfold cTimers.Get
    rw [if_pos (by norm_num)]
  · rw [if_neg h0]
    have hc : timers.Count < index := by
      rcases h with h | h
      · exact absurd h h0
      · exact h
    unfold cTimers.Count at hc
    by_cases hs : index - 1 < 2147483648
    · rw [toS32_small _ hs, cTimers_Get_nat]
      exact List.get?_eq_none.mpr (by omega)
    · unfold toS32 cTimers.Get
      have hm2 : (index - 1) % 4294967296 = index - 1 := Nat.mod_eq_of_lt (by omega)
      rw [hm2, if_neg hs, if_pos (by omega)]

/-- The channel uid a timer request carries is the third field after the
    flags; the start-time adjustment of `processTIMER_Add` does not touch it. -/
theorem addDescription_unresolved (host : TimerHost) (req : cRequestPacket)
    (h : host.FindChannelByUID (extractTimerFields req.extract_U32.2).channelid = none) :
    addDescription host req = [] := by
  unfold addDescription timerDescription
  dsimp only
  have hc : host.FindChannelByUID
      (if (extractTimerFields req.extract_U32.2).startTime = 0 then
        { extractTimerFields req.extract_U32.2 with startTime := host.timeNow }
       else extractTimerFields req.extract_U32.2).channelid = none := by
    split <;> exact h
  rw [hc]

theorem updateDescription_unresolved (host : TimerHost) (req : cRequestPacket)
    (h : host.FindChannelByUID
      (extractTimerFields req.extract_U32.2.extract_U32.2).channelid = none) :
    updateDescription host req = [] := by
  unfold updateDescription timerDescription
  dsimp only
  rw [h]

/-- Claim C20. In `processTIMER_Add`, whenever the assembled description
    fails to parse, the reply is VNSI_RET_DATAINVALID, the handler returns true
    and the timer list is exactly what it was: nothing added, nothing changed,
    `SetModified` not called. In `processTIMER_Update`, a timer index that
    addresses no timer (0 or beyond the count) gives VNSI_RET_DATAUNKNOWN, and
    a description that fails to parse gives VNSI_RET_DATAINVALID, each time
    with the list exactly as it was and the result true. An unresolvable
    channel uid leaves the description empty in both handlers. -/
theorem C20_timer_writes_atomic (k : vnsicommand) (host : TimerHost) (req : cRequestPacket)
    (rid : Nat) (timers : cTimers) (c : cVNSIClient) :
    (host.Parse host.newTimer (addDescription host req) = none →
        processTIMER_Add k host req (cResponsePacket.init rid) timers c
          = (true,
             c.write { kind := PacketKind.response, ident := rid,
                       payload := be32 k.VNSI_RET_DATAINVALID, finalised := true },
             timers))
    ∧ (host.FindChannelByUID (extractTimerFields req.extract_U32.2).channelid = none →
        addDescription host req = [])
    ∧ ((req.extract_U32.1 = 0 ∨ timers.Count < req.extract_U32.1) →
        timers.Get (updatePosition req) = none)
    ∧ (timers.Get (updatePosition req) = none →
        processTIMER_Update k host req (cResponsePacket.init rid) timers c
          = (true,
             c.write { kind := PacketKind.response, ident := rid,
                       payload := be32 k.VNSI_RET_DATAUNKNOWN, finalised := true },
             timers))
    ∧ (∀ timer : cTimer, timers.Get (updatePosition req) = some timer →
        req.getDataLength ≠ 8 →
        host.Parse timer (updateDescription host req) = none →
        processTIMER_Update k host req (cResponsePacket.init rid) timers c
          = (true,
             c.write { kind := PacketKind.response, ident := rid,
                       payload := be32 k.VNSI_RET_DATAINVALID, finalised := true },
             timers))
    ∧ (host.FindChannelByUID
          (extractTimerFields req.extract_U32.2.extract_U32.2).channelid = none →
        updateDescription host req = []) := by
  refine ⟨?_, addDescription_unresolved host req, ?_, ?_, ?_,
    updateDescription_unresolved host req⟩
  · intro hp
    unfold processTIMER_Add
    dsimp only
    rw [hp]
    simp [cResponsePacket.init, cResponsePacket.add_U32, cResponsePacket.finalise]
  · intro h
    exact Update_index_missing timers req.extract_U32.1 (extract_U32_lt req) h
  · intro hg
    unfold processTIMER_Update
    dsimp only
    rw [hg]
    simp [cResponsePacket.init, cResponsePacket.add_U32, cResponsePacket.finalise]
  · intro timer hg hlen hp
    unfold processTIMER_Update
    dsimp only
    rw [hg]
    dsimp only
    rw [if_neg hlen, hp]
    simp [cResponsePacket.init, cResponsePacket.add_U32, cResponsePacket.finalise]

/-- Witness of C20: a timer for uid 300, which is no channel, is refused by
    `processTIMER_Add`, and an update of timer 9 of a list of two by
    `processTIMER_Update`; the list is the same afterwards. -/
theorem C20_witness :
    processTIMER_Add sampleCommand sampleTimerHost (cRequestPacket.new 1 83 (timerAddPayload 300))
        (cResponsePacket.init 1) sampleTimers loggedInSession
      = (true,
         loggedInSession.write
           { kind := PacketKind.response, ident := 1,
             payload := be32 sampleCommand.VNSI_RET_DATAINVALID, finalised := true },
         sampleTimers)
    ∧ processTIMER_Update sampleCommand sampleTimerHost
        (cRequestPacket.new 2 85 (be32 9 ++ be32 1)) (cResponsePacket.init 2) sampleTimers
        loggedInSession
      = (true,
         loggedInSession.write
           { kind := PacketKind.response, ident := 2,
             payload := be32 sampleCommand.VNSI_RET_DATAUNKNOWN, finalised := true },
         sampleTimers) :=
  ⟨(C20_timer_writes_atomic sampleCommand sampleTimerHost
      (cRequestPacket.new 1 83 (timerAddPayload 300)) 1 sampleTimers loggedInSession).1
      (by decide),
   (C20_timer_writes_atomic sampleCommand sampleTimerHost
      (cRequestPacket.new 2 85 (be32 9 ++ be32 1)) 2 sampleTimers loggedInSession).2.2.2.1
      (by decide)⟩

theorem StopChannelStreaming_loggedIn (c : cVNSIClient) :
    c.StopChannelStreaming.m_loggedIn = c.m_loggedIn := by
  unfold cVNSIClient.StopChannelStreaming
  split <;> rfl

theorem process_Login_loggedIn (k : vnsicommand) (env : Env) (req : cRequestPacket)
    (resp : cResponsePacket) (c : cVNSIClient) (h : c.m_loggedIn = true) :
    (c.process_Login k env req resp).2.m_loggedIn = true := by
  unfold cVNSIClient.process_Login
  split
  · exact h
  · dsimp only
    split <;> split <;> simp [cVNSIClient.write, cVNSIClient.SetLoggedIn, h]

theorem dispatch_loggedIn (k : vnsicommand) (env : Env) (op : Opcode) (req : cRequestPacket)
    (resp : cResponsePacket) (c : cVNSIClient) (h : c.m_loggedIn = true) :
    (cVNSIClient.dispatch k env op req resp c).2.m_loggedIn = true := by
  have hstop : (if c.m_isStreaming = true then c.StopChannelStreaming else c).m_loggedIn
      = true := by
    split
    · rw [StopChannelStreaming_loggedIn]; exact h
    · exact h
  cases op
  case VNSI_LOGIN => exact process_Login_loggedIn k env req resp c h
  case VNSI_CHANNELSTREAM_OPEN =>
    simp only [cVNSIClient.dispatch]
    unfold cVNSIClient.processChannelStream_Open
    dsimp only
    generalize (if c.m_isStreaming = true then c.StopChannelStreaming else c) = c0 at hstop ⊢
    split
    · simp [cVNSIClient.write, hstop]
    · simp only [cVNSIClient.StartChannelStreaming]
      repeat' split
      all_goals simp [cVNSIClient.write, hstop]
  case VNSI_CHANNELSTREAM_CLOSE =>
    simp only [cVNSIClient.dispatch]
    exact hstop
  case VNSI_RECSTREAM_OPEN =>
    simp only [cVNSIClient.dispatch]
    unfold cVNSIClient.processRecStream_Open
    dsimp only
    split <;> exact h
  case VNSI_RECSTREAM_GETBLOCK =>
    simp only [cVNSIClient.dispatch]
    unfold cVNSIClient.processRecStream_GetBlock
    split
    · exact h
    · split
      · exact h
      · exact h
  case VNSI_RECSTREAM_GETLENGTH =>
    simp only [cVNSIClient.dispatch]
    unfold cVNSIClient.processRecStream_GetLength
    dsimp only
    split <;> exact h
  case VNSI_CHANNELS_GETCHANNELS =>
    simp only [cVNSIClient.dispatch]
    unfold cVNSIClient.processCHANNELS_GetChannels
    split
    · exact h
    · exact h
  all_goals
    simp [cVNSIClient.dispatch, cVNSIClient.process_GetTime,
      cVNSIClient.process_EnableStatusInterface, cVNSIClient.process_Ping,
      cVNSIClient.process_GetSetup, cVNSIClient.process_StoreSetup,
      cVNSIClient.processChannelStream_Seek, cVNSIClient.processRecStream_Close,
      cVNSIClient.processRecStream_PositionFromFrameNumber,
      cVNSIClient.processRecStream_FrameNumberFromPosition, cVNSIClient.processRecStream_GetIFrame,
      cVNSIClient.processCollaborator, cVNSIClient.processOSD_Connect,
      cVNSIClient.processOSD_Disconnect, cVNSIClient.processOSD_Hitkey,
      cVNSIClient.write, cVNSIClient.SetStatusInterface, h]

theorem processRequest_loggedIn (k : vnsicommand) (env : Env) (req : cRequestPacket)
    (c : cVNSIClient) (h : c.m_loggedIn = true) :
    (c.processRequest k env req).2.m_loggedIn = true := by
  unfold cVNSIClient.processRequest
  split
  · exact h
  · dsimp only
    split
    · exact dispatch_loggedIn k env _ req _ c h
    · exact h

theorem ActionPass_loggedIn (k : vnsicommand) (env : Env) (pending : List Nat)
    (c : cVNSIClient) (h : c.m_loggedIn = true) :
    (∀ c1 : cVNSIClient, ActionPass k env pending c = Pass.stop c1 → c1.m_loggedIn = true)
    ∧ (∀ (r : Bool) (rest : List Nat) (c1 : cVNSIClient),
        ActionPass k env pending c = Pass.handled r rest c1 → c1.m_loggedIn = true) := by
  unfold ActionPass
  constructor
  · intro c1 hp
    repeat' split at hp
    all_goals first
      | (simp only [Pass.stop.injEq] at hp; rw [← hp]; exact h)
      | cases hp
  · intro r rest c1 hp
    repeat' split at hp
    all_goals first
      | (simp only [Pass.handled.injEq] at hp
         rw [← hp.2.2]
         exact processRequest_loggedIn k env _ c h)
      | cases hp

theorem ActionLoop_loggedIn (k : vnsicommand) (fuel : Nat) :
    ∀ (envs : Nat → Env) (pending : List Nat) (c : cVNSIClient), c.m_loggedIn = true →
      (ActionLoop k fuel envs pending c).m_loggedIn = true := by
  induction fuel with
  | zero => intro envs pending c h; exact h
  | succ n ih =>
    intro envs pending c h
    simp only [ActionLoop]
    cases hp : ActionPass k (envs 0) pending c with
    | stop c1 => exact (ActionPass_loggedIn k (envs 0) pending c h).1 c1 hp
    | handled r rest c1 =>
      exact ih _ rest c1 ((ActionPass_loggedIn k (envs 0) pending c h).2 r rest c1 hp)

/-- Claim C22. Once m_loggedIn is true no request handled by
    `processRequest` sets it back: the flag is true after every request,
    whatever its opcode and payload, in particular after a login whose
    protocol version is below VNSI_MIN_PROTOCOLVERSION and after a login with
    at most 4 payload bytes. It is therefore true in the state in which the
    loop of `Action` ends, for every input, and after the clean-up that
    follows the loop. -/
theorem C22_login_is_monotone (k : vnsicommand) (env : Env) (req : cRequestPacket)
    (resp : cResponsePacket) (c : cVNSIClient) (h : c.m_loggedIn = true) :
    (c.processRequest k env req).2.m_loggedIn = true
    ∧ (c.process_Login k env req resp).2.m_loggedIn = true
    ∧ (∀ (fuel : Nat) (envs : Nat → Env) (pending : List Nat),
        (ActionLoop k fuel envs pending c).m_loggedIn = true)
    ∧ (∀ (envs : Nat → Env) (pending : List Nat),
        (Action k envs pending c).m_loggedIn = true) := by
  refine ⟨processRequest_loggedIn k env req c h, process_Login_loggedIn k env req resp c h,
    fun fuel envs pending => ActionLoop_loggedIn k fuel envs pending c h, ?_⟩
  intro envs pending
  have hl := ActionLoop_loggedIn k (pending.length + 1) envs pending c h
  unfold Action afterLoop
  dsimp only
  rw [StopChannelStreaming_loggedIn]
  exact hl

/-- Witness of C22: on the logged-in session, a login of protocol version 1
    (below the minimum 5) and a login without payload leave the flag set. -/
theorem C22_witness :
    (loggedInSession.processRequest sampleCommand sampleEnv
        (cRequestPacket.new 7 1 (be32 1 ++ [0] ++ [99, 0]))).2.m_loggedIn = true
    ∧ (loggedInSession.process_Login sampleCommand sampleEnv
        (cRequestPacket.new 8 1 []) (cResponsePacket.init 8)).2.m_loggedIn = true :=
  ⟨(C22_login_is_monotone sampleCommand sampleEnv
      (cRequestPacket.new 7 1 (be32 1 ++ [0] ++ [99, 0])) (cResponsePacket.init 7)
      loggedInSession (by decide)).1,
   (C22_login_is_monotone sampleCommand sampleEnv (cRequestPacket.new 8 1 [])
      (cResponsePacket.init 8) loggedInSession (by decide)).2.1⟩

/-- Claim C30. For a language array of at least four characters and an input
    string of at least three characters, after `SetLanguage` the entries 0, 1
    and 2 of `language` are the first three characters of the input and entry
    3 is 0; the array keeps its size and its entries from 4 on; the string it
    holds has length at most 3 and is the input itself when the input consists
    of exactly three non-NUL characters; every other field of the
    `sStreamInfo` is unchanged. -/
theorem C30_SetLanguage (s : sStreamInfo) (lang : List Nat)
    (hsize : 4 ≤ s.language.length) (hlang : 3 ≤ lang.length) :
    (s.SetLanguage lang).language.get? 0 = lang.get? 0
    ∧ (s.SetLanguage lang).language.get? 1 = lang.get? 1
    ∧ (s.SetLanguage lang).language.get? 2 = lang.get? 2
    ∧ (s.SetLanguage lang).language.get? 3 = some 0
    ∧ (s.SetLanguage lang).language.length = s.language.length
    ∧ (s.SetLanguage lang).language.drop 4 = s.language.drop 4
    ∧ (cstrOf (s.SetLanguage lang).language).length ≤ 3
    ∧ (lang.length = 3 → (∀ b ∈ lang, b ≠ 0) → cstrOf (s.SetLanguage lang).language = lang)
    ∧ s.SetLanguage lang = { s with language := (s.SetLanguage lang).language } := by
  obtain ⟨l0, l1, l2, lrest, rfl⟩ : ∃ l0 l1 l2 lrest, lang = l0 :: l1 :: l2 :: lrest := by
    match lang, hlang with
    | l0 :: l1 :: l2 :: lrest, _ => exact ⟨l0, l1, l2, lrest, rfl⟩
  obtain ⟨a0, a1, a2, a3, arest, ha⟩ :
      ∃ a0 a1 a2 a3 arest, s.language = a0 :: a1 :: a2 :: a3 :: arest := by
    match hl : s.language, hsize with
    | a0 :: a1 :: a2 :: a3 :: arest, _ => exact ⟨a0, a1, a2, a3, arest, rfl⟩
  have hset : (s.SetLanguage (l0 :: l1 :: l2 :: lrest)).language
      = l0 :: l1 :: l2 :: 0 :: arest := by
    simp [sStreamInfo.SetLanguage, ha, cstrAt]
  rw [hset]
  refine ⟨rfl, rfl, rfl, rfl, ?_, ?_, ?_, ?_, ?_⟩
  · rw [ha]; rfl
  · rw [ha]; rfl
  · unfold cstrOf
    by_cases h0 : l0 = 0
    · simp [List.takeWhile, h0]
    · by_cases h1 : l1 = 0
      · simp [List.takeWhile, h0, h1]
      · by_cases h2 : l2 = 0
        · simp [List.takeWhile, h0, h1, h2]
        · simp [List.takeWhile, h0, h1, h2]
  · intro hlen hnz
    have hr : lrest = [] := by
      simp at hlen
      exact hlen
    subst hr
    have h0 : l0 ≠ 0 := hnz l0 (by simp)
    have h1 : l1 ≠ 0 := hnz l1 (by simp)
    have h2 : l2 ≠ 0 := hnz l2 (by simp)
    simp [cstrOf, List.takeWhile, h0, h1, h2]
  · rw [← hset]
    rfl

/-- Witness of C30: "deu" stored over "eng". -/
theorem C30_witness :
    cstrOf (sampleStreamInfo.SetLanguage [100, 101, 117]).language = [100, 101, 117] :=
  (C30_SetLanguage sampleStreamInfo [100, 101, 117] (by decide) (by decide)).2.2.2.2.2.2.2.1 rfl
    (by decide)

/-- Claim C23, evaluated at the failing input. The status interface is
    enabled and `m_epgUpdate` is empty. `EpgChange` meets a schedule with a
    last event whose channel exists and passes the filter, with hash 77:
    `find` returns `end()`, the test of line 293 is false because of
    `it != end()`, and line 298 reads `it->second.attempts` of the missing
    entry. With an entry for 77 the same call does not do so. -/
theorem C23_failing_input :
    statusSession.client.m_StatusInterfaceEnabled = true
    ∧ statusSession.m_epgUpdate 77 = none
    ∧ (EpgChange sampleNotify true
        (some [{ channelHash := 77, lastEventStart := some 1700003600, channelExists := true,
                 passFilter := true }]) statusSession).fault = some 77
    ∧ (EpgChange sampleNotify true
        (some [{ channelHash := 77, lastEventStart := some 1700003600, channelExists := true,
                 passFilter := true }])
        { statusSession with m_epgUpdate := epgCreateEntry statusSession.m_epgUpdate 77 }).fault
      = none := by
  refine ⟨by decide, rfl, rfl, rfl⟩

theorem StopChannelStreaming_status (c : cVNSIClient) :
    c.StopChannelStreaming.m_StatusInterfaceEnabled = c.m_StatusInterfaceEnabled := by
  unfold cVNSIClient.StopChannelStreaming
  split <;> rfl

theorem process_Login_status (k : vnsicommand) (env : Env) (req : cRequestPacket)
    (resp : cResponsePacket) (c : cVNSIClient) :
    (c.process_Login k env req resp).2.m_StatusInterfaceEnabled
      = c.m_StatusInterfaceEnabled := by
  unfold cVNSIClient.process_Login
  split
  · rfl
  · dsimp only
    split <;> split <;> simp [cVNSIClient.write, cVNSIClient.SetLoggedIn]

theorem dispatch_status (k : vnsicommand) (env : Env) (op : Opcode) (req : cRequestPacket)
    (resp : cResponsePacket) (c : cVNSIClient) (hop : op ≠ Opcode.VNSI_ENABLESTATUSINTERFACE) :
    (cVNSIClient.dispatch k env op req resp c).2.m_StatusInterfaceEnabled
      = c.m_StatusInterfaceEnabled := by
  have hstop : (if c.m_isStreaming = true then c.StopChannelStreaming else c).m_StatusInterfaceEnabled
      = c.m_StatusInterfaceEnabled := by
    split
    · rw [StopChannelStreaming_status]
    · rfl
  cases op
  case VNSI_ENABLESTATUSINTERFACE => exact absurd rfl hop
  case VNSI_LOGIN => exact process_Login_status k env req resp c
  case VNSI_CHANNELSTREAM_OPEN =>
    simp only [cVNSIClient.dispatch]
    unfold cVNSIClient.processChannelStream_Open
    dsimp only
    generalize (if c.m_isStreaming = true then c.StopChannelStreaming else c) = c0 at hstop ⊢
    split
    · simp [cVNSIClient.write, hstop]
    · simp only [cVNSIClient.StartChannelStreaming]
      repeat' split
      all_goals simp [cVNSIClient.write, hstop]
  case VNSI_CHANNELSTREAM_CLOSE =>
    simp only [cVNSIClient.dispatch]
    exact hstop
  case VNSI_RECSTREAM_OPEN =>
    simp only [cVNSIClient.dispatch]
    unfold cVNSIClient.processRecStream_Open
    dsimp only
    split <;> rfl
  case VNSI_RECSTREAM_GETBLOCK =>
    simp only [cVNSIClient.dispatch]
    unfold cVNSIClient.processRecStream_GetBlock
    split
    · rfl
    · split
      · rfl
      · rfl
  case VNSI_RECSTREAM_GETLENGTH =>
    simp only [cVNSIClient.dispatch]
    unfold cVNSIClient.processRecStream_GetLength
    dsimp only
    split <;> rfl
  case VNSI_CHANNELS_GETCHANNELS =>
    simp only [cVNSIClient.dispatch]
    unfold cVNSIClient.processCHANNELS_GetChannels
    split
    · rfl
    · rfl
  all_goals
    simp [cVNSIClient.dispatch, cVNSIClient.process_GetTime,
      cVNSIClient.process_Ping,
      cVNSIClient.process_GetSetup, cVNSIClient.process_StoreSetup,
      cVNSIClient.processChannelStream_Seek, cVNSIClient.processRecStream_Close,
      cVNSIClient.processRecStream_PositionFromFrameNumber,
      cVNSIClient.processRecStream_FrameNumberFromPosition, cVNSIClient.processRecStream_GetIFrame,
      cVNSIClient.processCollaborator, cVNSIClient.processOSD_Connect,
      cVNSIClient.processOSD_Disconnect, cVNSIClient.processOSD_Hitkey,
      cVNSIClient.write]

theorem perform_status (events : List LockEvent) :
    ∀ c : cVNSIClient,
      (c.perform events).m_StatusInterfaceEnabled = c.m_StatusInterfaceEnabled := by
  induction events with
  | nil => intro c; rfl
  | cons e rest ih =>
    intro c
    cases e
    · exact ih c
    · exact ih c
    · exact ih (c.write _)

/-- Claim C26. In a session whose m_StatusInterfaceEnabled is false each of
    `TimerChange`, `ChannelsChange`, `RecordingsChange`, `Recording` and
    `OsdStatusMessage` only takes and releases the lock, which writes nothing
    and leaves the session as it was, and `EpgChange` returns the session
    unchanged without a notification. A new session has the flag false; no
    sequence of lock events and writes sets it; and a request after which the
    flag is true is a VNSI_ENABLESTATUSINTERFACE request whose first payload
    byte is not 0. -/
theorem C26_notifications_gated (n : vnsinotify) (initOk : Bool) (s : EpgSession)
    (h : s.client.m_StatusInterfaceEnabled = false) :
    TimerChange n initOk s.client = [LockEvent.lock, LockEvent.unlock]
    ∧ ChannelsChange n initOk s.client = [LockEvent.lock, LockEvent.unlock]
    ∧ RecordingsChange n initOk s.client = [LockEvent.lock, LockEvent.unlock]
    ∧ (∀ (CardIndex : Nat) (Name FileName : Option (List Nat)) (On : Bool),
        Recording n initOk CardIndex Name FileName On s.client
          = [LockEvent.lock, LockEvent.unlock])
    ∧ (∀ (ignored : List Nat → Bool) (Message : Option (List Nat)),
        OsdStatusMessage n initOk ignored Message s.client
          = [LockEvent.lock, LockEvent.unlock])
    ∧ s.client.perform [LockEvent.lock, LockEvent.unlock] = s.client
    ∧ (∀ schedules : Option (List cSchedule),
        (EpgChange n initOk schedules s).session = s
        ∧ (EpgChange n initOk schedules s).sent = []
        ∧ (EpgChange n initOk schedules s).fault = none)
    ∧ (∀ id : Nat, (cVNSIClient.new id).m_StatusInterfaceEnabled = false)
    ∧ (∀ events : List LockEvent,
        (s.client.perform events).m_StatusInterfaceEnabled = false)
    ∧ (∀ (k : vnsicommand) (env : Env) (req : cRequestPacket),
        (s.client.processRequest k env req).2.m_StatusInterfaceEnabled = true →
          k.label req.getOpCode = some Opcode.VNSI_ENABLESTATUSINTERFACE
          ∧ req.extract_U8.1 ≠ 0) := by
  refine ⟨?_, ?_, ?_, ?_, ?_, rfl, ?_, fun _ => rfl, ?_, ?_⟩
  · simp [TimerChange, h]
  · simp [ChannelsChange, h]
  · simp [RecordingsChange, h]
  · intro CardIndex Name FileName On
    simp [Recording, h]
  · intro ignored Message
    simp [OsdStatusMessage, h]
  · intro schedules
    simp [EpgChange, h]
  · intro events
    rw [perform_status]
    exact h
  · intro k env req hreq
    unfold cVNSIClient.processRequest at hreq
    split at hreq
    · rw [h] at hreq; cases hreq
    · dsimp only at hreq
      split at hreq
      · rename_i op hop
        by_cases hen : op = Opcode.VNSI_ENABLESTATUSINTERFACE
        · subst hen
          refine ⟨hop, ?_⟩
          simpa [cVNSIClient.dispatch, cVNSIClient.process_EnableStatusInterface,
            cVNSIClient.write, cVNSIClient.SetStatusInterface] using hreq
        · rw [dispatch_status k env op req _ s.client hen, h] at hreq
          cases hreq
      · rw [h] at hreq; cases hreq

/-- Witness of C26: a session that has logged in but not enabled the status
    interface ignores a timer change and an EPG change. -/
theorem C26_witness :
    TimerChange sampleNotify true loggedInSession = [LockEvent.lock, LockEvent.unlock]
    ∧ (EpgChange sampleNotify true
        (some [{ channelHash := 77, lastEventStart := some 1700003600, channelExists := true,
                 passFilter := true }])
        { client := loggedInSession, m_epgUpdate := fun _ => none }).sent = [] :=
  ⟨(C26_notifications_gated sampleNotify true
      { client := loggedInSession, m_epgUpdate := fun _ => none } (by decide)).1,
   ((C26_notifications_gated sampleNotify true
      { client := loggedInSession, m_epgUpdate := fun _ => none } (by decide)).2.2.2.2.2.2.1
      (some [{ channelHash := 77, lastEventStart := some 1700003600, channelExists := true,
               passFilter := true }])).2.1⟩

theorem be32_u32 (v : Nat) : be32 (u32 v) = be32 v := by
  unfold be32 u32
  simp only [List.cons.injEq, and_true]
  refine ⟨?_, ?_, ?_, ?_⟩ <;> omega

theorem epgEventLoop_spec (host : EpgHost) (now startTime duration : Nat)
    (hnow : ∀ i, host.time i = now) (events : List cEvent) :
    ∀ (calls : Nat) (resp : cResponsePacket) (b : Bool),
      epgEventLoop host startTime duration events calls resp b
        = ({ resp with payload := resp.payload ++
              ((events.filter (specQualifies now startTime duration)).map
                (specEventFields host.Convert)).flatten },
           b || !(events.filter (specQualifies now startTime duration)).isEmpty) := by
  induction events with
  | nil =>
    intro calls resp b
    simp [epgEventLoop]
  | cons e rest ih =>
    intro calls resp b
    rw [epgEventLoop]
    dsimp only
    rw [hnow]
    by_cases h1 : u32 (u32 e.StartTime + u32 e.Duration) < u32 now
    · have hq : specQualifies now startTime duration e = false := by
        rw [specQualifies, decide_eq_false_iff_not]
        unfold u32 at h1
        omega
      rw [if_pos h1, ih, List.filter_cons_of_neg (by simp [hq])]
    · rw [if_neg h1]
      by_cases h2 : u32 (u32 e.StartTime + u32 e.Duration) ≤ startTime
      · have hq : specQualifies now startTime duration e = false := by
          rw [specQualifies, decide_eq_false_iff_not]
          unfold u32 at h2
          omega
        rw [if_pos h2, ih, List.filter_cons_of_neg (by simp [hq])]
      · rw [if_neg h2]
        by_cases h3 : duration ≠ 0 ∧ u32 e.StartTime ≥ u32 (startTime + duration)
        · have hq : specQualifies now startTime duration e = false := by
            rw [specQualifies, decide_eq_false_iff_not]
            unfold u32 at h3
            omega
          rw [if_pos h3, ih, List.filter_cons_of_neg (by simp [hq])]
        · have hq : specQualifies now startTime duration e = true := by
            rw [specQualifies, decide_eq_true_iff]
            unfold u32 at h1 h2 h3
            omega
          rw [if_neg h3, ih, List.filter_cons_of_pos hq]
          have ht : (match e.Title with | some text => text | none => []) = e.Title.getD [] := by
            cases e.Title <;> rfl
          have hs : (match e.ShortText with | some text => text | none => [])
              = e.ShortText.getD [] := by
            cases e.ShortText <;> rfl
          have hd : (match e.Description with | some text => text | none => [])
              = e.Description.getD [] := by
            cases e.Description <;> rfl
          rw [ht, hs, hd]
          simp [cResponsePacket.add_U32, cResponsePacket.add_String, specEventFields, be32_u32,
            List.append_assoc]

/-- Claim C27. `processEPG_GetForChannel` returns true and writes one reply.
    When `FindChannelByUID` finds no channel, or the channel has no schedule,
    the payload added to the reply is one U32 zero. For a channel with a
    schedule, and a clock that reads `now` at every call during the request,
    the payload added is the one the specification describes: the fields of
    the events that qualify, in schedule order (texts passed through
    `m_toUTF8.Convert`), or one U32 zero when none qualifies. -/
theorem C27_epg_get_for_channel (host : EpgHost) (req : cRequestPacket)
    (resp : cResponsePacket) (s : EpgSession) :
    (host.FindChannelByUID req.extract_U32.1 = none →
      (processEPG_GetForChannel host req resp s).1 = true
      ∧ (processEPG_GetForChannel host req resp s).2.client
          = s.client.write { resp with payload := resp.payload ++ be32 0, finalised := true })
    ∧ (∀ channel : cChannel, host.FindChannelByUID req.extract_U32.1 = some channel →
        host.GetSchedule channel = none →
        (processEPG_GetForChannel host req resp s).1 = true
        ∧ (processEPG_GetForChannel host req resp s).2.client
            = s.client.write { resp with payload := resp.payload ++ be32 0, finalised := true })
    ∧ (∀ (channel : cChannel) (events : List cEvent) (now : Nat),
        host.FindChannelByUID req.extract_U32.1 = some channel →
        host.GetSchedule channel = some events →
        (∀ i, host.time i = now) →
        (processEPG_GetForChannel host req resp s).1 = true
        ∧ (processEPG_GetForChannel host req resp s).2.client
            = s.client.write
                { resp with
                  payload := resp.payload ++ specEpgPayload host.Convert now
                    req.extract_U32.2.extract_U32.1
                    req.extract_U32.2.extract_U32.2.extract_U32.1 events,
                  finalised := true }) := by
  refine ⟨?_, ?_, ?_⟩
  · intro hch
    simp [processEPG_GetForChannel, hch, cResponsePacket.add_U32, cResponsePacket.finalise]
  · intro channel hch hsch
    simp [processEPG_GetForChannel, hch, hsch, cResponsePacket.add_U32,
      cResponsePacket.finalise]
  · intro channel events now hch hsch hnow
    unfold processEPG_GetForChannel
    simp only [hch, hsch]
    rw [epgEventLoop_spec host now _ _ hnow]
    by_cases hf : events.filter (specQualifies now req.extract_U32.2.extract_U32.1
        req.extract_U32.2.extract_U32.2.extract_U32.1) = []
    · cases events.getLast? <;>
        simp [hf, specEpgPayload, cResponsePacket.add_U32, cResponsePacket.finalise]
    · cases events.getLast? <;>
        simp [hf, specEpgPayload, cResponsePacket.add_U32, cResponsePacket.finalise]

/-- Witness of C27: at time 1700000000 a request for channel 100 from
    1700000000 on, without duration limit, gets the running and the later
    event, not the one that is over. -/
theorem C27_witness :
    (processEPG_GetForChannel sampleEpgHost
        (cRequestPacket.new 4 120 (be32 100 ++ be32 1700000000 ++ be32 0))
        (cResponsePacket.init 4) statusSession).2.client.m_socket.written.getLast?
      = some { kind := PacketKind.response, ident := 4,
               payload := be32 2 ++ be32 1699999000 ++ be32 3600 ++ be32 32 ++ be32 12
                 ++ [78, 0] ++ [110, 0] ++ [0]
                 ++ be32 3 ++ be32 1700002600 ++ be32 1800 ++ be32 0 ++ be32 0
                 ++ [0] ++ [0] ++ [100, 0],
               finalised := true } := by
  have h := (C27_epg_get_for_channel sampleEpgHost
    (cRequestPacket.new 4 120 (be32 100 ++ be32 1700000000 ++ be32 0))
    (cResponsePacket.init 4) statusSession).2.2 { number := 1 } _ 1700000000
    (by decide) rfl (fun _ => rfl)
  rw [h.2]
  decide

theorem count_step (x a c b k : Nat) (hk : k = c + 1) (h : x + (a + 1) ≤ k + b) :
    x + a ≤ c + b := by
  omega

theorem count_keep (x a c b k : Nat) (hk : k = c) (h : x + a ≤ k + b) : x + a ≤ c + b := by
  omega

theorem EpgChangeLoop_bound (n : vnsinotify) (initOk : Bool) (id : Nat)
    (schedules : List cSchedule) :
    ∀ (s : EpgSession) (sent : List Nat) (e : sEpgUpdate), s.m_epgUpdate id = some e →
      ∃ e1, (EpgChangeLoop n initOk schedules s sent).session.m_epgUpdate id = some e1
        ∧ e1.lastEvent = e.lastEvent
        ∧ (EpgChangeLoop n initOk schedules s sent).sent.count id + e.attempts
            ≤ sent.count id + e1.attempts
        ∧ e1.attempts ≤ max e.attempts 4 := by
  induction schedules with
  | nil =>
    intro s sent e h
    exact ⟨e, h, rfl, le_refl _, le_max_left _ _⟩
  | cons sch rest ih =>
    intro s sent e h
    rw [EpgChangeLoop]
    split
    · exact ih s sent e h
    · split
      · exact ih s sent e h
      · split
        · exact ih s sent e h
        · dsimp only
          split
          · rename_i entry hentry
            split
            · exact ih s sent e h
            · split
              · exact ih s sent e h
              · rename_i hatt
                by_cases hid : sch.channelHash = id
                · subst hid
                  have he : entry = e := by
                    rw [h] at hentry
                    exact (Option.some.inj hentry).symm
                  subst he
                  split
                  · refine ⟨{ entry with attempts := entry.attempts + 1 }, ?_, rfl, ?_, ?_⟩
                    · simp
                    · simp
                    · simp only [le_max_iff]
                      right
                      omega
                  · obtain ⟨e1, h1, h2, h3, h4⟩ := ih
                      { client := s.client.write
                          ((cResponsePacket.initStatus n.VNSI_STATUS_EPGCHANGE).add_U32
                            sch.channelHash).finalise,
                        m_epgUpdate := Function.update s.m_epgUpdate sch.channelHash
                          (some { entry with attempts := entry.attempts + 1 }) }
                      (sent ++ [sch.channelHash])
                      { entry with attempts := entry.attempts + 1 } (by simp)
                    refine ⟨e1, h1, h2, count_step _ _ _ _ _ (by simp) h3, ?_⟩
                    · simp only [le_max_iff] at h4 ⊢
                      right
                      omega
                · split
                  · refine ⟨e, ?_, rfl, le_refl _, le_max_left _ _⟩
                    simp only
                    rw [Function.update_noteq (Ne.symm hid)]
                    exact h
                  · obtain ⟨e1, h1, h2, h3, h4⟩ := ih
                      { client := s.client.write
                          ((cResponsePacket.initStatus n.VNSI_STATUS_EPGCHANGE).add_U32
                            sch.channelHash).finalise,
                        m_epgUpdate := Function.update s.m_epgUpdate sch.channelHash
                          (some { entry with attempts := entry.attempts + 1 }) }
                      (sent ++ [sch.channelHash]) e
                      (by simp only; rw [Function.update_noteq (Ne.symm hid)]; exact h)
                    have hc : List.count id [sch.channelHash] = 0 := by
                      simp [List.count_singleton, hid]
                    exact ⟨e1, h1, h2,
                      count_keep _ _ _ _ _ (by simp only [List.count_append, hc]; rfl) h3, h4⟩
          · exact ⟨e, h, rfl, le_refl _, le_max_left _ _⟩

theorem EpgChangeLoop_quiet (n : vnsinotify) (initOk : Bool) (id : Nat)
    (schedules : List cSchedule) :
    ∀ (s : EpgSession) (sent : List Nat) (e : sEpgUpdate), s.m_epgUpdate id = some e →
      (∀ schedule ∈ schedules, schedule.channelHash = id →
        ∀ t, schedule.lastEventStart = some t → t ≤ e.lastEvent) →
      (EpgChangeLoop n initOk schedules s sent).session.m_epgUpdate id = some e
      ∧ (EpgChangeLoop n initOk schedules s sent).sent.count id = sent.count id := by
  induction schedules with
  | nil =>
    intro s sent e h _
    exact ⟨h, rfl⟩
  | cons sch rest ih =>
    intro s sent e h hq
    have hrest : ∀ schedule ∈ rest, schedule.channelHash = id →
        ∀ t, schedule.lastEventStart = some t → t ≤ e.lastEvent :=
      fun schedule hm => hq schedule (List.mem_cons_of_mem _ hm)
    rw [EpgChangeLoop]
    split
    · exact ih s sent e h hrest
    · rename_i lastStart hlast
      split
      · exact ih s sent e h hrest
      · split
        · exact ih s sent e h hrest
        · dsimp only
          split
          · rename_i entry hentry
            split
            · exact ih s sent e h hrest
            · rename_i hnew
              split
              · exact ih s sent e h hrest
              · by_cases hid : sch.channelHash = id
                · exfalso
                  rw [hid, h] at hentry
                  have he : e = entry := Option.some.inj hentry
                  have := hq sch (List.mem_cons_self _ _) hid lastStart hlast
                  rw [he] at this
                  omega
                · split
                  · refine ⟨?_, rfl⟩
                    simp only
                    rw [Function.update_noteq (Ne.symm hid)]
                    exact h
                  · have hc : List.count id [sch.channelHash] = 0 := by
                      simp [List.count_singleton, hid]
                    obtain ⟨h1, h2⟩ := ih
                      { client := s.client.write
                          ((cResponsePacket.initStatus n.VNSI_STATUS_EPGCHANGE).add_U32
                            sch.channelHash).finalise,
                        m_epgUpdate := Function.update s.m_epgUpdate sch.channelHash
                          (some { entry with attempts := entry.attempts + 1 }) }
                      (sent ++ [sch.channelHash]) e
                      (by simp only; rw [Function.update_noteq (Ne.symm hid)]; exact h) hrest
                    exact ⟨h1, h2.trans (by simp only [List.count_append, hc]; rfl)⟩
          · exact ⟨h, rfl⟩

theorem EpgChangeLoop_written (n : vnsinotify) (initOk : Bool) (schedules : List cSchedule) :
    ∀ (s : EpgSession) (sent : List Nat) (base : List cResponsePacket),
      s.client.m_socket.written = base ++ sent.map (fun channelId =>
        ((cResponsePacket.initStatus n.VNSI_STATUS_EPGCHANGE).add_U32 channelId).finalise) →
      (EpgChangeLoop n initOk schedules s sent).session.client.m_socket.written
        = base ++ (EpgChangeLoop n initOk schedules s sent).sent.map (fun channelId =>
          ((cResponsePacket.initStatus n.VNSI_STATUS_EPGCHANGE).add_U32 channelId).finalise) := by
  induction schedules with
  | nil =>
    intro s sent base h
    exact h
  | cons sch rest ih =>
    intro s sent base h
    rw [EpgChangeLoop]
    split
    · exact ih s sent base h
    · split
      · exact ih s sent base h
      · split
        · exact ih s sent base h
        · dsimp only
          split
          · split
            · exact ih s sent base h
            · split
              · exact ih s sent base h
              · split
                · exact h
                · apply ih
                  simp [cVNSIClient.write, cxSocket.write, h]
          · exact h

theorem count_zero (x a b k : Nat) (hk : k = 0) (h : x + a ≤ k + b) : x + a ≤ b := by
  omega

theorem EpgChange_bound (n : vnsinotify) (initOk : Bool) (id : Nat)
    (schedules : Option (List cSchedule)) (s : EpgSession) (e : sEpgUpdate)
    (h : s.m_epgUpdate id = some e) :
    ∃ e1, (EpgChange n initOk schedules s).session.m_epgUpdate id = some e1
      ∧ e1.lastEvent = e.lastEvent
      ∧ (EpgChange n initOk schedules s).sent.count id + e.attempts ≤ e1.attempts
      ∧ e1.attempts ≤ max e.attempts 4 := by
  unfold EpgChange
  split
  · exact ⟨e, h, rfl, by simp, le_max_left _ _⟩
  · split
    · exact ⟨e, h, rfl, by simp, le_max_left _ _⟩
    · rename_i list
      obtain ⟨e1, h1, h2, h3, h4⟩ := EpgChangeLoop_bound n initOk id list s [] e h
      exact ⟨e1, h1, h2, count_zero _ _ _ _ (by simp) h3, h4⟩

theorem EpgChange_quiet (n : vnsinotify) (initOk : Bool) (id : Nat)
    (schedules : Option (List cSchedule)) (s : EpgSession) (e : sEpgUpdate)
    (h : s.m_epgUpdate id = some e)
    (hq : (EpgStep.change initOk schedules).nothingNewFor id e.lastEvent) :
    (EpgChange n initOk schedules s).session.m_epgUpdate id = some e
    ∧ (EpgChange n initOk schedules s).sent.count id = 0 := by
  unfold EpgChange
  split
  · exact ⟨h, rfl⟩
  · split
    · exact ⟨h, rfl⟩
    · rename_i list
      exact EpgChangeLoop_quiet n initOk id list s [] e h hq

theorem count_join (l1 l2 : List Nat) (id a a1 a2 : Nat) (h1 : l1.count id + a ≤ a1)
    (h2 : l2.count id + a1 ≤ a2) : (l1 ++ l2).count id + a ≤ a2 := by
  rw [List.count_append]
  omega

theorem epgCreateEntry_keeps (m : Nat → Option sEpgUpdate) (uuid id : Nat) (e : sEpgUpdate)
    (h : m id = some e) : epgCreateEntry m uuid id = some e := by
  unfold epgCreateEntry
  cases hm : m uuid with
  | none =>
    have hne : id ≠ uuid := by
      intro hid
      rw [hid, hm] at h
      cases h
    dsimp only
    rw [Function.update_noteq hne]
    exact h
  | some v => exact h

theorem EpgSteps_bound (n : vnsinotify) (id : Nat) (steps : List EpgStep) :
    ∀ (s : EpgSession) (e : sEpgUpdate), s.m_epgUpdate id = some e →
      (∀ step ∈ steps, step.resets id = false) →
      ∃ e1, (EpgSteps n steps s).session.m_epgUpdate id = some e1
        ∧ e1.lastEvent = e.lastEvent
        ∧ (EpgSteps n steps s).sent.count id + e.attempts ≤ e1.attempts
        ∧ e1.attempts ≤ max e.attempts 4 := by
  induction steps with
  | nil =>
    intro s e h _
    exact ⟨e, h, rfl, by simp [EpgSteps], le_max_left _ _⟩
  | cons step rest ih =>
    intro s e h hr
    have hrest : ∀ step ∈ rest, step.resets id = false :=
      fun st hm => hr st (List.mem_cons_of_mem _ hm)
    have hstep := hr step (List.mem_cons_self _ _)
    cases step with
    | change initOk schedules =>
      obtain ⟨e1, h1, h2, h3, h4⟩ := EpgChange_bound n initOk id schedules s e h
      rw [EpgSteps]
      dsimp only
      split
      · exact ⟨e1, h1, h2, h3, h4⟩
      · obtain ⟨e2, g1, g2, g3, g4⟩ := ih (EpgChange n initOk schedules s).session e1 h1 hrest
        refine ⟨e2, g1, g2.trans h2, count_join _ _ _ _ _ _ h3 g3, ?_⟩
        simp only [le_max_iff] at h4 g4 ⊢
        omega
    | create uuid =>
      rw [EpgSteps]
      apply ih _ e _ hrest
      exact epgCreateEntry_keeps _ uuid id e h
    | reset channelUID lastStart =>
      rw [EpgSteps]
      apply ih _ e _ hrest
      have hne : id ≠ channelUID := by
        intro hid
        simp [EpgStep.resets, hid] at hstep
      simp only [epgReset]
      rw [Function.update_noteq hne]
      exact h

theorem EpgSteps_quiet (n : vnsinotify) (id : Nat) (steps : List EpgStep) :
    ∀ (s : EpgSession) (e : sEpgUpdate), s.m_epgUpdate id = some e →
      (∀ step ∈ steps, step.resets id = false) →
      (∀ step ∈ steps, step.nothingNewFor id e.lastEvent) →
      (EpgSteps n steps s).sent.count id = 0 := by
  induction steps with
  | nil =>
    intro s e _ _ _
    rfl
  | cons step rest ih =>
    intro s e h hr hq
    have hrest : ∀ step ∈ rest, step.resets id = false :=
      fun st hm => hr st (List.mem_cons_of_mem _ hm)
    have hqrest : ∀ step ∈ rest, step.nothingNewFor id e.lastEvent :=
      fun st hm => hq st (List.mem_cons_of_mem _ hm)
    have hstep := hr step (List.mem_cons_self _ _)
    have hqstep := hq step (List.mem_cons_self _ _)
    cases step with
    | change initOk schedules =>
      obtain ⟨h1, h2⟩ := EpgChange_quiet n initOk id schedules s e h hqstep
      rw [EpgSteps]
      dsimp only
      split
      · exact h2
      · have g := ih (EpgChange n initOk schedules s).session e h1 hrest hqrest
        show List.count id (_ ++ _) = 0
        rw [List.count_append, h2, g]
    | create uuid =>
      rw [EpgSteps]
      apply ih _ e _ hrest hqrest
      exact epgCreateEntry_keeps _ uuid id e h
    | reset channelUID lastStart =>
      rw [EpgSteps]
      apply ih _ e _ hrest hqrest
      have hne : id ≠ channelUID := by
        intro hid
        simp [EpgStep.resets, hid] at hstep
      simp only [epgReset]
      rw [Function.update_noteq hne]
      exact h

/-- Claim C28. Take a session in which the channel with hash `id` has the
    entry `e` in `m_epgUpdate`, and any run of `EpgChange` calls, entry
    creations and resets of other channels, none of which resets `id`. The
    run sends at most `4 - e.attempts` VNSI_STATUS_EPGCHANGE notifications for
    `id` (none when the counter already exceeds 4), so at most 4 after a reset,
    which leaves the counter at 0; and it sends none when no call finds a
    schedule of the channel whose last event starts after `e.lastEvent`.
    Every notification counted is a status packet written to the socket by
    the call that sent it. -/
theorem C28_epg_rate_limit (n : vnsinotify) (id : Nat) (steps : List EpgStep)
    (s : EpgSession) (e : sEpgUpdate) (h : s.m_epgUpdate id = some e)
    (hr : ∀ step ∈ steps, step.resets id = false) :
    (EpgSteps n steps s).sent.count id + e.attempts ≤ max e.attempts 4
    ∧ (e.attempts = 0 → (EpgSteps n steps s).sent.count id ≤ 4)
    ∧ ((∀ step ∈ steps, step.nothingNewFor id e.lastEvent) →
        (EpgSteps n steps s).sent.count id = 0)
    ∧ (∀ (m : Nat → Option sEpgUpdate) (lastStart : Nat),
        (epgReset m id lastStart id).map sEpgUpdate.attempts = some 0)
    ∧ (∀ m : Nat → Option sEpgUpdate, m id = none →
        (epgCreateEntry m id id).map sEpgUpdate.attempts = some 0)
    ∧ (∀ (initOk : Bool) (list : List cSchedule),
        (EpgChangeLoop n initOk list s []).session.client.m_socket.written
          = s.client.m_socket.written
            ++ (EpgChangeLoop n initOk list s []).sent.map (fun channelId =>
                ((cResponsePacket.initStatus n.VNSI_STATUS_EPGCHANGE).add_U32
                  channelId).finalise)) := by
  obtain ⟨e1, _, _, h3, h4⟩ := EpgSteps_bound n id steps s e h hr
  refine ⟨le_trans h3 h4, ?_, EpgSteps_quiet n id steps s e h hr, ?_, ?_, ?_⟩
  · intro h0
    have := le_trans h3 h4
    rw [h0] at this
    simpa using this
  · intro m lastStart
    simp [epgReset]
  · intro m hm
    simp [epgCreateEntry, hm]
  · intro initOk list
    exact EpgChangeLoop_written n initOk list s [] s.client.m_socket.written (by simp)

/-- Witness of C28: after `processCHANNELS_GetChannels` has created the entry
    of channel 77, six `EpgChange` calls that each find a new last event send
    four notifications for it. -/
theorem C28_witness :
    List.count 77 (EpgSteps sampleNotify
      (List.replicate 6 (EpgStep.change true (some [schedule77 1700003600])))
      { statusSession with
        m_epgUpdate := epgCreateEntry statusSession.m_epgUpdate 77 }).sent ≤ 4
    ∧ (EpgSteps sampleNotify
      (List.replicate 6 (EpgStep.change true (some [schedule77 1700003600])))
      { statusSession with
        m_epgUpdate := epgCreateEntry statusSession.m_epgUpdate 77 }).sent = [77, 77, 77, 77] :=
  ⟨(C28_epg_rate_limit sampleNotify 77
      (List.replicate 6 (EpgStep.change true (some [schedule77 1700003600])))
      { statusSession with m_epgUpdate := epgCreateEntry statusSession.m_epgUpdate 77 }
      { attempts := 0, lastEvent := 0 } rfl (by decide)).2.1 rfl, rfl⟩

theorem s32_toS32 (v : Nat) : s32 (toS32 v) = v % 4294967296 := by
  unfold s32 toS32
  split <;> omega

theorem be32_mod (v : Nat) : be32 (v % 4294967296) = be32 v := be32_u32 v

theorem beValue_be32 (v : Nat) : beValue (be32 v) = v % 4294967296 := by
  simp only [beValue, be32, List.foldl]
  omega

theorem extract_U32_be32 (req : cRequestPacket) (v : Nat) (rest : List Nat)
    (h : req.userData.drop req.packetPos = be32 v ++ rest) :
    req.extract_U32 = (v % 4294967296, { req with packetPos := req.packetPos + 4 }) := by
  have hlen : (req.userData.drop req.packetPos).length = 4 + rest.length := by
    rw [h]
    simp [be32]
    omega
  have hle : req.packetPos + 4 ≤ req.userData.length := by
    rw [List.length_drop] at hlen
    omega
  unfold cRequestPacket.extract_U32 cRequestPacket.extractFixed
  rw [if_pos hle, h]
  have ht : (be32 v ++ rest).take 4 = be32 v := by
    simp [be32]
  rw [ht, beValue_be32]

theorem blacklistLoop_ids (ids : List Nat) :
    ∀ (fuel : Nat) (req : cRequestPacket) (channels : List Int),
      req.userData.drop req.packetPos = (ids.map be32).flatten →
      req.packetPos ≤ req.userData.length →
      ids.length < fuel →
      blacklistLoop fuel req channels = some (channels ++ ids.map toS32) := by
  induction ids with
  | nil =>
    intro fuel req channels h hpos hfuel
    obtain ⟨k, rfl⟩ : ∃ k, fuel = k + 1 := ⟨fuel - 1, by simp at hfuel; omega⟩
    have hend : req.atEnd = true := by
      have hl : (req.userData.drop req.packetPos).length = 0 := by
        rw [h]
        rfl
      rw [List.length_drop] at hl
      simp [cRequestPacket.atEnd]
      omega
    simp [blacklistLoop, hend]
  | cons v rest ih =>
    intro fuel req channels h hpos hfuel
    obtain ⟨k, rfl⟩ : ∃ k, fuel = k + 1 := ⟨fuel - 1, by simp at hfuel; omega⟩
    have h1 : req.userData.drop req.packetPos = be32 v ++ (rest.map be32).flatten := by
      rw [h]
      rfl
    have hlen : (req.userData.drop req.packetPos).length
        = 4 + ((rest.map be32).flatten).length := by
      rw [h1]
      simp [be32]
      omega
    rw [List.length_drop] at hlen
    have hend : req.atEnd = false := by
      simp [cRequestPacket.atEnd]
      omega
    rw [blacklistLoop, hend]
    simp only [Bool.false_eq_true, if_false]
    rw [extract_U32_be32 req v _ h1]
    rw [ih k { req with packetPos := req.packetPos + 4 } (channels ++ [toS32 (v % 4294967296)])]
    · have : toS32 (v % 4294967296) = toS32 v := by
        unfold toS32
        simp
      simp [this]
    · show req.userData.drop (req.packetPos + 4) = _
      rw [← List.drop_drop, h1]
      simp [be32]
    · show req.packetPos + 4 ≤ req.userData.length
      omega
    · simp at hfuel
      omega

theorem foldl_add_U32 (channels : List Int) :
    ∀ resp : cResponsePacket,
      channels.foldl (fun r channel => r.add_U32 (s32 channel)) resp
        = { resp with
            payload := resp.payload ++ (channels.map (fun channel => be32 (s32 channel))).flatten } := by
  induction channels with
  | nil =>
    intro resp
    simp
  | cons channel rest ih =>
    intro resp
    rw [List.foldl_cons, ih]
    simp [cResponsePacket.add_U32, List.append_assoc]

theorem extract_U8_first (requestID opcode r : Nat) (rest : List Nat) :
    (cRequestPacket.new requestID opcode (r :: rest)).extract_U8
      = (r % 256, { requestID := requestID, opCode := opcode, userData := r :: rest,
                    packetPos := 1 }) := by
  simp [cRequestPacket.new, cRequestPacket.extract_U8, cRequestPacket.extractFixed, beValue]

/-- Claim C29. `processCHANNELS_SetBlacklist` with the payload (r, c1, ...,
    cn), given more loop passes than there are ids, returns true, writes its
    reply and leaves a filter state in which `processCHANNELS_GetBlacklist`
    with the same flag r replies with exactly c1, ..., cn (each modulo 2^32)
    in the same order, whatever the list held before; the list of the other
    kind is unchanged. -/
theorem C29_blacklist_round_trip (fuel r : Nat) (ids : List Nat)
    (requestID opcode requestID2 opcode2 : Nat) (resp resp2 : cResponsePacket)
    (f : cVNSIChannelFilter) (c c2 : cVNSIClient) (hfuel : ids.length < fuel) :
    ∃ f1 : cVNSIChannelFilter,
      processCHANNELS_SetBlacklist fuel
          (cRequestPacket.new requestID opcode (r :: (ids.map be32).flatten)) resp f c
        = some (true, f1, c.write resp.finalise)
      ∧ processCHANNELS_GetBlacklist (cRequestPacket.new requestID2 opcode2 [r]) resp2 f1 c2
        = (true, c2.write
            { resp2 with payload := resp2.payload ++ (ids.map be32).flatten, finalised := true })
      ∧ (r % 256 ≠ 0 → f1.m_channelsVideo = f.m_channelsVideo)
      ∧ (r % 256 = 0 → f1.m_channelsRadio = f.m_channelsRadio) := by
  have hloop := blacklistLoop_ids ids fuel
    { requestID := requestID, opCode := opcode, userData := r :: (ids.map be32).flatten,
      packetPos := 1 } [] rfl (by simp) hfuel
  have hmap : (ids.map ((fun channel => be32 (s32 channel)) ∘ toS32)).flatten
      = (ids.map be32).flatten := by
    congr 1
    apply List.map_congr_left
    intro v _
    simp [s32_toS32, be32_mod]
  by_cases hr : r % 256 = 0
  · refine ⟨{ f with m_channelsVideo := ids.map toS32 }, ?_, ?_, ?_, ?_⟩
    · simp [processCHANNELS_SetBlacklist, extract_U8_first, hloop, hr]
    · simp [processCHANNELS_GetBlacklist, extract_U8_first, hr, foldl_add_U32, hmap,
        cResponsePacket.finalise]
    · intro h
      exact absurd hr h
    · intro _
      rfl
  · refine ⟨{ f with m_channelsRadio := ids.map toS32 }, ?_, ?_, ?_, ?_⟩
    · simp [processCHANNELS_SetBlacklist, extract_U8_first, hloop, hr]
    · simp [processCHANNELS_GetBlacklist, extract_U8_first, hr, foldl_add_U32, hmap,
        cResponsePacket.finalise]
    · intro _
      rfl
    · intro h
      exact absurd h hr

/-- Witness of C29: the video blacklist [6, 7] is replaced by [300, 4], the
    radio blacklist stays [5]. -/
theorem C29_witness :
    ∃ f1 : cVNSIChannelFilter,
      processCHANNELS_SetBlacklist 3
          (cRequestPacket.new 5 70 (0 :: ([300, 4].map be32).flatten)) (cResponsePacket.init 5)
          sampleFilter loggedInSession
        = some (true, f1, loggedInSession.write (cResponsePacket.init 5).finalise)
      ∧ processCHANNELS_GetBlacklist (cRequestPacket.new 6 71 [0]) (cResponsePacket.init 6) f1
          loggedInSession
        = (true, loggedInSession.write
            { cResponsePacket.init 6 with
              payload := (cResponsePacket.init 6).payload ++ ([300, 4].map be32).flatten,
              finalised := true })
      ∧ (0 % 256 ≠ 0 → f1.m_channelsVideo = sampleFilter.m_channelsVideo)
      ∧ (0 % 256 = 0 → f1.m_channelsRadio = sampleFilter.m_channelsRadio) :=
  C29_blacklist_round_trip 3 0 [300, 4] 5 70 6 71 (cResponsePacket.init 5)
    (cResponsePacket.init 6) sampleFilter loggedInSession loggedInSession (by decide)

/-- Claim C24, evaluated at the failing input. After
    `processCHANNELS_GroupsCount` the array `m_channelgroups` holds the group
    "A" in element 0 and in element 1. A VNSI_CHANNELS_GROUPLIST request whose
    payload is the byte 2 uses `m_channelgroups[2]`, and so does a request for
    the members of group "A" with radio byte 2: both index the array outside
    its two elements. With the byte 1 both stay inside. -/
theorem C24_failing_input :
    groupSession.m_channelgroups.element0.map Prod.fst = [[65]]
    ∧ groupSession.m_channelgroups.element1.map Prod.fst = [[65]]
    ∧ (cRequestPacket.new 3 61 [2]).extract_U8.1 = 2
    ∧ groupSession.m_channelgroups.index 2 = none
    ∧ processCHANNELS_GroupList (cRequestPacket.new 3 61 [2]) (cResponsePacket.init 3)
        groupSession = none
    ∧ processCHANNELS_GetGroupMembers sampleGroupChannels
        (cRequestPacket.new 4 62 [65, 0, 2, 0]) (cResponsePacket.init 4) groupSession = none
    ∧ (processCHANNELS_GroupList (cRequestPacket.new 3 61 [1]) (cResponsePacket.init 3)
        groupSession).isSome = true
    ∧ (processCHANNELS_GetGroupMembers sampleGroupChannels
        (cRequestPacket.new 4 62 [65, 0, 1, 0]) (cResponsePacket.init 4)
        groupSession).isSome = true := by
  refine ⟨by decide, by decide, by decide, rfl, by decide, by decide, by decide, by decide⟩

/-- Claim C21, evaluated at the failing input. The uid 777 matches no
    recording and no deleted recording of the sample host (the deleted one has
    hash 500). `processRECORDINGS_Delete` and
    `processRECORDINGS_DELETED_Undelete` reply with VNSI_RET_DATAUNKNOWN, but
    `processRECORDINGS_DELETED_Delete` returns true after writing a reply whose
    payload is empty: it has no status field. All three leave the lists as
    they are. With the uid 500 the same handler replies VNSI_RET_OK. -/
theorem C21_failing_input :
    sampleRecordingsHost.LookupWrite 777 = none
    ∧ (∀ recording ∈ sampleRecordingLists.DeletedRecordings,
        sampleRecordingsHost.CreateStringHash (sampleRecordingsHost.FileName recording) ≠ 777)
    ∧ processRECORDINGS_DELETED_Delete sampleCommand sampleRecordingsHost
        (cRequestPacket.new 5 183 (be32 777)) (cResponsePacket.init 5) sampleRecordingLists
        loggedInSession
      = (true, sampleRecordingLists, loggedInSession.write
          { kind := PacketKind.response, ident := 5, payload := [], finalised := true })
    ∧ processRECORDINGS_Delete sampleCommand sampleRecordingsHost
        (cRequestPacket.new 5 104 (be32 777)) (cResponsePacket.init 5) sampleRecordingLists
        loggedInSession
      = (true, sampleRecordingLists, loggedInSession.write
          { kind := PacketKind.response, ident := 5,
            payload := be32 sampleCommand.VNSI_RET_DATAUNKNOWN, finalised := true })
    ∧ processRECORDINGS_DELETED_Undelete sampleCommand sampleNotify sampleRecordingsHost
        (cRequestPacket.new 5 184 (be32 777)) (cResponsePacket.init 5) sampleRecordingLists
        loggedInSession
      = (true, sampleRecordingLists, loggedInSession.write
          { kind := PacketKind.response, ident := 5,
            payload := be32 sampleCommand.VNSI_RET_DATAUNKNOWN, finalised := true })
    ∧ processRECORDINGS_DELETED_Delete sampleCommand sampleRecordingsHost
        (cRequestPacket.new 5 183 (be32 500)) (cResponsePacket.init 5) sampleRecordingLists
        loggedInSession
      = (true, { sampleRecordingLists with DeletedRecordings := [] }, loggedInSession.write
          { kind := PacketKind.response, ident := 5,
            payload := be32 sampleCommand.VNSI_RET_OK, finalised := true }) := by
  refine ⟨by decide, by decide, by decide, by decide, by decide, by decide⟩

/-- Claim C25, evaluated at the failing input. Connection 0 of two starts a
    scan, then its command loop ends: the clean-up stops the scan and the
    connection is gone, but the static flag is still true although no
    connection has a running scan; the SCAN_Start of the connection that is
    left is answered VNSI_RET_NOTSUPPORTED. The same happens when the scan of
    connection 0 reports that it is finished. -/
theorem C25_failing_input :
    ((twoClients.sessions.map (ScanSession.afterLoop sampleScanHost)).map
        (fun s => s.m_ChannelScanControl.running)) = [false, false]
    ∧ (ScanServer.steps sampleCommand sampleNotify sampleScanHost twoClients
        [ScanEvent.request 0 (ScanRequest.start (cRequestPacket.new 1 143 [])),
         ScanEvent.loopEnds 0]).m_inhibidDataUpdates = true
    ∧ (ScanServer.steps sampleCommand sampleNotify sampleScanHost twoClients
        [ScanEvent.request 0 (ScanRequest.start (cRequestPacket.new 1 143 [])),
         ScanEvent.loopEnds 0]).activeScans = 0
    ∧ ((ScanServer.steps sampleCommand sampleNotify sampleScanHost twoClients
        [ScanEvent.request 0 (ScanRequest.start (cRequestPacket.new 1 143 [])),
         ScanEvent.loopEnds 0,
         ScanEvent.request 0 (ScanRequest.start (cRequestPacket.new 2 143 []))]).sessions.map
          (fun s => s.client.m_socket.written.getLast?))
        = [some { kind := PacketKind.response, ident := 2,
                  payload := be32 sampleCommand.VNSI_RET_NOTSUPPORTED, finalised := true }]
    ∧ (ScanServer.steps sampleCommand sampleNotify sampleScanHost twoClients
        [ScanEvent.request 0 (ScanRequest.start (cRequestPacket.new 1 143 [])),
         ScanEvent.finished 0 true]).m_inhibidDataUpdates = true
    ∧ (ScanServer.steps sampleCommand sampleNotify sampleScanHost twoClients
        [ScanEvent.request 0 (ScanRequest.start (cRequestPacket.new 1 143 [])),
         ScanEvent.finished 0 true]).activeScans = 0
    ∧ ((ScanServer.steps sampleCommand sampleNotify sampleScanHost twoClients
        [ScanEvent.request 0 (ScanRequest.start (cRequestPacket.new 1 143 [])),
         ScanEvent.finished 0 true,
         ScanEvent.request 1 (ScanRequest.start (cRequestPacket.new 2 143 []))]).sessions.map
          (fun s => s.client.m_socket.written.getLast?)).get? 1
        = some (some { kind := PacketKind.response, ident := 2,
                       payload := be32 sampleCommand.VNSI_RET_NOTSUPPORTED,
                       finalised := true }) := by
  refine ⟨by decide, by decide, by decide, by decide, by decide, by decide, by decide⟩

end VNSI
